import Mathlib

/-!
# ApplicationSkeletonPrototype: the `OS` window layer

A shallow embedding of `src/OS.cpp` / `src/OS.h`: the `OS::Window` and `OS::WindowClass` wrappers,
their handler tables, the class registry `window_class_by_name` and the message router
`Window::HandleMessage`.

The wrappers sit on the native windowing subsystem (`Windows.h`).  That subsystem is not part of
the repository; it is modelled by the `Native` state below, one function per native call the
source makes, following the documented behaviour of the call.  Pointers to wrapper objects are
indices into the object heaps of `Sys` (0 is `nullptr`).
-/

namespace OS

/-! ## Basic types -/

/-- A `std::wstring` / `const wchar*`: the list of its UTF-16 code units. -/
abbrev wstring := List Nat

abbrev HWND := Nat
abbrev HINSTANCE := Nat
abbrev HANDLE := Nat
abbrev UINT := Nat
abbrev DWORD := Nat
abbrev WPARAM := Nat
abbrev LPARAM := Int
abbrev LRESULT := Int

/-- A `Window*`; 0 is `nullptr`, `p + 1` is slot `p` of the heap of `Window` objects. -/
abbrev WindowPtr := Nat

/-- A `WindowClass*`; 0 is `nullptr`, `p + 1` is slot `p` of the heap of `WindowClass` objects. -/
abbrev WindowClassPtr := Nat

def WM_DESTROY : UINT := 0x0002
def WM_CLOSE : UINT := 0x0010
def WM_QUIT : UINT := 0x0012
def WM_ERASEBKGND : UINT := 0x0014
def WM_NCCREATE : UINT := 0x0081
def WM_NCDESTROY : UINT := 0x0082

def WS_POPUP : DWORD := 0x80000000
def WS_CHILD : DWORD := 0x40000000
def WS_VISIBLE : DWORD := 0x10000000

def CS_VREDRAW : DWORD := 0x0001
def CS_HREDRAW : DWORD := 0x0002
def CS_PARENTDC : DWORD := 0x0080
def CS_GLOBALCLASS : DWORD := 0x4000

def COLOR_WINDOW : Nat := 5
def IDI_APPLICATION : Nat := 32512
def IDC_ARROW : Nat := 32512

/-- The pseudo handle `HWND_MESSAGE`, `(HWND)-3` as a 64-bit pointer value. -/
def HWND_MESSAGE : HWND := 2 ^ 64 - 3

/-- The property name `L"Window.Instance"` (`WINDOW_INSTANCE_PROPERTY`). -/
def WINDOW_INSTANCE_PROPERTY : wstring :=
  [87, 105, 110, 100, 111, 119, 46, 73, 110, 115, 116, 97, 110, 99, 101]

/-- The suffix `L"#prototype"` appended to the class name in `createPrototype`. -/
def PROTOTYPE_SUFFIX : wstring := [35, 112, 114, 111, 116, 111, 116, 121, 112, 101]

/-- The literal `L"button#prototype"` tested in `Window::FromHandle`. -/
def BUTTON_PROTOTYPE : wstring := [98, 117, 116, 116, 111, 110] ++ PROTOTYPE_SUFFIX

/-- The literal `L"Untitled Window"` of `WindowClass::instantiate()`. -/
def UNTITLED_WINDOW : wstring :=
  [85, 110, 116, 105, 116, 108, 101, 100, 32, 87, 105, 110, 100, 111, 119]

/-- `std::towlower` in the "C" locale: the letters A-Z go to a-z, every other unit is kept. -/
def towlower (c : Nat) : Nat :=
  if 65 ≤ c ∧ c ≤ 90 then c + 32 else c

/-- The loop `for(offset...) s[offset] = std::towlower(s[offset])` of `Register` and `GetByName`. -/
def lowercase (s : wstring) : wstring := s.map towlower

/-! ## `std::map` -/

namespace StdMap

variable {K V : Type} [DecidableEq K] [LT K] [DecidableRel (fun a b : K => a < b)]

/-- `m.find(k)`: the value stored under `k`, if any. -/
def find (k : K) : List (K × V) → Option V
  | [] => none
  | (k1, v1) :: rest => if k1 = k then some v1 else find k rest

/-- `m.count(k)`. -/
def count (k : K) (m : List (K × V)) : Nat :=
  if (find k m).isSome then 1 else 0

/-- `m[k] = v`: replaces the value of an existing key, otherwise inserts in key order. -/
def assign (k : K) (v : V) : List (K × V) → List (K × V)
  | [] => [(k, v)]
  | (k1, v1) :: rest =>
    if k < k1 then (k, v) :: (k1, v1) :: rest
    else if k1 = k then (k, v) :: rest
    else (k1, v1) :: assign k v rest

/-- `m.erase(k)`. -/
def erase (k : K) (m : List (K × V)) : List (K × V) :=
  m.filter (fun e => decide (e.1 ≠ k))

end StdMap

/-! ## Message handlers

`MessageHandler` is `std::function<LRESULT(Window*,WPARAM,LPARAM)>`.  The closures the library
itself builds are constructors that record what the lambda captured; a handler supplied by the
application is an opaque code `E`, given its behaviour by the environment `Env`. -/

inductive MessageHandler (E : Type) where
  /-- A handler supplied by the application. -/
  | custom (f : E)
  /-- The lambda `[this,message]` returned by `WindowClass::getDefaultMessageHandler`. -/
  | nativeDefault (this : WindowClassPtr) (message : UINT)
  /-- The `WM_CLOSE` lambda of `setDefaultMessageHandlers`. -/
  | swallowClose
  /-- The `WM_ERASEBKGND` lambda of `setDefaultMessageHandlers`. -/
  | eraseBackground
  /-- The lambda `[handler,previous_handler]` of `extendMessageHandler` and
  `extendDefaultMessageHandler`. -/
  | extended (handler : E) (previous_handler : MessageHandler E)
  deriving DecidableEq, Repr

/-! ## Native state -/

/-- A window procedure (`WNDPROC`), as the address of the procedure. -/
abbrev WNDPROC := Nat

/-- Address of the native `DefWindowProc`. -/
def DefWindowProc : WNDPROC := 1

/-- Address of the lambda installed with `SetClassLongPtr(...,GCLP_WNDPROC,...)` by the class
constructor. -/
def classThunk : WNDPROC := 2

/-- Address of the router `Window::HandleMessage`. -/
def HandleMessageProc : WNDPROC := 3

/-- A registered native class (the `WNDCLASSEX` it was registered with). -/
structure WNDCLASSEX where
  style : DWORD
  lpfnWndProc : WNDPROC
  hInstance : HINSTANCE
  hIcon : HANDLE
  hCursor : HANDLE
  hbrBackground : HANDLE
  lpszMenuName : HANDLE
  lpszClassName : wstring
  hIconSm : HANDLE
  deriving DecidableEq, Repr

/-- A native window. -/
structure NativeWindow where
  /-- Slot of the window's class in the class table. -/
  cls : Nat
  hInstance : HINSTANCE
  wndProc : WNDPROC
  parent : HWND
  style : DWORD
  exStyle : DWORD
  x : Int
  y : Int
  width : Int
  height : Int
  text : wstring
  props : List (wstring × HANDLE)
  deriving DecidableEq, Repr

/-- A `RECT`. -/
structure RECT where
  left : Int
  top : Int
  right : Int
  bottom : Int
  deriving DecidableEq, Repr

/-- The native windowing subsystem.  Handle `h + 1` is slot `h` of `windows`; a destroyed window and
an unregistered class leave an empty slot, so handles are not reused. -/
structure Native where
  classes : List (Option WNDCLASSEX)
  windows : List (Option NativeWindow)
  /-- The value of `GetModuleHandle(nullptr)`. -/
  module : HINSTANCE
  /-- Exit codes posted with `PostQuitMessage`, oldest first. -/
  quit : List Int
  /-- Number of error boxes shown by `DisplayErrorMessage`. -/
  diagnostics : Nat
  /-- What the memory of a local `RECT` holds before anything is written to it.
  `Window::getRectangle` declares `RECT rectangle;` without an initialiser; when the native call
  fails the local is returned as it is.  No call writes this field and nothing is assumed about
  its value. -/
  uninitialised : RECT
  deriving DecidableEq, Repr

/-! ## Native calls

Class indices of `GetClassLongPtr` and window indices of `GetWindowLongPtr`, with their values in
`Windows.h`. -/

def GCLP_MENUNAME : Int := -8
def GCLP_HBRBACKGROUND : Int := -10
def GCLP_HCURSOR : Int := -12
def GCLP_HICON : Int := -14
def GCLP_HMODULE : Int := -16
def GCLP_WNDPROC : Int := -24
def GCL_STYLE : Int := -26
def GCW_ATOM : Int := -32
def GCLP_HICONSM : Int := -34

def GWLP_WNDPROC : Int := -4
def GWLP_HINSTANCE : Int := -6
def GWL_STYLE : Int := -16
def GWL_EXSTYLE : Int := -20

def SWP_NOSIZE : UINT := 0x0001
def SWP_NOMOVE : UINT := 0x0002
def SWP_NOZORDER : UINT := 0x0004

/-- First occupied slot whose content satisfies `p`. -/
def findSlot {α : Type} (p : α → Bool) : List (Option α) → Option Nat
  | [] => none
  | none :: rest => (findSlot p rest).map (fun i => i + 1)
  | some a :: rest => if p a then some 0 else (findSlot p rest).map (fun i => i + 1)

namespace Native

/-- The window behind handle `h`, if `h` is the handle of an existing window. -/
def window (n : Native) (h : HWND) : Option NativeWindow :=
  if h = 0 then none else n.windows[h - 1]?.join

/-- The class in slot `i` of the class table. -/
def classAt (n : Native) (i : Nat) : Option WNDCLASSEX :=
  n.classes[i]?.join

/-- Native `IsWindow`. -/
def IsWindow (n : Native) (h : HWND) : Bool :=
  (n.window h).isSome

/-- Write `w` over the window behind `h`. -/
def putWindow (n : Native) (h : HWND) (w : Option NativeWindow) : Native :=
  { n with windows := n.windows.set (h - 1) w }

/-- Write `c` over class slot `i`. -/
def putClass (n : Native) (i : Nat) (c : Option WNDCLASSEX) : Native :=
  { n with classes := n.classes.set i c }

/-- Class names are compared without regard to letter case. -/
def sameName (a b : wstring) : Bool :=
  decide (lowercase a = lowercase b)

/-- Class lookup as done for `GetClassInfoEx` and `CreateWindowEx`: a class of that name registered
by module `context`, or a global class of that name. -/
def findClass (n : Native) (name : wstring) (context : HINSTANCE) : Option Nat :=
  findSlot (fun c => sameName c.lpszClassName name &&
    (decide (c.hInstance = context) || decide (c.style &&& CS_GLOBALCLASS ≠ 0))) n.classes

/-- Class lookup as done for `RegisterClassEx` and `UnregisterClass`: a class of that name
registered by module `context`. -/
def findOwnClass (n : Native) (name : wstring) (context : HINSTANCE) : Option Nat :=
  findSlot (fun c => sameName c.lpszClassName name && decide (c.hInstance = context)) n.classes

/-- Native `GetClassInfoEx(context,name,&data) != FALSE`. -/
def GetClassInfoEx (n : Native) (context : HINSTANCE) (name : wstring) : Bool :=
  (n.findClass name context).isSome

/-- Native `RegisterClassEx`: fails (returns `false`) when the module already registered a class
of that name, otherwise adds the class. -/
def RegisterClassEx (n : Native) (data : WNDCLASSEX) : Bool × Native :=
  if (n.findOwnClass data.lpszClassName data.hInstance).isSome then (false, n)
  else (true, { n with classes := n.classes ++ [some data] })

/-- Whether some existing window was created with the class in slot `i`. -/
def classHasWindows (n : Native) (i : Nat) : Bool :=
  n.windows.any (fun w => match w with
    | some w => decide (w.cls = i)
    | none => false)

/-- Native `UnregisterClass`: fails when the class is not found or a window created with it still
exists, otherwise removes the class. -/
def UnregisterClass (n : Native) (name : wstring) (context : HINSTANCE) : Bool × Native :=
  match n.findOwnClass name context with
  | none => (false, n)
  | some i => if n.classHasWindows i then (false, n) else (true, n.putClass i none)

/-- Native `CreateWindowEx`: returns the null handle when the class is not found or the parent is
neither null, `HWND_MESSAGE` nor an existing window; otherwise the new window takes the next
handle and the window procedure of its class.  The messages sent to the new window while it is
being created are not traced. -/
def CreateWindowEx (n : Native) (exStyle : DWORD) (className windowName : wstring) (style : DWORD)
    (x y width height : Int) (parent : HWND) (hInstance : HINSTANCE) : HWND × Native :=
  match n.findClass className hInstance with
  | none => (0, n)
  | some i =>
    match n.classAt i with
    | none => (0, n)
    | some c =>
      if parent ≠ 0 ∧ parent ≠ HWND_MESSAGE ∧ n.IsWindow parent = false then (0, n)
      else
        (n.windows.length + 1,
          { n with windows := n.windows ++ [some
              { cls := i, hInstance := hInstance, wndProc := c.lpfnWndProc, parent := parent,
                style := style, exStyle := exStyle, x := x, y := y, width := width,
                height := height, text := windowName, props := [] }] })

/-- Native `GetClassLongPtr(h,index)`; 0 on failure. -/
def GetClassLongPtr (n : Native) (h : HWND) (index : Int) : Nat :=
  match n.window h with
  | none => 0
  | some w =>
    match n.classAt w.cls with
    | none => 0
    | some c =>
      if index = GCL_STYLE then c.style
      else if index = GCLP_WNDPROC then c.lpfnWndProc
      else if index = GCLP_HMODULE then c.hInstance
      else if index = GCLP_HICON then c.hIcon
      else if index = GCLP_HCURSOR then c.hCursor
      else if index = GCLP_HBRBACKGROUND then c.hbrBackground
      else if index = GCLP_MENUNAME then c.lpszMenuName
      else if index = GCLP_HICONSM then c.hIconSm
      else if index = GCW_ATOM then 0xC000 + w.cls
      else 0

/-- Native `SetClassLongPtr(h,index,value)`. -/
def SetClassLongPtr (n : Native) (h : HWND) (index : Int) (value : Nat) : Native :=
  match n.window h with
  | none => n
  | some w =>
    match n.classAt w.cls with
    | none => n
    | some c =>
      if index = GCL_STYLE then n.putClass w.cls (some { c with style := value })
      else if index = GCLP_WNDPROC then n.putClass w.cls (some { c with lpfnWndProc := value })
      else if index = GCLP_HMODULE then n.putClass w.cls (some { c with hInstance := value })
      else if index = GCLP_HICON then n.putClass w.cls (some { c with hIcon := value })
      else if index = GCLP_HCURSOR then n.putClass w.cls (some { c with hCursor := value })
      else if index = GCLP_HBRBACKGROUND then
        n.putClass w.cls (some { c with hbrBackground := value })
      else if index = GCLP_MENUNAME then n.putClass w.cls (some { c with lpszMenuName := value })
      else if index = GCLP_HICONSM then n.putClass w.cls (some { c with hIconSm := value })
      else n

/-- Native `GetClassName(h,buffer,256)`; the empty string on failure. -/
def GetClassName (n : Native) (h : HWND) : wstring :=
  match n.window h with
  | none => []
  | some w =>
    match n.classAt w.cls with
    | none => []
    | some c => c.lpszClassName

/-- Native `GetWindowLongPtr(h,index)`; 0 on failure. -/
def GetWindowLongPtr (n : Native) (h : HWND) (index : Int) : Nat :=
  match n.window h with
  | none => 0
  | some w =>
    if index = GWL_STYLE then w.style
    else if index = GWL_EXSTYLE then w.exStyle
    else if index = GWLP_WNDPROC then w.wndProc
    else if index = GWLP_HINSTANCE then w.hInstance
    else 0

/-- Native `SetWindowLongPtr(h,index,value)`. -/
def SetWindowLongPtr (n : Native) (h : HWND) (index : Int) (value : Nat) : Native :=
  match n.window h with
  | none => n
  | some w =>
    if index = GWL_STYLE then n.putWindow h (some { w with style := value })
    else if index = GWL_EXSTYLE then n.putWindow h (some { w with exStyle := value })
    else if index = GWLP_WNDPROC then n.putWindow h (some { w with wndProc := value })
    else if index = GWLP_HINSTANCE then n.putWindow h (some { w with hInstance := value })
    else n

/-- Native `GetProp(h,name)`; the null handle when the window has no such property. -/
def GetProp (n : Native) (h : HWND) (name : wstring) : HANDLE :=
  match n.window h with
  | none => 0
  | some w => (StdMap.find name w.props).getD 0

/-- Native `SetProp(h,name,value)`. -/
def SetProp (n : Native) (h : HWND) (name : wstring) (value : HANDLE) : Native :=
  match n.window h with
  | none => n
  | some w => n.putWindow h (some { w with props := (name, value) :: StdMap.erase name w.props })

/-- Native `RemoveProp(h,name)`. -/
def RemoveProp (n : Native) (h : HWND) (name : wstring) : Native :=
  match n.window h with
  | none => n
  | some w => n.putWindow h (some { w with props := StdMap.erase name w.props })

/-- Native `GetWindowTextLength(h)` together with `GetWindowText`: the window text, empty on
failure. -/
def GetWindowText (n : Native) (h : HWND) : wstring :=
  match n.window h with
  | none => []
  | some w => w.text

/-- Native `GetWindowRect(h,&rectangle)`: the new value of the caller's `rectangle`; a call that
fails leaves it as it was. -/
def GetWindowRect (n : Native) (h : HWND) (rectangle : RECT) : RECT :=
  match n.window h with
  | none => rectangle
  | some w => { left := w.x, top := w.y, right := w.x + w.width, bottom := w.y + w.height }

/-- Native `GetClientRect(h,&rectangle)`: the client area in its own coordinates (no frame is
modelled); a call that fails leaves the caller's `rectangle` as it was. -/
def GetClientRect (n : Native) (h : HWND) (rectangle : RECT) : RECT :=
  match n.window h with
  | none => rectangle
  | some w => { left := 0, top := 0, right := w.width, bottom := w.height }

/-- Native `ScreenToClient(h,&p)`: `p` relative to the origin of the window. -/
def ScreenToClient (n : Native) (h : HWND) (p : Int × Int) : Int × Int :=
  match n.window h with
  | none => p
  | some w => (p.1 - w.x, p.2 - w.y)

/-- Native `MoveWindow(h,x,y,width,height,repaint)`. -/
def MoveWindow (n : Native) (h : HWND) (x y width height : Int) : Native :=
  match n.window h with
  | none => n
  | some w => n.putWindow h (some { w with x := x, y := y, width := width, height := height })

/-- Native `SetWindowPos(h,nullptr,x,y,cx,cy,flags)` for the flags `SWP_NOMOVE` and `SWP_NOSIZE`. -/
def SetWindowPos (n : Native) (h : HWND) (x y cx cy : Int) (flags : UINT) : Native :=
  match n.window h with
  | none => n
  | some w =>
    let w1 := if flags &&& SWP_NOMOVE = 0 then { w with x := x, y := y } else w
    let w2 := if flags &&& SWP_NOSIZE = 0 then { w1 with width := cx, height := cy } else w1
    n.putWindow h (some w2)

/-- Native `PostQuitMessage(exit_code)`. -/
def PostQuitMessage (n : Native) (exit_code : Int) : Native :=
  { n with quit := n.quit ++ [exit_code] }

/-- The error box of `DisplayErrorMessage`. -/
def DisplayErrorMessage (n : Native) : Native :=
  { n with diagnostics := n.diagnostics + 1 }

end Native

/-! ## Wrapper state -/

/-- The data members of `OS::Window`. -/
structure Window (E : Type) where
  /-- Member `properties.background`. -/
  background : HANDLE
  message_handlers : List (UINT × MessageHandler E)
  module : HINSTANCE
  window_class : WindowClassPtr
  window_handle : HWND
  deriving DecidableEq, Repr

/-- The data members of `OS::WindowClass`. -/
structure WindowClass (E : Type) where
  class_name : wstring
  context : HINSTANCE
  instantiated_windows : List (HWND × WindowPtr)
  message_handlers : List (UINT × MessageHandler E)
  prototype : WindowPtr
  default_window_procedure : WNDPROC
  deriving DecidableEq, Repr

/-- The whole state: the native subsystem, the global `window_class_by_name`, and the heaps of
`WindowClass` and `Window` objects (`none` is a deleted `Window`). -/
structure Sys (E : Type) where
  native : Native
  window_class_by_name : List (wstring × WindowClassPtr)
  classObjs : List (WindowClass E)
  windowObjs : List (Option (Window E))
  deriving DecidableEq, Repr

/-- An `OS::RuntimeException`, with the text passed to `std::runtime_error`. -/
structure RuntimeException where
  information : String
  deriving DecidableEq, Repr

/-- How a call ends: it returns `a`, it throws `e`, or it leaves defined behaviour (a failed
`assert`, `DebugBreak`, or the use of a null or deleted pointer). -/
inductive Outcome (E α : Type) where
  | ok (a : α) (s : Sys E)
  | raised (e : RuntimeException) (s : Sys E)
  | fault
  deriving DecidableEq, Repr

/-- A computation on the state. -/
abbrev M (E α : Type) := Sys E → Outcome E α

namespace M

variable {E α β : Type}

/-- Return `a`, state unchanged. -/
def ret (a : α) : M E α := fun s => Outcome.ok a s

/-- Run `m`, then `f` on its result; an exception or a fault of `m` ends the computation. -/
def andThen (m : M E α) (f : α → M E β) : M E β := fun s =>
  match m s with
  | Outcome.ok a s1 => f a s1
  | Outcome.raised e s1 => Outcome.raised e s1
  | Outcome.fault => Outcome.fault

/-- Statement `throw e`. -/
def throw (e : RuntimeException) : M E α := fun s => Outcome.raised e s

/-- Undefined behaviour or abort. -/
def abort : M E α := fun _ => Outcome.fault

/-- Read the state. -/
def get : M E (Sys E) := fun s => Outcome.ok s s

/-- Replace the state by `f` of it. -/
def modify (f : Sys E → Sys E) : M E Unit := fun s => Outcome.ok () (f s)

end M

/-- The application and native code the library calls back into. -/
structure Env (E : Type) where
  /-- Behaviour of an application `MessageHandler`. -/
  handler : E → WindowPtr → WPARAM → LPARAM → Sys E → LRESULT × Sys E
  /-- Behaviour of an application `ExtendingMessageHandler` (returns `void`). -/
  extending : E → WindowPtr → WPARAM → LPARAM → Sys E → Sys E
  /-- Behaviour of the native window procedures (`DefWindowProc` and those of system classes). -/
  windowProc : WNDPROC → HWND → UINT → WPARAM → LPARAM → Sys E → LRESULT × Sys E

instance {E : Type} : Monad (M E) where
  pure := M.ret
  bind := M.andThen

namespace Sys

variable {E : Type}

/-- The `Window` object behind `p`, if `p` points to one that was not deleted. -/
def windowAt (s : Sys E) (p : WindowPtr) : Option (Window E) :=
  if p = 0 then none else s.windowObjs[p - 1]?.join

/-- The `WindowClass` object behind `p`. -/
def classAt (s : Sys E) (p : WindowClassPtr) : Option (WindowClass E) :=
  if p = 0 then none else s.classObjs[p - 1]?

/-- Write `w` over the `Window` slot behind `p`. -/
def putWindow (s : Sys E) (p : WindowPtr) (w : Option (Window E)) : Sys E :=
  { s with windowObjs := s.windowObjs.set (p - 1) w }

/-- Write `c` over the `WindowClass` object behind `p`. -/
def putClass (s : Sys E) (p : WindowClassPtr) (c : WindowClass E) : Sys E :=
  { s with classObjs := s.classObjs.set (p - 1) c }

end Sys

namespace M

variable {E α : Type}

/-- Dereference a `Window*`; a null or deleted pointer is undefined behaviour. -/
def window (p : WindowPtr) : M E (Window E) := fun s =>
  match s.windowAt p with
  | some w => Outcome.ok w s
  | none => Outcome.fault

/-- Dereference a `WindowClass*`; a null pointer is undefined behaviour. -/
def windowClass (p : WindowClassPtr) : M E (WindowClass E) := fun s =>
  match s.classAt p with
  | some c => Outcome.ok c s
  | none => Outcome.fault

/-- Assign to data members of the `Window` behind `p`. -/
def updateWindow (p : WindowPtr) (f : Window E → Window E) : M E Unit := fun s =>
  match s.windowAt p with
  | some w => Outcome.ok () (s.putWindow p (some (f w)))
  | none => Outcome.fault

/-- Assign to data members of the `WindowClass` behind `p`. -/
def updateClass (p : WindowClassPtr) (f : WindowClass E → WindowClass E) : M E Unit := fun s =>
  match s.classAt p with
  | some c => Outcome.ok () (s.putClass p (f c))
  | none => Outcome.fault

/-- A native call that returns a value. -/
def call (f : Native → α) : M E α := fun s => Outcome.ok (f s.native) s

/-- A native call made for its effect. -/
def effect (f : Native → Native) : M E Unit := fun s =>
  Outcome.ok () { s with native := f s.native }

/-- A native call that returns a value and has an effect. -/
def callEffect (f : Native → α × Native) : M E α := fun s =>
  Outcome.ok (f s.native).1 { s with native := (f s.native).2 }

/-- A range-based `for` over `l`. -/
def forEach {β : Type} (f : β → M E Unit) : List β → M E Unit
  | [] => ret ()
  | b :: rest => andThen (f b) (fun _ => forEach f rest)

end M

/-! ## `OS::Window`, part 1: accessors and the instance handler table -/

namespace Window

variable {E : Type}

/-- `new Window(window_handle,window_class)`: the constructor asserts `IsWindow(window_handle)`;
`properties.background` is left uninitialised by the source, here it starts null. -/
def create (window_handle : HWND) (window_class : WindowClassPtr) : M E WindowPtr := fun s =>
  if s.native.IsWindow window_handle = false then Outcome.fault
  else Outcome.ok (s.windowObjs.length + 1)
    { s with windowObjs := s.windowObjs ++ [some
        { background := 0, message_handlers := [],
          module := s.native.GetWindowLongPtr window_handle GWLP_HINSTANCE,
          window_class := window_class, window_handle := window_handle }] }

/-- `delete window`. -/
def delete (this : WindowPtr) : M E Unit := fun s =>
  match s.windowAt this with
  | some _ => Outcome.ok () (s.putWindow this none)
  | none => Outcome.fault

/-- `Window::getNativeHandle`. -/
def getNativeHandle (this : WindowPtr) : M E HWND := do
  let w ← M.window this
  return w.window_handle

/-- `Window::getWindowClass`. -/
def getWindowClass (this : WindowPtr) : M E WindowClassPtr := do
  let w ← M.window this
  return w.window_class

/-- `Window::getExtendedStyle`. -/
def getExtendedStyle (this : WindowPtr) : M E DWORD := do
  let h ← getNativeHandle this
  M.call (fun n => n.GetWindowLongPtr h GWL_EXSTYLE)

/-- `Window::getStyle`. -/
def getStyle (this : WindowPtr) : M E DWORD := do
  let h ← getNativeHandle this
  M.call (fun n => n.GetWindowLongPtr h GWL_STYLE)

/-- `Window::setExtendedStyle`. -/
def setExtendedStyle (this : WindowPtr) (style : DWORD) : M E Unit := do
  let h ← getNativeHandle this
  M.effect (fun n => n.SetWindowLongPtr h GWL_EXSTYLE style)

/-- `Window::setStyle`. -/
def setStyle (this : WindowPtr) (style : DWORD) : M E Unit := do
  let h ← getNativeHandle this
  M.effect (fun n => n.SetWindowLongPtr h GWL_STYLE style)

/-- `Window::getRectangle`.  The local `RECT rectangle;` starts uninitialised and is returned
whether or not the native call has written it. -/
def getRectangle (this : WindowPtr) (client_area : Bool) : M E RECT := do
  let rectangle ← M.call (fun n => n.uninitialised)
  let h ← getNativeHandle this
  if client_area then M.call (fun n => n.GetClientRect h rectangle)
  else M.call (fun n => n.GetWindowRect h rectangle)

/-- `Window::getWidth`. -/
def getWidth (this : WindowPtr) : M E Int := do
  let rectangle ← getRectangle this false
  return rectangle.right - rectangle.left

/-- `Window::getHeight`. -/
def getHeight (this : WindowPtr) : M E Int := do
  let rectangle ← getRectangle this false
  return rectangle.bottom - rectangle.top

/-- `Window::getXCoordinate`. -/
def getXCoordinate (this : WindowPtr) (relative : Bool) : M E Int := do
  let rectangle ← getRectangle this false
  if relative then
    let h ← getNativeHandle this
    let point ← M.call (fun n => n.ScreenToClient h (rectangle.left, rectangle.top))
    return point.1
  else return rectangle.left

/-- `Window::getYCoordinate`. -/
def getYCoordinate (this : WindowPtr) (relative : Bool) : M E Int := do
  let rectangle ← getRectangle this false
  if relative then
    let h ← getNativeHandle this
    let point ← M.call (fun n => n.ScreenToClient h (rectangle.left, rectangle.top))
    return point.2
  else return rectangle.top

/-- `Window::setPosition`. -/
def setPosition (this : WindowPtr) (x y : Int) (relative : Bool) : M E Unit := do
  if relative then
    let h ← getNativeHandle this
    let width ← getWidth this
    let height ← getHeight this
    M.effect (fun n => n.MoveWindow h x y width height)
  else
    let h ← getNativeHandle this
    M.effect (fun n => n.SetWindowPos h x y 0 0 (SWP_NOSIZE ||| SWP_NOZORDER))

/-- `Window::setDimensions`. -/
def setDimensions (this : WindowPtr) (width height : Int) : M E Unit := do
  let h ← getNativeHandle this
  M.effect (fun n => n.SetWindowPos h 0 0 width height (SWP_NOMOVE ||| SWP_NOZORDER))

/-- `Window::getName`. -/
def getName (this : WindowPtr) : M E wstring := do
  let h ← getNativeHandle this
  M.call (fun n => n.GetWindowText h)

/-- `Window::removeProperty`. -/
def removeProperty (this : WindowPtr) (property_name : wstring) : M E Unit := do
  let h ← getNativeHandle this
  M.effect (fun n => n.RemoveProp h property_name)

/-- `Window::isAlive`. -/
def isAlive (this : WindowPtr) : M E Bool := do
  let h ← getNativeHandle this
  if h ≠ 0 then M.call (fun n => n.IsWindow h) else return false

/-- `Window::setMessageHandler`. -/
def setMessageHandler (this : WindowPtr) (message : UINT) (handler : MessageHandler E) :
    M E Unit :=
  M.updateWindow this (fun w =>
    { w with message_handlers := StdMap.assign message handler w.message_handlers })

/-- `Window::unsetMessageHandler`. -/
def unsetMessageHandler (this : WindowPtr) (message : UINT) : M E Unit :=
  M.updateWindow this (fun w =>
    { w with message_handlers := StdMap.erase message w.message_handlers })

end Window

/-! ## `OS::WindowClass`, part 1: the class handler table, construction, registry -/

namespace WindowClass

variable {E : Type}

/-- The counting loop of `WindowClass::IsValidClassName`:
`for(c = name;*c != 0 && length < 255;++c,++length);`. -/
def IsValidClassName.loop : wstring → Nat → Nat
  | [], length => length
  | _ :: rest, length => if length < 255 then IsValidClassName.loop rest (length + 1) else length

/-- `WindowClass::IsValidClassName`. -/
def IsValidClassName (name : wstring) : Bool :=
  decide (IsValidClassName.loop name 0 < 256)

/-- `WindowClass::Exists`. -/
def Exists (name : wstring) (context : HINSTANCE) : M E Bool :=
  M.call (fun n => n.GetClassInfoEx context name)

/-- `WindowClass::getDefaultMessageHandler`. -/
def getDefaultMessageHandler (this : WindowClassPtr) (message : UINT) : M E (MessageHandler E) := do
  let c ← M.windowClass this
  match StdMap.find message c.message_handlers with
  | some handler => return handler
  | none => return MessageHandler.nativeDefault this message

/-- `WindowClass::setDefaultMessageHandler`. -/
def setDefaultMessageHandler (this : WindowClassPtr) (message : UINT) (handler : MessageHandler E) :
    M E Unit :=
  M.updateClass this (fun c =>
    { c with message_handlers := StdMap.assign message handler c.message_handlers })

/-- `WindowClass::unsetDefaultMessageHandler`. -/
def unsetDefaultMessageHandler (this : WindowClassPtr) (message : UINT) : M E Unit :=
  M.updateClass this (fun c =>
    { c with message_handlers := StdMap.erase message c.message_handlers })

/-- `WindowClass::extendDefaultMessageHandler`. -/
def extendDefaultMessageHandler (this : WindowClassPtr) (message : UINT) (handler : E) :
    M E Unit := do
  let previous_handler ← getDefaultMessageHandler this message
  setDefaultMessageHandler this message (MessageHandler.extended handler previous_handler)

/-- `WindowClass::setDefaultMessageHandlers`. -/
def setDefaultMessageHandlers (this : WindowClassPtr) : M E Unit := do
  setDefaultMessageHandler this WM_CLOSE MessageHandler.swallowClose
  setDefaultMessageHandler this WM_ERASEBKGND MessageHandler.eraseBackground

/-- `WindowClass::createPrototype`, called by the constructor on the object under construction:
`this` is the address of that object, `class_name` and `context` are its members already
assigned; the result is the value assigned to `this->prototype`. -/
def createPrototype (this : WindowClassPtr) (class_name : wstring) (context : HINSTANCE) :
    M E WindowPtr := do
  let window_handle ← M.callEffect (fun n =>
    n.CreateWindowEx 0 class_name (class_name ++ PROTOTYPE_SUFFIX) 0 0 0 (-1) (-1) HWND_MESSAGE
      context)
  if window_handle = 0 then
    M.effect Native.DisplayErrorMessage
    M.throw { information := "Failed to create prototype window." }
  else Window.create window_handle this

/-- The `WNDCLASSEX` filled in by the constructor. -/
def registration (class_name : wstring) (context : HINSTANCE) : WNDCLASSEX :=
  { style := CS_HREDRAW ||| CS_VREDRAW ||| CS_PARENTDC
    lpfnWndProc := DefWindowProc
    hInstance := context
    hIcon := IDI_APPLICATION
    hCursor := IDC_ARROW
    hbrBackground := COLOR_WINDOW + 1
    lpszMenuName := 0
    lpszClassName := class_name
    hIconSm := IDI_APPLICATION }

/-- `new WindowClass(class_name,context)`.  The object gets the next address of the heap; it is
stored there once its members are assigned and before `setDefaultMessageHandlers` runs, so that an
exception of the constructor leaves no object behind.  `lstrcpy` into `class_name[256]` is
undefined for a name of 256 units or more. -/
def create (class_name : wstring) (context : HINSTANCE) : M E WindowClassPtr := do
  if IsValidClassName class_name = false then M.abort
  else if 256 ≤ class_name.length then M.abort
  else
    let s ← M.get
    let this : WindowClassPtr := s.classObjs.length + 1
    let pre ← Exists class_name context
    if pre = false then
      let registered ← M.callEffect (fun n => n.RegisterClassEx (registration class_name context))
      if registered = false then
        M.throw { information := "Failed to register window class." }
    let prototype ← createPrototype this class_name context
    let handle ← Window.getNativeHandle prototype
    let default_window_procedure ← M.call (fun n => n.GetClassLongPtr handle GCLP_WNDPROC)
    M.effect (fun n => n.SetClassLongPtr handle GCLP_WNDPROC classThunk)
    M.modify (fun s => { s with classObjs := s.classObjs ++ [
      { class_name := class_name, context := context, instantiated_windows := [],
        message_handlers := [], prototype := prototype,
        default_window_procedure := default_window_procedure }] })
    setDefaultMessageHandlers this
    return this

/-- `window_class_by_name[name]` read as a pointer, for a key known to be present. -/
def registered (name : wstring) : M E WindowClassPtr := fun s =>
  Outcome.ok ((StdMap.find name s.window_class_by_name).getD 0) s

/-- `WindowClass::Register`. -/
def Register (class_name : wstring) (context : HINSTANCE) : M E WindowClassPtr := do
  let class_name_lowercase := lowercase class_name
  let pre ← Exists class_name_lowercase context
  if pre then
    M.throw { information := "A window class with that name already exists." }
  else
    let window_class ← create class_name_lowercase context
    M.modify (fun s => { s with
      window_class_by_name := StdMap.assign class_name_lowercase window_class s.window_class_by_name })
    registered class_name_lowercase

/-- `WindowClass::GetByName`. -/
def GetByName (class_name : wstring) (context : HINSTANCE) (create : Bool) :
    M E WindowClassPtr := do
  let class_name_lowercase := lowercase class_name
  let pre ← Exists class_name_lowercase context
  if pre then
    let s ← M.get
    if StdMap.count class_name_lowercase s.window_class_by_name = 0 then
      let window_class ← WindowClass.create class_name_lowercase context
      M.modify (fun s => { s with
        window_class_by_name := StdMap.assign class_name_lowercase window_class s.window_class_by_name })
    registered class_name_lowercase
  else if create then Register class_name_lowercase context
  else return 0

/-- `WindowClass::GetByWindowHandle`. -/
def GetByWindowHandle (window_handle : HWND) : M E WindowClassPtr := do
  let valid ← M.call (fun n => n.IsWindow window_handle)
  if valid = false then M.abort
  else
    let class_name ← M.call (fun n => n.GetClassName window_handle)
    let context ← M.call (fun n => n.GetClassLongPtr window_handle GCLP_HMODULE)
    GetByName class_name context false

/-- `WindowClass::manage`. -/
def manage (this : WindowClassPtr) (window_handle : HWND) : M E WindowPtr := do
  let c ← M.windowClass this
  if StdMap.count window_handle c.instantiated_windows = 0 then
    let window ← Window.create window_handle this
    M.updateClass this (fun c =>
      { c with instantiated_windows := StdMap.assign window_handle window c.instantiated_windows })
    M.effect (fun n => n.SetProp window_handle WINDOW_INSTANCE_PROPERTY window)
  let c ← M.windowClass this
  return (StdMap.find window_handle c.instantiated_windows).getD 0

/-- `WindowClass::forget`. -/
def forget (this : WindowClassPtr) (window : WindowPtr) : M E Unit := do
  let owner ← Window.getWindowClass window
  if owner ≠ this then M.abort
  else
    let h ← Window.getNativeHandle window
    M.updateClass this (fun c =>
      { c with instantiated_windows := StdMap.erase h c.instantiated_windows })

/-- `WindowClass::getWindows`. -/
def getWindows (this : WindowClassPtr) : M E (List WindowPtr) := do
  let c ← M.windowClass this
  return c.instantiated_windows.map Prod.snd

/-- `WindowClass::getBackground`. -/
def getBackground (this : WindowClassPtr) : M E HANDLE := do
  let c ← M.windowClass this
  let h ← Window.getNativeHandle c.prototype
  M.call (fun n => n.GetClassLongPtr h GCLP_HBRBACKGROUND)

/-- `WindowClass::setWindowDefaults`; `style` is a `DWORD`, so `~WS_VISIBLE` is taken in 32
bits. -/
def setWindowDefaults (this : WindowClassPtr) (style extended_style : DWORD)
    (x y width height : Int) : M E Unit := do
  let style := if style &&& WS_CHILD = 0 then style &&& (0xFFFFFFFF ^^^ WS_VISIBLE)
    else style ||| WS_VISIBLE
  let c ← M.windowClass this
  Window.setStyle c.prototype style
  Window.setExtendedStyle c.prototype extended_style
  Window.setPosition c.prototype x y true
  Window.setDimensions c.prototype width height

end WindowClass

/-! ## `OS::Window`, part 2: handler resolution, the router, destruction -/

namespace Window

variable {E : Type}

/-- `Window::getMessageHandler`. -/
def getMessageHandler (this : WindowPtr) (message : UINT) : M E (MessageHandler E) := do
  let w ← M.window this
  match StdMap.find message w.message_handlers with
  | some handler => return handler
  | none => WindowClass.getDefaultMessageHandler w.window_class message

/-- `Window::extendMessageHandler`. -/
def extendMessageHandler (this : WindowPtr) (message : UINT) (handler : E) : M E Unit := do
  let previous_handler ← getMessageHandler this message
  setMessageHandler this message (MessageHandler.extended handler previous_handler)

/-- `Window::getBackground`. -/
def getBackground (this : WindowPtr) : M E HANDLE := do
  let w ← M.window this
  if w.background = 0 then WindowClass.getBackground w.window_class
  else return w.background

/-- `Window::FromHandle`; `DebugBreak()` stops the program. -/
def FromHandle (window_handle : HWND) : M E WindowPtr := do
  let window ← M.call (fun n => n.GetProp window_handle WINDOW_INSTANCE_PROPERTY)
  if window = 0 then
    let window_class ← WindowClass.GetByWindowHandle window_handle
    let window ← WindowClass.manage window_class window_handle
    let name ← getName window
    if name = BUTTON_PROTOTYPE then M.abort
    else return window
  else return window

end Window

/-- Native `CallWindowProc(procedure,h,message,w_param,l_param)` for a native procedure. -/
def CallWindowProc {E : Type} (env : Env E) (procedure : WNDPROC) (h : HWND) (message : UINT)
    (w_param : WPARAM) (l_param : LPARAM) : M E LRESULT := fun s =>
  Outcome.ok (env.windowProc procedure h message w_param l_param s).1
    (env.windowProc procedure h message w_param l_param s).2

/-- Calling a `MessageHandler`: `handler(window,w_param,l_param)`. -/
def MessageHandler.invoke {E : Type} (env : Env E) :
    MessageHandler E → WindowPtr → WPARAM → LPARAM → M E LRESULT
  | MessageHandler.custom f, window, w_param, l_param => fun s =>
    Outcome.ok (env.handler f window w_param l_param s).1 (env.handler f window w_param l_param s).2
  | MessageHandler.nativeDefault this message, window, w_param, l_param => do
    let c ← M.windowClass this
    let h ← Window.getNativeHandle window
    CallWindowProc env c.default_window_procedure h message w_param l_param
  | MessageHandler.swallowClose, _, _, _ => return 0
  | MessageHandler.eraseBackground, window, _, _ => do
    let _ ← Window.getBackground window
    let _ ← Window.getRectangle window true
    return 1
  | MessageHandler.extended handler previous_handler, window, w_param, l_param => do
    let result ← MessageHandler.invoke env previous_handler window w_param l_param
    M.modify (fun s => env.extending handler window w_param l_param s)
    return result

namespace Window

variable {E : Type}

/-- `Window::HandleMessage`, the router. -/
def HandleMessage (env : Env E) (window_handle : HWND) (message : UINT) (w_param : WPARAM)
    (l_param : LPARAM) : M E LRESULT := do
  let window ← FromHandle window_handle
  let handler ← getMessageHandler window message
  let result ← handler.invoke env window w_param l_param
  if message = WM_NCDESTROY then
    removeProperty window WINDOW_INSTANCE_PROPERTY
    M.updateWindow window (fun w => { w with window_handle := 0 })
  return result

end Window

/-- The native subsystem delivers `message` to window `h`: it calls the window procedure of `h`.
The class thunk first makes `Window::HandleMessage` the procedure of the window. -/
def deliver {E : Type} (env : Env E) (h : HWND) (message : UINT) (w_param : WPARAM)
    (l_param : LPARAM) : M E LRESULT := do
  let procedure ← M.call (fun n => n.GetWindowLongPtr h GWLP_WNDPROC)
  if procedure = classThunk then
    M.effect (fun n => n.SetWindowLongPtr h GWLP_WNDPROC HandleMessageProc)
    Window.HandleMessage env h message w_param l_param
  else if procedure = HandleMessageProc then
    Window.HandleMessage env h message w_param l_param
  else CallWindowProc env procedure h message w_param l_param

/-- Native `DestroyWindow(h)`: fails for a handle that is not a window; otherwise the window
receives `WM_DESTROY`, then `WM_NCDESTROY`, and ceases to exist.  The destruction of child and
owned windows that goes with it is not traced. -/
def DestroyWindow {E : Type} (env : Env E) (h : HWND) : M E Bool := do
  let valid ← M.call (fun n => n.IsWindow h)
  if valid = false then return false
  else
    let _ ← deliver env h WM_DESTROY 0 0
    let _ ← deliver env h WM_NCDESTROY 0 0
    M.effect (fun n => n.putWindow h none)
    return true

namespace Window

variable {E : Type}

/-- `Window::destroy`. -/
def destroy (env : Env E) (this : WindowPtr) : M E Unit := do
  let alive ← isAlive this
  if alive then
    let h ← getNativeHandle this
    let destroyed ← DestroyWindow env h
    if destroyed = false then M.effect Native.DisplayErrorMessage

end Window

namespace WindowClass

variable {E : Type}

/-- `WindowClass::instantiate(const wchar*)`. -/
def instantiate (this : WindowClassPtr) (window_name : wstring) : M E WindowPtr := do
  let c ← M.windowClass this
  let extended_style ← Window.getExtendedStyle c.prototype
  let style ← Window.getStyle c.prototype
  let x ← Window.getXCoordinate c.prototype true
  let y ← Window.getYCoordinate c.prototype true
  let width ← Window.getWidth c.prototype
  let height ← Window.getHeight c.prototype
  let parent ← Window.getNativeHandle c.prototype
  let window_handle ← M.callEffect (fun n =>
    n.CreateWindowEx extended_style c.class_name window_name style x y width height parent
      n.module)
  if window_handle = 0 then
    M.effect Native.DisplayErrorMessage
    M.throw { information :=
      "A runtime exception has occured.  Use the \"cause\" method to obtain additional information." }
  else Window.FromHandle window_handle

/-- The body of the loop of `Unregister` over `window_class->getWindows()`. -/
def release (env : Env E) (window_class : WindowClassPtr) (window : WindowPtr) : M E Unit := do
  let alive ← Window.isAlive window
  if alive then Window.destroy env window
  forget window_class window
  Window.delete window

/-- `WindowClass::Unregister(const wchar*,HINSTANCE)`. -/
def Unregister (env : Env E) (name : wstring) (context : HINSTANCE) : M E Unit := do
  let pre ← Exists name context
  if pre = false then return ()
  else
    let s ← M.get
    if StdMap.count name s.window_class_by_name > 0 then
      let window_class ← registered name
      let windows ← getWindows window_class
      M.forEach (release env window_class) windows
      let c ← M.windowClass window_class
      Window.destroy env c.prototype
      Window.delete c.prototype
      M.updateClass window_class (fun c => { c with prototype := 0 })
      M.modify (fun s => { s with window_class_by_name := StdMap.erase name s.window_class_by_name })
    let _ ← M.callEffect (fun n => n.UnregisterClass name context)
    return ()

/-- `WindowClass::Unregister(WindowClass*&)`; the result is the new value of the caller's
pointer. -/
def UnregisterPtr (env : Env E) (window_class : WindowClassPtr) : M E WindowClassPtr := do
  let c ← M.windowClass window_class
  Unregister env c.class_name c.context
  return 0

end WindowClass

/-! ## `OS::Window`, part 3: parents, style bits, the window text -/

/-- The handle of the desktop window (`GetDesktopWindow()`), a window the process does not own;
like `HWND_MESSAGE` it is kept outside the table of windows. -/
def DESKTOP_WINDOW : HWND := 2 ^ 64 - 5

namespace Native

/-- Native `GetAncestor(h,GA_PARENT)`: null for a handle that is not a window; the desktop window
for a window created without a parent or detached with `SetParent(h,nullptr)`; otherwise the
parent of the window (for a message-only window, the message-only root, written `HWND_MESSAGE`). -/
def GetAncestor (n : Native) (h : HWND) : HWND :=
  match n.window h with
  | none => 0
  | some w => if w.parent = 0 then DESKTOP_WINDOW else w.parent

/-- Native `SetParent(h,parent)`; a null `parent` makes the desktop window the parent. -/
def SetParent (n : Native) (h parent : HWND) : Native :=
  match n.window h with
  | none => n
  | some w => n.putWindow h (some { w with parent := parent })

/-- Native `SetWindowText(h,text)`. -/
def SetWindowText (n : Native) (h : HWND) (text : wstring) : Native :=
  match n.window h with
  | none => n
  | some w => n.putWindow h (some { w with text := text })

end Native

namespace Window

variable {E : Type}

/-- `Window::addStyle`. -/
def addStyle (this : WindowPtr) (style : DWORD) : M E Unit := do
  let current ← getStyle this
  setStyle this (current ||| style)

/-- `Window::removeStyle`; `~style` is taken in the 32 bits of a `DWORD`. -/
def removeStyle (this : WindowPtr) (style : DWORD) : M E Unit := do
  let current ← getStyle this
  setStyle this (current &&& (0xFFFFFFFF ^^^ style))

/-- `Window::setVisible`. -/
def setVisible (this : WindowPtr) (visible : Bool) : M E Unit :=
  if visible then addStyle this WS_VISIBLE else removeStyle this WS_VISIBLE

/-- `Window::setName`. -/
def setName (this : WindowPtr) (window_name : wstring) : M E Unit := do
  let h ← getNativeHandle this
  M.effect (fun n => n.SetWindowText h window_name)

/-- `Window::getParent`. -/
def getParent (this : WindowPtr) : M E WindowPtr := do
  let h ← getNativeHandle this
  let parent ← M.call (fun n => n.GetAncestor h)
  let window_class ← getWindowClass this
  let c ← M.windowClass window_class
  let prototype_handle ← getNativeHandle c.prototype
  if parent = prototype_handle then return 0
  else if parent = 0 then return 0
  else FromHandle parent

/-- `Window::hasParent`. -/
def hasParent (this : WindowPtr) : M E Bool := do
  let parent ← getParent this
  return decide (parent ≠ 0)

/-- `Window::isTopLevel`. -/
def isTopLevel (this : WindowPtr) : M E Bool := do
  let has ← hasParent this
  return !has

/-- `Window::setParent`; a null `parent` is pointer 0. -/
def setParent (this parent : WindowPtr) (alter_visibility : Bool) : M E Unit := do
  let top ← isTopLevel this
  if top = true ∧ parent = 0 then return ()
  else if parent = 0 then
    let h ← getNativeHandle this
    M.effect (fun n => n.SetParent h 0)
    removeStyle this WS_CHILD
    addStyle this WS_POPUP
    if alter_visibility then setVisible this false
  else
    let top ← isTopLevel this
    if top then
      removeStyle this WS_POPUP
      addStyle this WS_CHILD
      if alter_visibility then setVisible this true
    let h ← getNativeHandle this
    let parent_handle ← getNativeHandle parent
    M.effect (fun n => n.SetParent h parent_handle)

end Window

namespace WindowClass

variable {E : Type}

/-- `WindowClass::getClassName`. -/
def getClassName (this : WindowClassPtr) : M E wstring := do
  let c ← M.windowClass this
  return c.class_name

/-- `WindowClass::getContext`. -/
def getContext (this : WindowClassPtr) : M E HINSTANCE := do
  let c ← M.windowClass this
  return c.context

end WindowClass

/-! ## `OS::WindowClass`, part 3: class attributes -/

/-- The conversion `(LONG)value` in the class setters, with the result passed on as a `LONG_PTR`:
the low 32 bits of `value`, sign-extended to the 64 bits of a pointer.  It is the identity on
values below `2 ^ 31`. -/
def LONG (value : Nat) : Nat :=
  if value % 2 ^ 32 < 2 ^ 31 then value % 2 ^ 32 else value % 2 ^ 32 + (2 ^ 64 - 2 ^ 32)

namespace WindowClass

variable {E : Type}

/-- `WindowClass::getCursor`. -/
def getCursor (this : WindowClassPtr) : M E HANDLE := do
  let c ← M.windowClass this
  let h ← Window.getNativeHandle c.prototype
  M.call (fun n => n.GetClassLongPtr h GCLP_HCURSOR)

/-- `WindowClass::getIcon`. -/
def getIcon (this : WindowClassPtr) : M E HANDLE := do
  let c ← M.windowClass this
  let h ← Window.getNativeHandle c.prototype
  M.call (fun n => n.GetClassLongPtr h GCLP_HICON)

/-- `WindowClass::getIconSmall`. -/
def getIconSmall (this : WindowClassPtr) : M E HANDLE := do
  let c ← M.windowClass this
  let h ← Window.getNativeHandle c.prototype
  M.call (fun n => n.GetClassLongPtr h GCLP_HICONSM)

/-- `WindowClass::getMenuName`; the name is the pointer value stored in the class. -/
def getMenuName (this : WindowClassPtr) : M E HANDLE := do
  let c ← M.windowClass this
  let h ← Window.getNativeHandle c.prototype
  M.call (fun n => n.GetClassLongPtr h GCLP_MENUNAME)

/-- `WindowClass::getStyle`; the result is converted to a `DWORD`. -/
def getStyle (this : WindowClassPtr) : M E DWORD := do
  let c ← M.windowClass this
  let h ← Window.getNativeHandle c.prototype
  let style ← M.call (fun n => n.GetClassLongPtr h GCL_STYLE)
  return style % 2 ^ 32

/-- `WindowClass::setCursor`. -/
def setCursor (this : WindowClassPtr) (cursor : HANDLE) : M E Unit := do
  let c ← M.windowClass this
  let h ← Window.getNativeHandle c.prototype
  M.effect (fun n => n.SetClassLongPtr h GCLP_HCURSOR (LONG cursor))

/-- `WindowClass::setIcon`. -/
def setIcon (this : WindowClassPtr) (icon : HANDLE) : M E Unit := do
  let c ← M.windowClass this
  let h ← Window.getNativeHandle c.prototype
  M.effect (fun n => n.SetClassLongPtr h GCLP_HICON (LONG icon))

/-- `WindowClass::setIconSmall`. -/
def setIconSmall (this : WindowClassPtr) (icon : HANDLE) : M E Unit := do
  let c ← M.windowClass this
  let h ← Window.getNativeHandle c.prototype
  M.effect (fun n => n.SetClassLongPtr h GCLP_HICONSM (LONG icon))

/-- `WindowClass::setMenuName(const wchar*)`; the source passes the index `GCLP_HICON`. -/
def setMenuName (this : WindowClassPtr) (menu_name : HANDLE) : M E Unit := do
  let c ← M.windowClass this
  let h ← Window.getNativeHandle c.prototype
  M.effect (fun n => n.SetClassLongPtr h GCLP_HICON (LONG menu_name))

/-- `WindowClass::setStyle`. -/
def setStyle (this : WindowClassPtr) (style : DWORD) : M E Unit := do
  let c ← M.windowClass this
  let h ← Window.getNativeHandle c.prototype
  M.effect (fun n => n.SetClassLongPtr h GCL_STYLE (LONG style))

end WindowClass

/-! ## Definitions used to state the claims -/

/-- The value a call returns, if it returns. -/
def Outcome.returned {E α : Type} : Outcome E α → Option α
  | Outcome.ok a _ => some a
  | Outcome.raised _ _ => none
  | Outcome.fault => none

/-- The handler the window tier resolves for `message`, given the window and its class. -/
def resolved {E : Type} (w : Window E) (c : WindowClass E) (message : UINT) : MessageHandler E :=
  match StdMap.find message w.message_handlers with
  | some handler => handler
  | none =>
    match StdMap.find message c.message_handlers with
    | some handler => handler
    | none => MessageHandler.nativeDefault w.window_class message

/-- The lambdas built by extending `prev` with `hs`, first extension innermost. -/
def layered {E : Type} (prev : MessageHandler E) (hs : List E) : MessageHandler E :=
  hs.foldl (fun previous_handler handler => MessageHandler.extended handler previous_handler) prev

/-- Running the extending handlers `hs` in list order after a call that returned `result`. -/
def thenExtensions {E : Type} (env : Env E) (hs : List E) (window : WindowPtr) (w_param : WPARAM)
    (l_param : LPARAM) (result : LRESULT) : M E LRESULT :=
  M.andThen (M.forEach (fun h => M.modify (env.extending h window w_param l_param)) hs)
    (fun _ => M.ret result)

/-- The state a call leaves behind (the state it started in, when it faults). -/
def M.exec {E α : Type} (m : M E α) (s : Sys E) : Sys E :=
  match m s with
  | Outcome.ok _ s1 => s1
  | Outcome.raised _ s1 => s1
  | Outcome.fault => s

/-- A later change of the class handler table: `setDefaultMessageHandler(message, handler)`,
`extendDefaultMessageHandler(message, handler)` or `unsetDefaultMessageHandler(message)`. -/
inductive DefaultChange (E : Type) where
  | set (message : UINT) (handler : MessageHandler E)
  | extend (message : UINT) (handler : E)
  | unset (message : UINT)

/-- The call on the class `this` that makes the change. -/
def DefaultChange.run {E : Type} (this : WindowClassPtr) : DefaultChange E → M E Unit
  | DefaultChange.set message handler => WindowClass.setDefaultMessageHandler this message handler
  | DefaultChange.extend message handler =>
    WindowClass.extendDefaultMessageHandler this message handler
  | DefaultChange.unset message => WindowClass.unsetDefaultMessageHandler this message

/-! ## A sample run -/

namespace Sample

/-- Handler code `e` returns `e`; extending handler `e` posts the quit message with exit code `e`;
the native window procedures return 0 and do nothing else. -/
def env : Env Nat :=
  { handler := fun e _ _ _ s => (e, s)
    extending := fun e _ _ _ s => { s with native := s.native.PostQuitMessage e }
    windowProc := fun _ _ _ _ _ s => (0, s) }

/-- A process of module 7 with no window classes, no windows and no wrappers; an uninitialised
`RECT` happens to hold 11, 22, 33, 44. -/
def start : Sys Nat :=
  { native :=
      { classes := []
        windows := []
        module := 7
        quit := []
        diagnostics := 0
        uninitialised := { left := 11, top := 22, right := 33, bottom := 44 } }
    window_class_by_name := []
    classObjs := []
    windowObjs := [] }

/-- The name `L"Widget"`. -/
def Widget : wstring := [87, 105, 100, 103, 101, 116]

/-- After `Register(L"Widget",7)`: class wrapper 1, prototype wrapper 1 on handle 1. -/
def registered : Sys Nat := M.exec (WindowClass.Register Widget 7) start

/-- After one `instantiate`: wrapper 2 on handle 2. -/
def oneWindow : Sys Nat := M.exec (WindowClass.instantiate 1 UNTITLED_WINDOW) registered

/-- After a second `instantiate`: wrapper 3 on handle 3. -/
def twoWindows : Sys Nat := M.exec (WindowClass.instantiate 1 UNTITLED_WINDOW) oneWindow

/-- The sample process after `destroy()` on the first of the two windows. -/
def oneDestroyed : Sys Nat :=
  M.exec (Window.destroy env 2) twoWindows

/-- The sample process after a second `Register(L"Widget",8)`, for module 8: class wrapper 2,
prototype wrapper 2 on handle 2. -/
def twoContexts : Sys Nat := M.exec (WindowClass.Register Widget 8) registered

/-- After `Unregister` of class wrapper 2 in `twoContexts`. -/
def oneContext : Sys Nat := M.exec (WindowClass.UnregisterPtr env 2) twoContexts

/-- After `GetByName(L"Widget",7)` in `oneContext`: class wrapper 3 is built. -/
def adopted : Sys Nat := M.exec (WindowClass.GetByName Widget 7 false) oneContext

/-- A process of module 7 in which `Register(L"Widget",8)` was called for module 8. -/
def otherModule : Sys Nat := M.exec (WindowClass.Register Widget 8) start

/-- The sample class with window defaults at position (10, 20), size 300 by 200. -/
def positioned : Sys Nat :=
  M.exec (WindowClass.setWindowDefaults 1 0x00C00000 0 10 20 300 200) registered

/-- The sample process after `Window::FromHandle` on the handle of the prototype. -/
def prototypeWrapped : Sys Nat := M.exec (Window.FromHandle 1) registered

/-- The sample class after `setMenuName` with the value 77. -/
def menuNamed : Sys Nat := M.exec (WindowClass.setMenuName 1 77) registered

/-- The sample class after `setIcon` with the value 77. -/
def iconSet : Sys Nat := M.exec (WindowClass.setIcon 1 77) registered

/-- A class name of 256 letters `a`. -/
def longName : wstring := List.replicate 256 97

end Sample

/-- The native state in which the constructor creates the prototype: the class is registered
unless `Exists` found it. -/
def ensured (n : Native) (class_name : wstring) (context : HINSTANCE) : Native :=
  if n.GetClassInfoEx context class_name then n
  else (n.RegisterClassEx (WindowClass.registration class_name context)).2

/-- The state `new WindowClass(class_name,context)` ends in when it succeeds, from the native
state `n2` left by `CreateWindowEx` and the handle `h` of the prototype. -/
def constructed {E : Type} (s : Sys E) (class_name : wstring) (context : HINSTANCE) (n2 : Native)
    (h : HWND) : Sys E :=
  { native := n2.SetClassLongPtr h GCLP_WNDPROC classThunk
    window_class_by_name := s.window_class_by_name
    classObjs := s.classObjs ++ [
      { class_name := class_name, context := context, instantiated_windows := [],
        message_handlers := [(WM_CLOSE, MessageHandler.swallowClose),
          (WM_ERASEBKGND, MessageHandler.eraseBackground)],
        prototype := s.windowObjs.length + 1,
        default_window_procedure := n2.GetClassLongPtr h GCLP_WNDPROC }]
    windowObjs := s.windowObjs ++ [some
      { background := 0, message_handlers := [],
        module := n2.GetWindowLongPtr h GWLP_HINSTANCE,
        window_class := s.classObjs.length + 1, window_handle := h }] }

/-- Number of `Window` objects on the heap whose `window_handle` is `h`. -/
def Sys.wrappersOn {E : Type} (s : Sys E) (h : HWND) : Nat :=
  (s.windowObjs.filter (fun w => match w with
    | some w => decide (w.window_handle = h)
    | none => false)).length

/-- The `CreateWindowEx` call of `instantiate(window_name)` for a class with members `c` whose
prototype wrapper has members `pw`: every argument as `instantiate` computes it. -/
def creation (n : Native) {E : Type} (c : WindowClass E) (pw : Window E) (window_name : wstring) :
    HWND × Native :=
  n.CreateWindowEx (n.GetWindowLongPtr pw.window_handle GWL_EXSTYLE) c.class_name window_name
    (n.GetWindowLongPtr pw.window_handle GWL_STYLE)
    (n.ScreenToClient pw.window_handle
      ((n.GetWindowRect pw.window_handle n.uninitialised).left, (n.GetWindowRect pw.window_handle n.uninitialised).top)).1
    (n.ScreenToClient pw.window_handle
      ((n.GetWindowRect pw.window_handle n.uninitialised).left, (n.GetWindowRect pw.window_handle n.uninitialised).top)).2
    ((n.GetWindowRect pw.window_handle n.uninitialised).right - (n.GetWindowRect pw.window_handle n.uninitialised).left)
    ((n.GetWindowRect pw.window_handle n.uninitialised).bottom - (n.GetWindowRect pw.window_handle n.uninitialised).top)
    pw.window_handle n.module

/-- The state after `manage` has built a wrapper for the untracked handle `h` in class `this`
(members `c`), from the native state `n`. -/
def tracked {E : Type} (s : Sys E) (this : WindowClassPtr) (c : WindowClass E) (n : Native)
    (h : HWND) : Sys E :=
  { native := n.SetProp h WINDOW_INSTANCE_PROPERTY (s.windowObjs.length + 1)
    window_class_by_name := s.window_class_by_name
    classObjs := s.classObjs.set (this - 1) { c with
      instantiated_windows := StdMap.assign h (s.windowObjs.length + 1) c.instantiated_windows }
    windowObjs := s.windowObjs ++ [some
      { background := 0, message_handlers := [],
        module := n.GetWindowLongPtr h GWLP_HINSTANCE,
        window_class := this, window_handle := h }] }

/-- State `t` has the windows, window classes, wrapper objects and registry of `s`; the two may
differ in what lies outside them (the posted quit codes, the error boxes shown). -/
def Sys.sameObjects {E : Type} (s t : Sys E) : Prop :=
  t.native.windows = s.native.windows ∧ t.native.classes = s.native.classes ∧
  t.window_class_by_name = s.window_class_by_name ∧ t.classObjs = s.classObjs ∧
  t.windowObjs = s.windowObjs

variable {E : Type}

/-! ## Lemmas on `std::map` -/

namespace StdMap

variable {K V : Type} [DecidableEq K]

section
variable [LT K] [DecidableRel (fun a b : K => a < b)]

theorem find_assign_self (k : K) (v : V) (m : List (K × V)) :
    find k (assign k v m) = some v := by
  induction m with
  | nil => simp [assign, find]
  | cons e rest ih =>
    obtain ⟨k1, v1⟩ := e
    by_cases h1 : k < k1
    · simp [assign, find, h1]
    · by_cases h2 : k1 = k
      · subst h2
        simp [assign, find, h1]
      · simp [assign, find, h1, h2, ih]

theorem find_assign_ne (k j : K) (v : V) (m : List (K × V)) (h : k ≠ j) :
    find j (assign k v m) = find j m := by
  induction m with
  | nil => simp [assign, find, h]
  | cons e rest ih =>
    obtain ⟨k1, v1⟩ := e
    by_cases h1 : k < k1
    · simp [assign, find, h1, h]
    · by_cases h2 : k1 = k
      · subst h2
        simp [assign, find, h1, h]
      · by_cases h3 : k1 = j
        · subst h3
          simp [assign, find, h1, h2]
        · simp [assign, find, h1, h2, h3, ih]

end

theorem find_erase_self (k : K) (m : List (K × V)) : find k (erase k m) = none := by
  induction m with
  | nil => simp [erase, find]
  | cons e rest ih =>
    obtain ⟨k1, v1⟩ := e
    by_cases h2 : k1 = k
    · simpa [erase, List.filter, h2] using ih
    · simpa [erase, List.filter, h2, find] using ih

theorem find_erase_ne (k j : K) (m : List (K × V)) (h : k ≠ j) :
    find j (erase k m) = find j m := by
  induction m with
  | nil => simp [erase, find]
  | cons e rest ih =>
    obtain ⟨k1, v1⟩ := e
    by_cases h2 : k1 = k
    · subst h2
      simpa [erase, List.filter, find, h] using ih
    · by_cases h3 : k1 = j
      · subst h3
        simp [erase, List.filter, h2, find]
      · simpa [erase, List.filter, h2, find, h3] using ih

end StdMap

/-! ## Lemmas on the object heaps -/

namespace Sys

variable {E : Type}

theorem windowAt_putWindow_self (s : Sys E) (p : WindowPtr) (w : Window E) (v : Option (Window E))
    (h : s.windowAt p = some w) : (s.putWindow p v).windowAt p = v := by
  unfold windowAt at h ⊢
  by_cases hp : p = 0
  · simp [hp] at h
  · simp only [hp, if_false] at h ⊢
    have hlt : p - 1 < s.windowObjs.length := by
      cases hg : s.windowObjs[p - 1]? with
      | none => simp [hg] at h
      | some x => exact (List.getElem?_eq_some.mp hg).1
    simp [putWindow, List.getElem?_set_self hlt]

theorem windowAt_putWindow_ne (s : Sys E) (p q : Nat) (v : Option (Window E))
    (hp : p ≠ 0) (hq : q ≠ 0) (h : p ≠ q) : (s.putWindow p v).windowAt q = s.windowAt q := by
  unfold windowAt
  simp only [hq, if_false]
  have : p - 1 ≠ q - 1 := by omega
  simp [putWindow, List.getElem?_set_ne this]

theorem classAt_putWindow (s : Sys E) (p : WindowPtr) (v : Option (Window E)) (q : WindowClassPtr) :
    (s.putWindow p v).classAt q = s.classAt q := rfl

theorem classAt_putClass_self (s : Sys E) (p : WindowClassPtr) (c d : WindowClass E)
    (h : s.classAt p = some c) : (s.putClass p d).classAt p = some d := by
  unfold classAt at h ⊢
  by_cases hp : p = 0
  · simp [hp] at h
  · simp only [hp, if_false] at h ⊢
    have hlt : p - 1 < s.classObjs.length := (List.getElem?_eq_some.mp h).1
    simp [putClass, List.getElem?_set_self hlt]

theorem windowAt_putClass (s : Sys E) (p : WindowClassPtr) (d : WindowClass E) (q : WindowPtr) :
    (s.putClass p d).windowAt q = s.windowAt q := rfl

end Sys

namespace M
variable {E α β : Type}
theorem bind_def (m : M E α) (f : α → M E β) : (m >>= f) = andThen m f := rfl
theorem pure_def (a : α) : (pure a : M E α) = ret a := rfl
end M


theorem getDefaultMessageHandler_eq (s : Sys E) (this : WindowClassPtr) (m : UINT)
    (c : WindowClass E) (hc : s.classAt this = some c) :
    WindowClass.getDefaultMessageHandler this m s =
      Outcome.ok ((StdMap.find m c.message_handlers).getD (MessageHandler.nativeDefault this m)) s := by
  simp only [WindowClass.getDefaultMessageHandler, M.bind_def, M.pure_def, M.andThen, M.windowClass, hc]
  cases StdMap.find m c.message_handlers <;> rfl

theorem getMessageHandler_eq (s : Sys E) (this : WindowPtr) (m : UINT) (w : Window E)
    (c : WindowClass E) (hw : s.windowAt this = some w) (hc : s.classAt w.window_class = some c) :
    Window.getMessageHandler this m s = Outcome.ok (resolved w c m) s := by
  simp only [Window.getMessageHandler, M.bind_def, M.pure_def, M.andThen, M.window, hw, resolved]
  cases hf : StdMap.find m w.message_handlers with
  | some h => rfl
  | none =>
    simp only [getDefaultMessageHandler_eq s _ m c hc]
    cases StdMap.find m c.message_handlers <;> rfl

namespace M
variable {α β γ : Type}

theorem andThen_assoc (m : M E α) (f : α → M E β) (g : β → M E γ) :
    andThen (andThen m f) g = andThen m (fun a => andThen (f a) g) := by
  funext s
  simp only [andThen]
  cases m s <;> rfl

theorem andThen_ret (m : M E α) : andThen m ret = m := by
  funext s
  simp only [andThen, ret]
  cases m s <;> rfl

theorem ret_andThen (a : α) (f : α → M E β) : andThen (ret a) f = f a := rfl

end M

theorem invoke_layered (env : Env E) (hs : List E) (prev : MessageHandler E) (window : WindowPtr)
    (w_param : WPARAM) (l_param : LPARAM) :
    (layered prev hs).invoke env window w_param l_param =
      M.andThen (prev.invoke env window w_param l_param)
        (thenExtensions env hs window w_param l_param) := by
  induction hs generalizing prev with
  | nil =>
    simp only [layered, List.foldl, thenExtensions, M.forEach, M.ret_andThen]
    exact (M.andThen_ret _).symm
  | cons h rest ih =>
    have hl : layered prev (h :: rest) = layered (MessageHandler.extended h prev) rest := rfl
    rw [hl, ih]
    simp only [MessageHandler.invoke, M.bind_def, M.pure_def, M.andThen_assoc, thenExtensions,
      M.forEach, M.ret_andThen]
    rfl

theorem returned_andThen_thenExtensions (env : Env E) (hs : List E) (m : M E LRESULT)
    (window : WindowPtr) (w_param : WPARAM) (l_param : LPARAM) (t : Sys E) :
    (M.andThen m (thenExtensions env hs window w_param l_param) t).returned = (m t).returned := by
  have hrun : ∀ (u : Sys E) (r : LRESULT),
      (thenExtensions env hs window w_param l_param r u).returned = some r := by
    intro u r
    induction hs generalizing u with
    | nil => rfl
    | cons h rest ih =>
      have := ih (env.extending h window w_param l_param u)
      simpa [thenExtensions, M.forEach, M.andThen, M.modify] using this
  simp only [M.andThen]
  cases hm : m t with
  | ok a u => simpa [Outcome.returned] using hrun u a
  | raised e u => rfl
  | fault => rfl

theorem getMessageHandler_state (s s1 : Sys E) (this : WindowPtr) (m : UINT)
    (prev : MessageHandler E) (h : Window.getMessageHandler this m s = Outcome.ok prev s1) :
    ∃ w, s.windowAt this = some w ∧ s1 = s := by
  simp only [Window.getMessageHandler, M.bind_def, M.pure_def, M.andThen, M.window] at h
  cases hw : s.windowAt this with
  | none => simp [hw] at h
  | some w =>
    refine ⟨w, rfl, ?_⟩
    simp only [hw] at h
    cases hf : StdMap.find m w.message_handlers with
    | some x =>
      simp only [hf, M.ret] at h
      injection h with _ h2
      exact h2.symm
    | none =>
      simp only [hf, WindowClass.getDefaultMessageHandler, M.bind_def, M.pure_def, M.andThen,
        M.windowClass] at h
      cases hc : s.classAt w.window_class with
      | none => simp [hc] at h
      | some c =>
        simp only [hc] at h
        cases hg : StdMap.find m c.message_handlers <;> simp only [hg, M.ret] at h <;>
          injection h with _ h2 <;> exact h2.symm

theorem extendMessageHandler_step (s : Sys E) (this : WindowPtr) (m : UINT) (h : E)
    (prev : MessageHandler E) (hp : Window.getMessageHandler this m s = Outcome.ok prev s) :
    ∃ s1, Window.extendMessageHandler this m h s = Outcome.ok () s1 ∧
      Window.getMessageHandler this m s1 = Outcome.ok (MessageHandler.extended h prev) s1 := by
  obtain ⟨w, hw, -⟩ := getMessageHandler_state s s this m prev hp
  refine ⟨s.putWindow this (some { w with
    message_handlers := StdMap.assign m (MessageHandler.extended h prev) w.message_handlers }),
    ?_, ?_⟩
  · simp only [Window.extendMessageHandler, M.bind_def, M.andThen, hp, Window.setMessageHandler,
      M.updateWindow, hw]
  · have hw1 := Sys.windowAt_putWindow_self s this w (some { w with
      message_handlers := StdMap.assign m (MessageHandler.extended h prev) w.message_handlers }) hw
    simp only [Window.getMessageHandler, M.bind_def, M.pure_def, M.andThen, M.window, hw1,
      StdMap.find_assign_self, M.ret]

theorem extendMessageHandler_all (s : Sys E) (this : WindowPtr) (m : UINT) (hs : List E)
    (prev : MessageHandler E) (hp : Window.getMessageHandler this m s = Outcome.ok prev s) :
    ∃ s1, M.forEach (Window.extendMessageHandler this m) hs s = Outcome.ok () s1 ∧
      Window.getMessageHandler this m s1 = Outcome.ok (layered prev hs) s1 := by
  induction hs generalizing s prev with
  | nil => exact ⟨s, rfl, hp⟩
  | cons h rest ih =>
    obtain ⟨s1, h1, h2⟩ := extendMessageHandler_step s this m h prev hp
    obtain ⟨s2, h3, h4⟩ := ih s1 (MessageHandler.extended h prev) h2
    exact ⟨s2, by simp only [M.forEach, M.andThen, h1, h3], h4⟩

theorem getDefaultMessageHandler_state (s s1 : Sys E) (this : WindowClassPtr) (m : UINT)
    (prev : MessageHandler E)
    (h : WindowClass.getDefaultMessageHandler this m s = Outcome.ok prev s1) :
    ∃ c, s.classAt this = some c ∧ s1 = s := by
  simp only [WindowClass.getDefaultMessageHandler, M.bind_def, M.pure_def, M.andThen,
    M.windowClass] at h
  cases hc : s.classAt this with
  | none => simp [hc] at h
  | some c =>
    refine ⟨c, rfl, ?_⟩
    simp only [hc] at h
    cases hg : StdMap.find m c.message_handlers <;> simp only [hg, M.ret] at h <;>
      injection h with _ h2 <;> exact h2.symm

theorem extendDefaultMessageHandler_step (s : Sys E) (this : WindowClassPtr) (m : UINT)
    (h : E) (prev : MessageHandler E)
    (hp : WindowClass.getDefaultMessageHandler this m s = Outcome.ok prev s) :
    ∃ s1, WindowClass.extendDefaultMessageHandler this m h s = Outcome.ok () s1 ∧
      WindowClass.getDefaultMessageHandler this m s1 =
        Outcome.ok (MessageHandler.extended h prev) s1 := by
  obtain ⟨c, hc, -⟩ := getDefaultMessageHandler_state s s this m prev hp
  refine ⟨s.putClass this { c with
    message_handlers := StdMap.assign m (MessageHandler.extended h prev) c.message_handlers },
    ?_, ?_⟩
  · simp only [WindowClass.extendDefaultMessageHandler, M.bind_def, M.andThen, hp,
      WindowClass.setDefaultMessageHandler, M.updateClass, hc]
  · have hc1 := Sys.classAt_putClass_self s this c { c with
      message_handlers := StdMap.assign m (MessageHandler.extended h prev) c.message_handlers } hc
    simp only [WindowClass.getDefaultMessageHandler, M.bind_def, M.pure_def, M.andThen,
      M.windowClass, hc1, StdMap.find_assign_self, M.ret]

theorem extendDefaultMessageHandler_all (s : Sys E) (this : WindowClassPtr) (m : UINT) (hs : List E)
    (prev : MessageHandler E)
    (hp : WindowClass.getDefaultMessageHandler this m s = Outcome.ok prev s) :
    ∃ s1, M.forEach (WindowClass.extendDefaultMessageHandler this m) hs s = Outcome.ok () s1 ∧
      WindowClass.getDefaultMessageHandler this m s1 = Outcome.ok (layered prev hs) s1 := by
  induction hs generalizing s prev with
  | nil => exact ⟨s, rfl, hp⟩
  | cons h rest ih =>
    obtain ⟨s1, h1, h2⟩ := extendDefaultMessageHandler_step s this m h prev hp
    obtain ⟨s2, h3, h4⟩ := ih s1 (MessageHandler.extended h prev) h2
    exact ⟨s2, by simp only [M.forEach, M.andThen, h1, h3], h4⟩

variable {E : Type}

theorem IsValidClassName_loop_le (name : wstring) (k : Nat) (hk : k ≤ 255) :
    WindowClass.IsValidClassName.loop name k ≤ 255 := by
  induction name generalizing k with
  | nil => simpa [WindowClass.IsValidClassName.loop] using hk
  | cons c rest ih =>
    simp only [WindowClass.IsValidClassName.loop]
    split
    · exact ih (k + 1) (by omega)
    · exact hk

theorem IsValidClassName_true (name : wstring) : WindowClass.IsValidClassName name = true := by
  have := IsValidClassName_loop_le name 0 (by omega)
  simp only [WindowClass.IsValidClassName, decide_eq_true_eq]
  omega

/-! ### Native lemmas -/


theorem findSlot_none_mono {α : Type} (p q : α → Bool) (hpq : ∀ a, p a = true → q a = true)
    (l : List (Option α)) (h : findSlot q l = none) : findSlot p l = none := by
  induction l with
  | nil => rfl
  | cons x rest ih =>
    cases x with
    | none =>
      simp only [findSlot, Option.map_eq_none'] at h ⊢
      exact ih h
    | some a =>
      simp only [findSlot] at h ⊢
      by_cases hq : q a = true
      · simp [hq] at h
      · have hp : ¬ p a = true := fun hp => hq (hpq a hp)
        simp only [hq, hp, if_false, Bool.false_eq_true, Option.map_eq_none'] at h ⊢
        exact ih h

theorem findSlot_append_some {α : Type} (p : α → Bool) (l : List (Option α)) (a : α)
    (ha : p a = true) : (findSlot p (l ++ [some a])).isSome = true := by
  induction l with
  | nil => simp [findSlot, ha]
  | cons x rest ih =>
    cases x with
    | none => simpa [findSlot] using ih
    | some b =>
      by_cases hb : p b = true
      · simp [findSlot, hb]
      · simpa [findSlot, hb] using ih

theorem findSlot_append_isSome {α : Type} (p : α → Bool) (l l2 : List (Option α))
    (h : (findSlot p l).isSome = true) : (findSlot p (l ++ l2)).isSome = true := by
  induction l with
  | nil => simp [findSlot] at h
  | cons x rest ih =>
    cases x with
    | none =>
      simp only [findSlot, Option.isSome_map'] at h
      simpa [findSlot] using ih h
    | some b =>
      by_cases hb : p b = true
      · simp [findSlot, hb]
      · simp only [findSlot, hb, Bool.false_eq_true, if_false, Option.isSome_map'] at h
        simpa [findSlot, hb] using ih h

theorem RegisterClassEx_of_absent (n : Native) (class_name : wstring) (context : HINSTANCE)
    (h : n.GetClassInfoEx context class_name = false) :
    n.RegisterClassEx (WindowClass.registration class_name context) =
      (true, { n with classes := n.classes ++
        [some (WindowClass.registration class_name context)] }) := by
  have hnone : n.findClass class_name context = none := by
    simpa [Native.GetClassInfoEx] using h
  have hown : n.findOwnClass class_name context = none := by
    refine findSlot_none_mono _ _ ?_ n.classes hnone
    intro a ha
    simp only [Bool.and_eq_true, decide_eq_true_eq] at ha
    simp [ha.1, ha.2]
  simp [Native.RegisterClassEx, WindowClass.registration, hown]

variable {E : Type}

theorem findSlot_set {α : Type} (p : α → Bool) (l : List (Option α)) (i : Nat) (c d : α)
    (hi : l[i]? = some (some c)) (hp : p d = p c) :
    findSlot p (l.set i (some d)) = findSlot p l := by
  induction l generalizing i with
  | nil => simp at hi
  | cons x rest ih =>
    cases i with
    | zero =>
      simp only [List.getElem?_cons_zero, Option.some.injEq] at hi
      subst hi
      simp [findSlot, hp]
    | succ j =>
      simp only [List.getElem?_cons_succ] at hi
      cases x with
      | none => simp [findSlot, ih j hi]
      | some b => simp [findSlot, ih j hi]

theorem classAt_eq_some (n : Native) (i : Nat) (c : WNDCLASSEX) (h : n.classAt i = some c) :
    n.classes[i]? = some (some c) := by
  unfold Native.classAt at h
  cases hg : n.classes[i]? with
  | none => simp [hg] at h
  | some x =>
    cases x with
    | none => simp [hg] at h
    | some d =>
      simp [hg] at h
      subst h
      rfl

theorem findClass_SetClassLongPtr_WNDPROC (n : Native) (h : HWND) (v : Nat) (name : wstring)
    (context : HINSTANCE) :
    (n.SetClassLongPtr h GCLP_WNDPROC v).findClass name context = n.findClass name context := by
  cases hw : n.window h with
  | none => simp only [Native.SetClassLongPtr, hw]
  | some w =>
    cases hc : n.classAt w.cls with
    | none => simp only [Native.SetClassLongPtr, hw, hc]
    | some c =>
      have hidx : (GCLP_WNDPROC = GCL_STYLE) = False := by decide
      simp only [Native.SetClassLongPtr, hw, hc, hidx, if_false, if_true, Native.findClass,
        Native.putClass]
      exact findSlot_set _ n.classes w.cls c _ (classAt_eq_some n w.cls c hc) rfl

theorem CreateWindowEx_classes (n : Native) (exStyle : DWORD) (className windowName : wstring)
    (style : DWORD) (x y width height : Int) (parent : HWND) (hInstance : HINSTANCE) :
    (n.CreateWindowEx exStyle className windowName style x y width height parent hInstance).2.classes
      = n.classes := by
  cases hf : n.findClass className hInstance with
  | none => simp only [Native.CreateWindowEx, hf]
  | some i =>
    cases hc : n.classAt i with
    | none => simp only [Native.CreateWindowEx, hf, hc]
    | some c =>
      simp only [Native.CreateWindowEx, hf, hc]
      split <;> rfl

theorem ensured_GetClassInfoEx (n : Native) (class_name : wstring) (context : HINSTANCE) :
    (ensured n class_name context).GetClassInfoEx context class_name = true := by
  unfold ensured
  cases hpre : n.GetClassInfoEx context class_name with
  | true => simpa using hpre
  | false =>
    rw [RegisterClassEx_of_absent n class_name context hpre]
    simp only [Bool.false_eq_true, if_false, Native.GetClassInfoEx, Native.findClass]
    apply findSlot_append_some
    simp [WindowClass.registration, Native.sameName]

theorem constructed_GetClassInfoEx (s : Sys E) (class_name : wstring) (context : HINSTANCE) :
    (constructed s class_name context
      ((ensured s.native class_name context).CreateWindowEx 0 class_name
        (class_name ++ PROTOTYPE_SUFFIX) 0 0 0 (-1) (-1) HWND_MESSAGE context).2
      ((ensured s.native class_name context).CreateWindowEx 0 class_name
        (class_name ++ PROTOTYPE_SUFFIX) 0 0 0 (-1) (-1) HWND_MESSAGE context).1).native.GetClassInfoEx
      context class_name = true := by
  have h1 := ensured_GetClassInfoEx s.native class_name context
  simp only [constructed, Native.GetClassInfoEx, findClass_SetClassLongPtr_WNDPROC] at h1 ⊢
  simpa [Native.findClass, CreateWindowEx_classes] using h1

variable {E : Type}

theorem window_append_new (n : Native) (w : NativeWindow) :
    ({ n with windows := n.windows ++ [some w] } : Native).window (n.windows.length + 1) = some w := by
  simp [Native.window]

theorem window_append_old (n : Native) (w : Option NativeWindow) (h : HWND) (v : NativeWindow)
    (hv : n.window h = some v) :
    ({ n with windows := n.windows ++ [w] } : Native).window h = some v := by
  unfold Native.window at hv ⊢
  by_cases h0 : h = 0
  · simp [h0] at hv
  · simp only [h0, if_false] at hv ⊢
    cases hg : n.windows[h - 1]? with
    | none => simp [hg] at hv
    | some x =>
      have hlt := (List.getElem?_eq_some.mp hg).1
      rw [List.getElem?_append_left hlt, hg]
      simpa [hg] using hv

theorem CreateWindowEx_spec (n : Native) (exStyle : DWORD) (className windowName : wstring)
    (style : DWORD) (x y width height : Int) (parent : HWND) (hInstance : HINSTANCE) :
    n.CreateWindowEx exStyle className windowName style x y width height parent hInstance = (0, n) ∨
    ∃ i c, n.findClass className hInstance = some i ∧ n.classAt i = some c ∧
      n.CreateWindowEx exStyle className windowName style x y width height parent hInstance =
        (n.windows.length + 1, { n with windows := n.windows ++ [some
          { cls := i, hInstance := hInstance, wndProc := c.lpfnWndProc, parent := parent,
            style := style, exStyle := exStyle, x := x, y := y, width := width,
            height := height, text := windowName, props := [] }] }) := by
  cases hf : n.findClass className hInstance with
  | none => left; simp only [Native.CreateWindowEx, hf]
  | some i =>
    cases hc : n.classAt i with
    | none => left; simp only [Native.CreateWindowEx, hf, hc]
    | some c =>
      by_cases hp : parent ≠ 0 ∧ parent ≠ HWND_MESSAGE ∧ n.IsWindow parent = false
      · left; simp only [Native.CreateWindowEx, hf, hc, if_pos hp]
      · right
        exact ⟨i, c, rfl, hc, by simp only [Native.CreateWindowEx, hf, hc, if_neg hp]⟩

theorem CreateWindowEx_IsWindow (n : Native) (exStyle : DWORD) (className windowName : wstring)
    (style : DWORD) (x y width height : Int) (parent : HWND) (hInstance : HINSTANCE)
    (h : (n.CreateWindowEx exStyle className windowName style x y width height parent
      hInstance).1 ≠ 0) :
    (n.CreateWindowEx exStyle className windowName style x y width height parent hInstance).2.IsWindow
      (n.CreateWindowEx exStyle className windowName style x y width height parent hInstance).1
      = true := by
  rcases CreateWindowEx_spec n exStyle className windowName style x y width height parent hInstance
    with h0 | ⟨i, c, -, -, hr⟩
  · rw [h0] at h
    exact absurd rfl h
  · rw [hr]
    simp only [Native.IsWindow, window_append_new, Option.isSome_some]

theorem windowAt_append_new (s : Sys E) (n : Native) (w : Window E) :
    ({ s with native := n, windowObjs := s.windowObjs ++ [some w] } : Sys E).windowAt
      (s.windowObjs.length + 1) = some w := by
  simp [Sys.windowAt]

theorem createPrototype_eq_ok (s : Sys E) (this : WindowClassPtr) (class_name : wstring)
    (context : HINSTANCE)
    (hh : (s.native.CreateWindowEx 0 class_name (class_name ++ PROTOTYPE_SUFFIX) 0 0 0 (-1) (-1)
      HWND_MESSAGE context).1 ≠ 0) :
    WindowClass.createPrototype this class_name context s =
      Outcome.ok (s.windowObjs.length + 1)
        { s with
          native := (s.native.CreateWindowEx 0 class_name (class_name ++ PROTOTYPE_SUFFIX) 0 0 0
            (-1) (-1) HWND_MESSAGE context).2
          windowObjs := s.windowObjs ++ [some
            { background := 0, message_handlers := [],
              module := (s.native.CreateWindowEx 0 class_name (class_name ++ PROTOTYPE_SUFFIX) 0 0 0
                (-1) (-1) HWND_MESSAGE context).2.GetWindowLongPtr
                  (s.native.CreateWindowEx 0 class_name (class_name ++ PROTOTYPE_SUFFIX) 0 0 0
                    (-1) (-1) HWND_MESSAGE context).1 GWLP_HINSTANCE,
              window_class := this,
              window_handle := (s.native.CreateWindowEx 0 class_name
                (class_name ++ PROTOTYPE_SUFFIX) 0 0 0 (-1) (-1) HWND_MESSAGE context).1 }] } := by
  have hwin := CreateWindowEx_IsWindow _ _ _ _ _ _ _ _ _ _ _ hh
  simp only [WindowClass.createPrototype, M.bind_def, M.andThen, M.callEffect]
  generalize s.native.CreateWindowEx 0 class_name (class_name ++ PROTOTYPE_SUFFIX) 0 0 0 (-1) (-1)
    HWND_MESSAGE context = r at hh hwin ⊢
  simp [hh, Window.create, hwin]

theorem createPrototype_eq_raised (s : Sys E) (this : WindowClassPtr) (class_name : wstring)
    (context : HINSTANCE)
    (hh : (s.native.CreateWindowEx 0 class_name (class_name ++ PROTOTYPE_SUFFIX) 0 0 0 (-1) (-1)
      HWND_MESSAGE context).1 = 0) :
    WindowClass.createPrototype this class_name context s =
      Outcome.raised { information := "Failed to create prototype window." }
        { s with native := (s.native.CreateWindowEx 0 class_name (class_name ++ PROTOTYPE_SUFFIX)
            0 0 0 (-1) (-1) HWND_MESSAGE context).2.DisplayErrorMessage } := by
  simp only [WindowClass.createPrototype, M.bind_def, M.andThen, M.callEffect]
  generalize s.native.CreateWindowEx 0 class_name (class_name ++ PROTOTYPE_SUFFIX) 0 0 0 (-1) (-1)
    HWND_MESSAGE context = r at hh ⊢
  simp [hh, M.effect, M.throw, M.andThen]

theorem create_eq_ok (s : Sys E) (class_name : wstring) (context : HINSTANCE)
    (hlen : class_name.length < 256)
    (hh : ((ensured s.native class_name context).CreateWindowEx 0 class_name
        (class_name ++ PROTOTYPE_SUFFIX) 0 0 0 (-1) (-1) HWND_MESSAGE context).1 ≠ 0) :
    WindowClass.create class_name context s = Outcome.ok (s.classObjs.length + 1)
      (constructed s class_name context
        ((ensured s.native class_name context).CreateWindowEx 0 class_name
          (class_name ++ PROTOTYPE_SUFFIX) 0 0 0 (-1) (-1) HWND_MESSAGE context).2
        ((ensured s.native class_name context).CreateWindowEx 0 class_name
          (class_name ++ PROTOTYPE_SUFFIX) 0 0 0 (-1) (-1) HWND_MESSAGE context).1) := by
  have hlen2 : ¬ 256 ≤ class_name.length := by omega
  cases hpre : s.native.GetClassInfoEx context class_name with
  | true =>
    have hens : ensured s.native class_name context = s.native := by simp [ensured, hpre]
    rw [hens] at hh ⊢
    have hp := createPrototype_eq_ok s (s.classObjs.length + 1) class_name context hh
    simp [WindowClass.create, IsValidClassName_true, hlen2, M.bind_def, M.pure_def, M.andThen,
      M.ret, M.get, WindowClass.Exists, M.call, hpre, hp,
      M.effect, M.modify, Window.getNativeHandle, M.window,
      windowAt_append_new, WindowClass.setDefaultMessageHandlers,
      WindowClass.setDefaultMessageHandler, M.updateClass, Sys.classAt, Sys.putClass,
      constructed, StdMap.assign, WM_CLOSE, WM_ERASEBKGND]
  | false =>
    have hens : ensured s.native class_name context =
        { s.native with classes := s.native.classes ++
          [some (WindowClass.registration class_name context)] } := by
      simp [ensured, hpre, RegisterClassEx_of_absent]
    rw [hens] at hh ⊢
    have hp := createPrototype_eq_ok { s with native := { s.native with classes :=
      s.native.classes ++ [some (WindowClass.registration class_name context)] } }
      (s.classObjs.length + 1) class_name context hh
    simp [WindowClass.create, IsValidClassName_true, hlen2, M.bind_def, M.pure_def, M.andThen,
      M.ret, M.get, WindowClass.Exists, M.call, hpre, hp, M.callEffect, RegisterClassEx_of_absent,
      M.effect, M.modify, Window.getNativeHandle, M.window,
      windowAt_append_new, WindowClass.setDefaultMessageHandlers,
      WindowClass.setDefaultMessageHandler, M.updateClass, Sys.classAt, Sys.putClass,
      constructed, StdMap.assign, WM_CLOSE, WM_ERASEBKGND]

variable {E : Type}

theorem create_eq_fault (s : Sys E) (class_name : wstring) (context : HINSTANCE)
    (hlen : 256 ≤ class_name.length) :
    WindowClass.create class_name context s = Outcome.fault := by
  simp [WindowClass.create, IsValidClassName_true, hlen, M.abort]

theorem create_eq_raised (s : Sys E) (class_name : wstring) (context : HINSTANCE)
    (hlen : class_name.length < 256)
    (hh : ((ensured s.native class_name context).CreateWindowEx 0 class_name
        (class_name ++ PROTOTYPE_SUFFIX) 0 0 0 (-1) (-1) HWND_MESSAGE context).1 = 0) :
    WindowClass.create class_name context s =
      Outcome.raised { information := "Failed to create prototype window." }
        { s with native := ((ensured s.native class_name context).CreateWindowEx 0 class_name
          (class_name ++ PROTOTYPE_SUFFIX) 0 0 0 (-1) (-1) HWND_MESSAGE
            context).2.DisplayErrorMessage } := by
  have hlen2 : ¬ 256 ≤ class_name.length := by omega
  cases hpre : s.native.GetClassInfoEx context class_name with
  | true =>
    have hens : ensured s.native class_name context = s.native := by simp [ensured, hpre]
    rw [hens] at hh ⊢
    have hp := createPrototype_eq_raised s (s.classObjs.length + 1) class_name context hh
    simp [WindowClass.create, IsValidClassName_true, hlen2, M.bind_def, M.pure_def, M.andThen,
      M.ret, M.get, WindowClass.Exists, M.call, hpre, hp]
  | false =>
    have hens : ensured s.native class_name context =
        { s.native with classes := s.native.classes ++
          [some (WindowClass.registration class_name context)] } := by
      simp [ensured, hpre, RegisterClassEx_of_absent]
    rw [hens] at hh ⊢
    have hp := createPrototype_eq_raised { s with native := { s.native with classes :=
      s.native.classes ++ [some (WindowClass.registration class_name context)] } }
      (s.classObjs.length + 1) class_name context hh
    simp [WindowClass.create, IsValidClassName_true, hlen2, M.bind_def, M.pure_def, M.andThen,
      M.ret, M.get, WindowClass.Exists, M.call, hpre, hp, M.callEffect, RegisterClassEx_of_absent]

theorem create_ok (s s1 : Sys E) (class_name : wstring) (context : HINSTANCE) (p : WindowClassPtr)
    (h : WindowClass.create class_name context s = Outcome.ok p s1) :
    class_name.length < 256 ∧ p = s.classObjs.length + 1 ∧
    ((ensured s.native class_name context).CreateWindowEx 0 class_name
        (class_name ++ PROTOTYPE_SUFFIX) 0 0 0 (-1) (-1) HWND_MESSAGE context).1 ≠ 0 ∧
    s1 = constructed s class_name context
      ((ensured s.native class_name context).CreateWindowEx 0 class_name
        (class_name ++ PROTOTYPE_SUFFIX) 0 0 0 (-1) (-1) HWND_MESSAGE context).2
      ((ensured s.native class_name context).CreateWindowEx 0 class_name
        (class_name ++ PROTOTYPE_SUFFIX) 0 0 0 (-1) (-1) HWND_MESSAGE context).1 := by
  by_cases hlen : class_name.length < 256
  · by_cases hh : ((ensured s.native class_name context).CreateWindowEx 0 class_name
        (class_name ++ PROTOTYPE_SUFFIX) 0 0 0 (-1) (-1) HWND_MESSAGE context).1 = 0
    · rw [create_eq_raised s class_name context hlen hh] at h
      exact Outcome.noConfusion h
    · rw [create_eq_ok s class_name context hlen hh] at h
      injection h with h1 h2
      exact ⟨hlen, h1.symm, hh, h2.symm⟩
  · rw [create_eq_fault s class_name context (by omega)] at h
    exact Outcome.noConfusion h

theorem Register_eq_raised (s : Sys E) (class_name : wstring) (context : HINSTANCE)
    (h : s.native.GetClassInfoEx context (lowercase class_name) = true) :
    WindowClass.Register class_name context s =
      Outcome.raised { information := "A window class with that name already exists." } s := by
  simp [WindowClass.Register, M.bind_def, M.andThen, WindowClass.Exists, M.call, h, M.throw]

theorem Register_eq_create (s : Sys E) (class_name : wstring) (context : HINSTANCE)
    (h : s.native.GetClassInfoEx context (lowercase class_name) = false) :
    WindowClass.Register class_name context s =
      match WindowClass.create (lowercase class_name) context s with
      | Outcome.ok p s1 => Outcome.ok p { s1 with
          window_class_by_name := StdMap.assign (lowercase class_name) p s1.window_class_by_name }
      | Outcome.raised e s1 => Outcome.raised e s1
      | Outcome.fault => Outcome.fault := by
  cases hc : WindowClass.create (lowercase class_name) context s with
  | ok p s1 =>
    simp [WindowClass.Register, M.bind_def, M.andThen, WindowClass.Exists, M.call, h, hc,
      M.modify, WindowClass.registered, StdMap.find_assign_self]
  | raised e s1 =>
    simp [WindowClass.Register, M.bind_def, M.andThen, WindowClass.Exists, M.call, h, hc]
  | fault =>
    simp [WindowClass.Register, M.bind_def, M.andThen, WindowClass.Exists, M.call, h, hc]

variable {E : Type}

theorem window_lt (n : Native) (h : HWND) (w : NativeWindow) (hw : n.window h = some w) :
    h ≠ 0 ∧ h - 1 < n.windows.length := by
  unfold Native.window at hw
  by_cases h0 : h = 0
  · simp [h0] at hw
  · simp only [h0, if_false] at hw
    cases hg : n.windows[h - 1]? with
    | none => simp [hg] at hw
    | some x => exact ⟨h0, (List.getElem?_eq_some.mp hg).1⟩

theorem window_putWindow_self (n : Native) (h : HWND) (w : NativeWindow) (v : Option NativeWindow)
    (hw : n.window h = some w) : (n.putWindow h v).window h = v := by
  obtain ⟨h0, hlt⟩ := window_lt n h w hw
  simp [Native.window, Native.putWindow, h0, List.getElem?_set_self hlt]

theorem window_putWindow_ne (n : Native) (h k : Nat) (v : Option NativeWindow)
    (h0 : h ≠ 0) (hk : h ≠ k) : (n.putWindow h v).window k = n.window k := by
  unfold Native.window
  by_cases k0 : k = 0
  · simp [k0]
  · have : h - 1 ≠ k - 1 := by omega
    simp [Native.putWindow, k0, List.getElem?_set_ne this]

theorem window_SetWindowLongPtr_style (n : Native) (h : HWND) (w : NativeWindow) (v : Nat)
    (hw : n.window h = some w) :
    (n.SetWindowLongPtr h GWL_STYLE v).window h = some { w with style := v } := by
  simp only [Native.SetWindowLongPtr, hw, if_true]
  exact window_putWindow_self n h w _ hw

theorem window_SetWindowLongPtr_exStyle (n : Native) (h : HWND) (w : NativeWindow) (v : Nat)
    (hw : n.window h = some w) :
    (n.SetWindowLongPtr h GWL_EXSTYLE v).window h = some { w with exStyle := v } := by
  have h1 : (GWL_EXSTYLE = GWL_STYLE) = False := by decide
  simp only [Native.SetWindowLongPtr, hw, h1, if_false, if_true]
  exact window_putWindow_self n h w _ hw

theorem window_MoveWindow (n : Native) (h : HWND) (w : NativeWindow) (x y width height : Int)
    (hw : n.window h = some w) :
    (n.MoveWindow h x y width height).window h =
      some { w with x := x, y := y, width := width, height := height } := by
  simp only [Native.MoveWindow, hw]
  exact window_putWindow_self n h w _ hw

theorem window_SetWindowPos (n : Native) (h : HWND) (w : NativeWindow) (x y cx cy : Int)
    (flags : UINT) (hw : n.window h = some w) :
    ∃ w1, (n.SetWindowPos h x y cx cy flags).window h = some w1 ∧ w1.style = w.style ∧
      w1.exStyle = w.exStyle := by
  simp only [Native.SetWindowPos, hw]
  refine ⟨_, window_putWindow_self n h w _ hw, ?_, ?_⟩ <;> split <;> split <;> rfl

theorem windowAt_native (s : Sys E) (n : Native) (p : WindowPtr) :
    ({ s with native := n } : Sys E).windowAt p = s.windowAt p := rfl

theorem classAt_native (s : Sys E) (n : Native) (p : WindowClassPtr) :
    ({ s with native := n } : Sys E).classAt p = s.classAt p := rfl

theorem setWindowDefaults_spec (s : Sys E) (this : WindowClassPtr) (c : WindowClass E)
    (pw : Window E) (nw : NativeWindow) (style extended_style : DWORD) (x y width height : Int)
    (hc : s.classAt this = some c) (hp : s.windowAt c.prototype = some pw)
    (hn : s.native.window pw.window_handle = some nw) :
    ∃ n1 w1, WindowClass.setWindowDefaults this style extended_style x y width height s =
        Outcome.ok () { s with native := n1 } ∧
      n1.window pw.window_handle = some w1 ∧
      w1.style = (if style &&& WS_CHILD = 0 then style &&& (0xFFFFFFFF ^^^ WS_VISIBLE)
        else style ||| WS_VISIBLE) ∧
      w1.exStyle = extended_style := by
  have h1 := window_SetWindowLongPtr_style s.native pw.window_handle nw
    (if style &&& WS_CHILD = 0 then style &&& (0xFFFFFFFF ^^^ WS_VISIBLE)
      else style ||| WS_VISIBLE) hn
  have h2 := window_SetWindowLongPtr_exStyle _ pw.window_handle _ extended_style h1
  obtain ⟨X, hX⟩ : ∃ X : Native, X = (s.native.SetWindowLongPtr pw.window_handle GWL_STYLE
      (if style &&& WS_CHILD = 0 then style &&& (0xFFFFFFFF ^^^ WS_VISIBLE)
        else style ||| WS_VISIBLE)).SetWindowLongPtr pw.window_handle GWL_EXSTYLE
          extended_style := ⟨_, rfl⟩
  rw [← hX] at h2
  have h3 := window_MoveWindow X pw.window_handle _ x y
    ((X.GetWindowRect pw.window_handle X.uninitialised).right -
      (X.GetWindowRect pw.window_handle X.uninitialised).left)
    ((X.GetWindowRect pw.window_handle X.uninitialised).bottom -
      (X.GetWindowRect pw.window_handle X.uninitialised).top) h2
  obtain ⟨w4, h4, h4s, h4e⟩ := window_SetWindowPos _ pw.window_handle _ 0 0 width height
    (SWP_NOMOVE ||| SWP_NOZORDER) h3
  subst hX
  refine ⟨_, w4, ?_, h4, ?_, ?_⟩
  · simp [WindowClass.setWindowDefaults, M.bind_def, M.pure_def, M.andThen, M.ret,
      M.windowClass, hc, Window.setStyle, Window.setExtendedStyle, Window.setPosition,
      Window.setDimensions, Window.getNativeHandle, Window.getWidth, Window.getHeight,
      Window.getRectangle, M.window, hp, M.effect, M.call, windowAt_native]
  · simpa using h4s
  · simpa using h4e

variable {E : Type}

theorem towlower_idem (c : Nat) : towlower (towlower c) = towlower c := by
  by_cases h : 65 ≤ c ∧ c ≤ 90
  · have h2 : ¬ (65 ≤ c + 32 ∧ c + 32 ≤ 90) := by omega
    simp only [towlower, h, h2, and_self, if_true, if_false]
  · simp [towlower, h]

theorem lowercase_idem (s : wstring) : lowercase (lowercase s) = lowercase s := by
  simp [lowercase, List.map_map, Function.comp_def, towlower_idem]

theorem findSlot_isSome_of_getElem {α : Type} (p : α → Bool) (l : List (Option α)) (i : Nat)
    (a : α) (hi : l[i]? = some (some a)) (hp : p a = true) : (findSlot p l).isSome = true := by
  induction l generalizing i with
  | nil => simp at hi
  | cons x rest ih =>
    cases i with
    | zero =>
      simp only [List.getElem?_cons_zero, Option.some.injEq] at hi
      subst hi
      simp [findSlot, hp]
    | succ j =>
      simp only [List.getElem?_cons_succ] at hi
      cases x with
      | none => simpa [findSlot] using ih j hi
      | some b =>
        by_cases hb : p b = true
        · simp [findSlot, hb]
        · simpa [findSlot, hb] using ih j hi

theorem findSlot_some_getElem {α : Type} (p : α → Bool) (l : List (Option α)) (i : Nat)
    (h : findSlot p l = some i) : ∃ a, l[i]? = some (some a) ∧ p a = true := by
  induction l generalizing i with
  | nil => simp [findSlot] at h
  | cons x rest ih =>
    cases x with
    | none =>
      simp only [findSlot, Option.map_eq_some'] at h
      obtain ⟨j, hj, rfl⟩ := h
      simpa using ih j hj
    | some b =>
      by_cases hb : p b = true
      · simp only [findSlot, hb, if_true, Option.some.injEq] at h
        subst h
        exact ⟨b, by simp, hb⟩
      · simp only [findSlot, hb, Bool.false_eq_true, if_false, Option.map_eq_some'] at h
        obtain ⟨j, hj, rfl⟩ := h
        simpa using ih j hj

theorem GetByName_registered (t : Sys E) (name : wstring) (context : HINSTANCE) (create : Bool)
    (p : WindowClassPtr) (hex : t.native.GetClassInfoEx context (lowercase name) = true)
    (hreg : StdMap.find (lowercase name) t.window_class_by_name = some p) :
    WindowClass.GetByName name context create t = Outcome.ok p t := by
  simp [WindowClass.GetByName, M.bind_def, M.pure_def, M.andThen, M.ret, WindowClass.Exists,
    M.call, hex, M.get, StdMap.count, hreg, WindowClass.registered]

theorem classAt_lt (s : Sys E) (p : WindowClassPtr) (c : WindowClass E)
    (h : s.classAt p = some c) :
    p ≠ 0 ∧ p - 1 < s.classObjs.length ∧ s.classObjs[p - 1]? = some c := by
  unfold Sys.classAt at h
  by_cases h0 : p = 0
  · simp [h0] at h
  · simp only [h0, if_false] at h
    exact ⟨h0, (List.getElem?_eq_some.mp h).1, h⟩

theorem windowAt_lt (s : Sys E) (p : WindowPtr) (w : Window E) (h : s.windowAt p = some w) :
    p ≠ 0 ∧ p - 1 < s.windowObjs.length ∧ s.windowObjs[p - 1]? = some (some w) := by
  unfold Sys.windowAt at h
  by_cases h0 : p = 0
  · simp [h0] at h
  · simp only [h0, if_false] at h
    cases hg : s.windowObjs[p - 1]? with
    | none => simp [hg] at h
    | some x =>
      cases x with
      | none => simp [hg] at h
      | some v =>
        simp [hg] at h
        subst h
        exact ⟨h0, (List.getElem?_eq_some.mp hg).1, rfl⟩

theorem manage_new (t : Sys E) (this : WindowClassPtr) (c : WindowClass E) (h : HWND)
    (hc : t.classAt this = some c) (hnew : StdMap.find h c.instantiated_windows = none)
    (hwin : t.native.IsWindow h = true) :
    WindowClass.manage this h t = Outcome.ok (t.windowObjs.length + 1) (tracked t this c t.native h)
    := by
  obtain ⟨h0, hlt, hget⟩ := classAt_lt t this c hc
  simp [WindowClass.manage, M.bind_def, M.pure_def, M.andThen, M.ret, M.windowClass,
    StdMap.count, hnew, Window.create, hwin, M.updateClass, M.effect, Sys.classAt, h0, hget,
    List.getElem?_set_self hlt, StdMap.find_assign_self, tracked, Sys.putClass]

theorem manage_old (t : Sys E) (this : WindowClassPtr) (c : WindowClass E) (h : HWND)
    (w : WindowPtr) (hc : t.classAt this = some c)
    (hold : StdMap.find h c.instantiated_windows = some w) :
    WindowClass.manage this h t = Outcome.ok w t := by
  simp [WindowClass.manage, M.bind_def, M.pure_def, M.andThen, M.ret, M.windowClass, hc,
    StdMap.count, hold]

theorem FromHandle_property (t : Sys E) (h : HWND)
    (hp : t.native.GetProp h WINDOW_INSTANCE_PROPERTY ≠ 0) :
    Window.FromHandle h t = Outcome.ok (t.native.GetProp h WINDOW_INSTANCE_PROPERTY) t := by
  simp [Window.FromHandle, M.bind_def, M.pure_def, M.andThen, M.ret, M.call, hp]

variable {E : Type}

theorem GetClassInfoEx_of_slot (n : Native) (i : Nat) (ci : WNDCLASSEX)
    (hci : n.classAt i = some ci) :
    n.GetClassInfoEx ci.hInstance (lowercase ci.lpszClassName) = true := by
  unfold Native.GetClassInfoEx Native.findClass
  apply findSlot_isSome_of_getElem _ n.classes i ci (classAt_eq_some n i ci hci)
  simp [Native.sameName, lowercase_idem]

theorem window_SetProp_self (n : Native) (h : HWND) (nw : NativeWindow) (name : wstring)
    (value : HANDLE) (hn : n.window h = some nw) :
    (n.SetProp h name value).window h =
      some { nw with props := (name, value) :: StdMap.erase name nw.props } := by
  simp only [Native.SetProp, hn]
  exact window_putWindow_self n h nw _ hn

theorem FromHandle_untracked (u : Sys E) (h : HWND) (nw : NativeWindow) (ci : WNDCLASSEX)
    (this : WindowClassPtr) (c : WindowClass E)
    (hn : u.native.window h = some nw)
    (hprops : StdMap.find WINDOW_INSTANCE_PROPERTY nw.props = none)
    (hci : u.native.classAt nw.cls = some ci)
    (hreg : StdMap.find (lowercase ci.lpszClassName) u.window_class_by_name = some this)
    (hc : u.classAt this = some c) (hnew : StdMap.find h c.instantiated_windows = none) :
    Window.FromHandle h u =
      if nw.text = BUTTON_PROTOTYPE then Outcome.fault
      else Outcome.ok (u.windowObjs.length + 1) (tracked u this c u.native h) := by
  have hwin : u.native.IsWindow h = true := by simp [Native.IsWindow, hn]
  have hex := GetClassInfoEx_of_slot u.native nw.cls ci hci
  have hg := GetByName_registered u ci.lpszClassName ci.hInstance false this hex hreg
  have hm := manage_new u this c h hc hnew hwin
  have hidx1 : (GCLP_HMODULE = GCL_STYLE) = False := by decide
  have hidx2 : (GCLP_HMODULE = GCLP_WNDPROC) = False := by decide
  have hsp := window_SetProp_self u.native h nw WINDOW_INSTANCE_PROPERTY
    (u.windowObjs.length + 1) hn
  simp [Window.FromHandle, M.bind_def, M.pure_def, M.andThen, M.ret, M.call, Native.GetProp, hn,
    hprops, WindowClass.GetByWindowHandle, hwin, Native.GetClassName, hci,
    Native.GetClassLongPtr, hidx1, hidx2, hg, hm, Window.getName, Window.getNativeHandle,
    M.window, tracked, Sys.windowAt, Native.GetWindowText]
  simp [tracked] at hsp
  by_cases htext : nw.text = BUTTON_PROTOTYPE
  · simp [hsp, htext, M.abort]
  · simp [hsp, htext, M.ret]

/-- The exception `instantiate` throws when `CreateWindowEx` returns no handle. -/
theorem instantiate_eq (t : Sys E) (this : WindowClassPtr) (c : WindowClass E) (pw : Window E)
    (window_name : wstring) (hc : t.classAt this = some c)
    (hp : t.windowAt c.prototype = some pw) :
    WindowClass.instantiate this window_name t =
      if (creation t.native c pw window_name).1 = 0 then
        Outcome.raised { information :=
          "A runtime exception has occured.  Use the \"cause\" method to obtain additional information." }
          { t with native := (creation t.native c pw window_name).2.DisplayErrorMessage }
      else Window.FromHandle (creation t.native c pw window_name).1
        { t with native := (creation t.native c pw window_name).2 } := by
  simp only [WindowClass.instantiate, M.bind_def, M.pure_def, M.andThen, M.ret, M.windowClass, hc,
    Window.getExtendedStyle, Window.getStyle, Window.getXCoordinate, Window.getYCoordinate,
    Window.getWidth, Window.getHeight, Window.getRectangle, Window.getNativeHandle, M.window, hp,
    M.call, M.callEffect, if_true, Bool.false_eq_true, if_false]
  by_cases h0 : (creation t.native c pw window_name).1 = 0
  · simp only [creation] at h0
    simp [creation, h0, M.effect, M.throw, M.andThen]
  · simp only [creation] at h0
    simp [creation, h0]

theorem creation_spec (n : Native) (c : WindowClass E) (pw : Window E) (window_name : wstring) :
    creation n c pw window_name = (0, n) ∨
    ∃ nw ci, n.classAt nw.cls = some ci ∧ lowercase ci.lpszClassName = lowercase c.class_name ∧
      nw.props = [] ∧ nw.text = window_name ∧ nw.parent = pw.window_handle ∧
      nw.wndProc = ci.lpfnWndProc ∧
      creation n c pw window_name =
        (n.windows.length + 1, { n with windows := n.windows ++ [some nw] }) := by
  rcases CreateWindowEx_spec n (n.GetWindowLongPtr pw.window_handle GWL_EXSTYLE)
    c.class_name window_name (n.GetWindowLongPtr pw.window_handle GWL_STYLE)
    (n.ScreenToClient pw.window_handle
      ((n.GetWindowRect pw.window_handle n.uninitialised).left, (n.GetWindowRect pw.window_handle n.uninitialised).top)).1
    (n.ScreenToClient pw.window_handle
      ((n.GetWindowRect pw.window_handle n.uninitialised).left, (n.GetWindowRect pw.window_handle n.uninitialised).top)).2
    ((n.GetWindowRect pw.window_handle n.uninitialised).right - (n.GetWindowRect pw.window_handle n.uninitialised).left)
    ((n.GetWindowRect pw.window_handle n.uninitialised).bottom - (n.GetWindowRect pw.window_handle n.uninitialised).top)
    pw.window_handle n.module with h0 | ⟨i, ci, hi, hci, hr⟩
  · left
    simp only [creation, h0]
  · right
    obtain ⟨a, ha, hpa⟩ := findSlot_some_getElem _ _ _ hi
    have hname : lowercase ci.lpszClassName = lowercase c.class_name := by
      have hci2 := classAt_eq_some n i ci hci
      rw [ha] at hci2
      simp only [Option.some.injEq] at hci2
      subst hci2
      simp only [Bool.and_eq_true, Native.sameName, decide_eq_true_eq] at hpa
      exact hpa.1
    refine ⟨
      { cls := i
        hInstance := n.module
        wndProc := ci.lpfnWndProc
        parent := pw.window_handle
        style := n.GetWindowLongPtr pw.window_handle GWL_STYLE
        exStyle := n.GetWindowLongPtr pw.window_handle GWL_EXSTYLE
        x := (n.ScreenToClient pw.window_handle
          ((n.GetWindowRect pw.window_handle n.uninitialised).left, (n.GetWindowRect pw.window_handle n.uninitialised).top)).1
        y := (n.ScreenToClient pw.window_handle
          ((n.GetWindowRect pw.window_handle n.uninitialised).left, (n.GetWindowRect pw.window_handle n.uninitialised).top)).2
        width := (n.GetWindowRect pw.window_handle n.uninitialised).right -
          (n.GetWindowRect pw.window_handle n.uninitialised).left
        height := (n.GetWindowRect pw.window_handle n.uninitialised).bottom -
          (n.GetWindowRect pw.window_handle n.uninitialised).top
        text := window_name
        props := [] },
      ci, hci, hname, rfl, rfl, rfl, rfl, by simp only [creation, hr]⟩

theorem classAt_append (n : Native) (l : List (Option NativeWindow)) (i : Nat) :
    ({ n with windows := l } : Native).classAt i = n.classAt i := rfl

theorem instantiate_ok (t t1 : Sys E) (this : WindowClassPtr) (c : WindowClass E) (pw : Window E)
    (window_name : wstring) (w : WindowPtr) (hc : t.classAt this = some c)
    (hp : t.windowAt c.prototype = some pw)
    (hreg : StdMap.find (lowercase c.class_name) t.window_class_by_name = some this)
    (hnew : StdMap.find (t.native.windows.length + 1) c.instantiated_windows = none)
    (h : WindowClass.instantiate this window_name t = Outcome.ok w t1) :
    w = t.windowObjs.length + 1 ∧
    ∃ nw ci, t.native.classAt nw.cls = some ci ∧ nw.props = [] ∧ nw.wndProc = ci.lpfnWndProc ∧
      t1 = tracked t this c { t.native with windows := t.native.windows ++ [some nw] }
        (t.native.windows.length + 1) := by
  rw [instantiate_eq t this c pw window_name hc hp] at h
  rcases creation_spec t.native c pw window_name with h0 | ⟨nw, ci, hci, hname, hpr, htx, -, hwp, hr⟩
  · rw [h0] at h
    simp only [if_true] at h
    exact Outcome.noConfusion h
  · rw [hr] at h
    simp only [Nat.succ_ne_zero, if_false] at h
    have hu := FromHandle_untracked
      ({ t with native := { t.native with windows := t.native.windows ++ [some nw] } } : Sys E)
      (t.native.windows.length + 1) nw ci this c (window_append_new t.native nw)
      (by rw [hpr]; rfl) hci (by rw [hname]; exact hreg) hc hnew
    rw [hu] at h
    by_cases htext : nw.text = BUTTON_PROTOTYPE
    · simp only [htext, if_true] at h
      exact Outcome.noConfusion h
    · simp only [htext, if_false] at h
      injection h with h1 h2
      exact ⟨h1.symm, nw, ci, hci, hpr, hwp, h2.symm⟩

variable {E : Type}

/-- The state after the router has handled `WM_NCDESTROY` for handle `h` and wrapper `w`. -/
theorem HandleMessage_default (env : Env E) (t : Sys E) (h : HWND) (m : UINT) (w_param : WPARAM)
    (l_param : LPARAM) (nw : NativeWindow) (w : WindowPtr) (wobj : Window E) (c : WindowClass E)
    (henv : ∀ procedure k message wp lp (u : Sys E),
      (env.windowProc procedure k message wp lp u).2 = u)
    (hn : t.native.window h = some nw)
    (hprop : StdMap.find WINDOW_INSTANCE_PROPERTY nw.props = some w)
    (hw : t.windowAt w = some wobj) (hh : wobj.window_handle = h)
    (hmw : StdMap.find m wobj.message_handlers = none)
    (hc : t.classAt wobj.window_class = some c)
    (hmc : StdMap.find m c.message_handlers = none) :
    Window.HandleMessage env h m w_param l_param t =
      Outcome.ok (env.windowProc c.default_window_procedure h m w_param l_param t).1
        (if m = WM_NCDESTROY then
          { t with
            native := t.native.RemoveProp h WINDOW_INSTANCE_PROPERTY
            windowObjs := t.windowObjs.set (w - 1) (some { wobj with window_handle := 0 }) }
        else t) := by
  obtain ⟨hw0, hwlt, hwget⟩ := windowAt_lt t w wobj hw
  have hgp : t.native.GetProp h WINDOW_INSTANCE_PROPERTY = w := by
    simp [Native.GetProp, hn, hprop]
  have hfrom : Window.FromHandle h t = Outcome.ok w t := by
    have := FromHandle_property t h (by rw [hgp]; exact hw0)
    rw [hgp] at this
    exact this
  have hres := getMessageHandler_eq t w m wobj c hw hc
  have hresolved : resolved wobj c m = MessageHandler.nativeDefault wobj.window_class m := by
    simp [resolved, hmw, hmc]
  rw [hresolved] at hres
  have hinv : (MessageHandler.nativeDefault wobj.window_class m).invoke env w w_param l_param t =
      Outcome.ok (env.windowProc c.default_window_procedure h m w_param l_param t).1 t := by
    simp [MessageHandler.invoke, M.bind_def, M.pure_def, M.andThen, M.ret, M.windowClass, hc,
      Window.getNativeHandle, M.window, hw, hh, CallWindowProc, henv]
  by_cases hm : m = WM_NCDESTROY
  · subst hm
    simp [Window.HandleMessage, M.bind_def, M.pure_def, M.andThen, M.ret, hfrom, hres, hinv,
      Window.removeProperty, Window.getNativeHandle, M.window, hw, hh, M.effect, M.updateWindow,
      windowAt_native, Sys.putWindow]
  · simp [Window.HandleMessage, M.bind_def, M.pure_def, M.andThen, M.ret, hfrom, hres, hinv, hm]

variable {E : Type}

theorem putWindow_putWindow (n : Native) (h : HWND) (a b : Option NativeWindow) :
    (n.putWindow h a).putWindow h b = n.putWindow h b := by
  simp [Native.putWindow, List.set_set]

theorem RemoveProp_putWindow (n : Native) (h : HWND) (name : wstring) (b : Option NativeWindow) :
    (n.RemoveProp h name).putWindow h b = n.putWindow h b := by
  unfold Native.RemoveProp
  cases n.window h with
  | none => rfl
  | some w => exact putWindow_putWindow n h _ b

theorem SetWindowLongPtr_putWindow (n : Native) (h : HWND) (index : Int) (v : Nat)
    (b : Option NativeWindow) : (n.SetWindowLongPtr h index v).putWindow h b = n.putWindow h b := by
  unfold Native.SetWindowLongPtr
  cases n.window h with
  | none => rfl
  | some w =>
    simp only
    split
    · exact putWindow_putWindow n h _ b
    · split
      · exact putWindow_putWindow n h _ b
      · split
        · exact putWindow_putWindow n h _ b
        · split
          · exact putWindow_putWindow n h _ b
          · rfl

theorem window_SetWindowLongPtr_wndProc (n : Native) (h : HWND) (w : NativeWindow) (v : Nat)
    (hw : n.window h = some w) :
    (n.SetWindowLongPtr h GWLP_WNDPROC v).window h = some { w with wndProc := v } := by
  have h1 : (GWLP_WNDPROC = GWL_STYLE) = False := by decide
  have h2 : (GWLP_WNDPROC = GWL_EXSTYLE) = False := by decide
  simp only [Native.SetWindowLongPtr, hw, h1, h2, if_false, if_true]
  exact window_putWindow_self n h w _ hw

theorem GetWindowLongPtr_wndProc (n : Native) (h : HWND) (w : NativeWindow)
    (hw : n.window h = some w) : n.GetWindowLongPtr h GWLP_WNDPROC = w.wndProc := by
  have h1 : (GWLP_WNDPROC = GWL_STYLE) = False := by decide
  have h2 : (GWLP_WNDPROC = GWL_EXSTYLE) = False := by decide
  simp only [Native.GetWindowLongPtr, hw, h1, h2, if_false, if_true]

theorem DestroyWindow_handled (env : Env E) (t : Sys E) (h : HWND) (nw : NativeWindow)
    (w : WindowPtr) (wobj : Window E) (c : WindowClass E)
    (henv : ∀ procedure k message wp lp (u : Sys E),
      (env.windowProc procedure k message wp lp u).2 = u)
    (hn : t.native.window h = some nw) (hproc : nw.wndProc = HandleMessageProc)
    (hprop : StdMap.find WINDOW_INSTANCE_PROPERTY nw.props = some w)
    (hw : t.windowAt w = some wobj) (hh : wobj.window_handle = h)
    (hmw1 : StdMap.find WM_DESTROY wobj.message_handlers = none)
    (hmw2 : StdMap.find WM_NCDESTROY wobj.message_handlers = none)
    (hc : t.classAt wobj.window_class = some c)
    (hmc1 : StdMap.find WM_DESTROY c.message_handlers = none)
    (hmc2 : StdMap.find WM_NCDESTROY c.message_handlers = none) :
    DestroyWindow env h t = Outcome.ok true
      { t with
        native := t.native.putWindow h none
        windowObjs := t.windowObjs.set (w - 1) (some { wobj with window_handle := 0 }) } := by
  have hwin : t.native.IsWindow h = true := by simp [Native.IsWindow, hn]
  have hp := GetWindowLongPtr_wndProc t.native h nw hn
  rw [hproc] at hp
  have hne : (HandleMessageProc = classThunk) = False := by decide
  have hd1 := HandleMessage_default env t h WM_DESTROY 0 0 nw w wobj c henv hn hprop hw hh hmw1
    hc hmc1
  have hd2 := HandleMessage_default env t h WM_NCDESTROY 0 0 nw w wobj c henv hn hprop hw hh hmw2
    hc hmc2
  have hm : (WM_DESTROY = WM_NCDESTROY) = False := by decide
  simp only [hm, if_false] at hd1
  simp only [if_true] at hd2
  simp [DestroyWindow, deliver, M.bind_def, M.pure_def, M.andThen, M.ret, M.call, hwin, hp, hne,
    hd1, hd2, M.effect, RemoveProp_putWindow]

theorem DestroyWindow_thunk (env : Env E) (t : Sys E) (h : HWND) (nw : NativeWindow)
    (w : WindowPtr) (wobj : Window E) (c : WindowClass E)
    (henv : ∀ procedure k message wp lp (u : Sys E),
      (env.windowProc procedure k message wp lp u).2 = u)
    (hn : t.native.window h = some nw) (hproc : nw.wndProc = classThunk)
    (hprop : StdMap.find WINDOW_INSTANCE_PROPERTY nw.props = some w)
    (hw : t.windowAt w = some wobj) (hh : wobj.window_handle = h)
    (hmw1 : StdMap.find WM_DESTROY wobj.message_handlers = none)
    (hmw2 : StdMap.find WM_NCDESTROY wobj.message_handlers = none)
    (hc : t.classAt wobj.window_class = some c)
    (hmc1 : StdMap.find WM_DESTROY c.message_handlers = none)
    (hmc2 : StdMap.find WM_NCDESTROY c.message_handlers = none) :
    DestroyWindow env h t = Outcome.ok true
      { t with
        native := t.native.putWindow h none
        windowObjs := t.windowObjs.set (w - 1) (some { wobj with window_handle := 0 }) } := by
  have hwin : t.native.IsWindow h = true := by simp [Native.IsWindow, hn]
  have hp := GetWindowLongPtr_wndProc t.native h nw hn
  rw [hproc] at hp
  have hn1 := window_SetWindowLongPtr_wndProc t.native h nw HandleMessageProc hn
  have hp1 := GetWindowLongPtr_wndProc _ h _ hn1
  have hne : (HandleMessageProc = classThunk) = False := by decide
  have hd1 := HandleMessage_default env
    ({ t with native := t.native.SetWindowLongPtr h GWLP_WNDPROC HandleMessageProc } : Sys E)
    h WM_DESTROY 0 0 _ w wobj c henv hn1 hprop hw hh hmw1 hc hmc1
  have hd2 := HandleMessage_default env
    ({ t with native := t.native.SetWindowLongPtr h GWLP_WNDPROC HandleMessageProc } : Sys E)
    h WM_NCDESTROY 0 0 _ w wobj c henv hn1 hprop hw hh hmw2 hc hmc2
  have hm : (WM_DESTROY = WM_NCDESTROY) = False := by decide
  simp only [hm, if_false] at hd1
  simp only [if_true] at hd2
  simp [DestroyWindow, deliver, M.bind_def, M.pure_def, M.andThen, M.ret, M.call, hwin, hp, hne,
    hd1, hd2, M.effect, RemoveProp_putWindow, SetWindowLongPtr_putWindow, hp1]

theorem DestroyWindow_native (env : Env E) (t : Sys E) (h : HWND) (nw : NativeWindow)
    (henv : ∀ procedure k message wp lp (u : Sys E),
      (env.windowProc procedure k message wp lp u).2 = u)
    (hn : t.native.window h = some nw) (hproc1 : nw.wndProc ≠ classThunk)
    (hproc2 : nw.wndProc ≠ HandleMessageProc) :
    DestroyWindow env h t = Outcome.ok true { t with native := t.native.putWindow h none } := by
  have hwin : t.native.IsWindow h = true := by simp [Native.IsWindow, hn]
  have hp := GetWindowLongPtr_wndProc t.native h nw hn
  simp [DestroyWindow, deliver, M.bind_def, M.pure_def, M.andThen, M.ret, M.call, hwin, hp,
    hproc1, hproc2, CallWindowProc, henv, M.effect]

theorem isAlive_eq (t : Sys E) (w : WindowPtr) (wobj : Window E) (hw : t.windowAt w = some wobj) :
    Window.isAlive w t =
      Outcome.ok (decide (wobj.window_handle ≠ 0) && t.native.IsWindow wobj.window_handle) t := by
  by_cases h0 : wobj.window_handle = 0
  · simp [Window.isAlive, Window.getNativeHandle, M.bind_def, M.pure_def, M.andThen, M.ret,
      M.window, hw, h0]
  · simp [Window.isAlive, Window.getNativeHandle, M.bind_def, M.pure_def, M.andThen, M.ret,
      M.window, hw, h0, M.call]

theorem destroy_eq (env : Env E) (t : Sys E) (w : WindowPtr) (wobj : Window E)
    (hw : t.windowAt w = some wobj) :
    Window.destroy env w t =
      if wobj.window_handle ≠ 0 ∧ t.native.IsWindow wobj.window_handle = true then
        match DestroyWindow env wobj.window_handle t with
        | Outcome.ok true t1 => Outcome.ok () t1
        | Outcome.ok false t1 => Outcome.ok () { t1 with native := t1.native.DisplayErrorMessage }
        | Outcome.raised e t1 => Outcome.raised e t1
        | Outcome.fault => Outcome.fault
      else Outcome.ok () t := by
  by_cases halive : wobj.window_handle ≠ 0 ∧ t.native.IsWindow wobj.window_handle = true
  · rw [if_pos halive]
    have h0 : ¬ wobj.window_handle = 0 := halive.1
    cases hd : DestroyWindow env wobj.window_handle t with
    | ok b t1 =>
      cases b <;>
        simp [Window.destroy, M.bind_def, M.pure_def, M.andThen, isAlive_eq t w wobj hw, h0,
          halive.2, Window.getNativeHandle, M.window, hw, M.ret, hd, M.effect]
    | raised e t1 =>
      simp [Window.destroy, M.bind_def, M.pure_def, M.andThen, isAlive_eq t w wobj hw, h0,
        halive.2, Window.getNativeHandle, M.window, hw, M.ret, hd]
    | fault =>
      simp [Window.destroy, M.bind_def, M.pure_def, M.andThen, isAlive_eq t w wobj hw, h0,
        halive.2, Window.getNativeHandle, M.window, hw, M.ret, hd]
  · rw [if_neg halive]
    have h2 : ¬ (¬ wobj.window_handle = 0 ∧ t.native.IsWindow wobj.window_handle = true) := halive
    simp [Window.destroy, M.bind_def, M.pure_def, M.andThen, isAlive_eq t w wobj hw, h2, M.ret]

variable {E : Type}

theorem windows_length_SetProp (n : Native) (h : HWND) (name : wstring) (value : HANDLE) :
    (n.SetProp h name value).windows.length = n.windows.length := by
  unfold Native.SetProp
  cases n.window h with
  | none => rfl
  | some w => simp [Native.putWindow]

theorem window_SetProp_ne (n : Native) (h k : Nat) (name : wstring) (value : HANDLE)
    (hk : h ≠ k) : (n.SetProp h name value).window k = n.window k := by
  unfold Native.SetProp
  cases hw : n.window h with
  | none => rfl
  | some w => exact window_putWindow_ne n h k _ (window_lt n h w hw).1 hk

theorem classAt_SetProp (n : Native) (h : HWND) (name : wstring) (value : HANDLE) (i : Nat) :
    (n.SetProp h name value).classAt i = n.classAt i := by
  unfold Native.SetProp
  cases n.window h with
  | none => rfl
  | some w => rfl

theorem tracked_classAt (t : Sys E) (this : WindowClassPtr) (c : WindowClass E) (n : Native)
    (h : HWND) (hc : t.classAt this = some c) :
    (tracked t this c n h).classAt this = some { c with
      instantiated_windows := StdMap.assign h (t.windowObjs.length + 1) c.instantiated_windows }
    := by
  obtain ⟨h0, hlt, -⟩ := classAt_lt t this c hc
  simp [tracked, Sys.classAt, h0, List.getElem?_set_self hlt]

theorem tracked_windowAt_old (t : Sys E) (this : WindowClassPtr) (c : WindowClass E) (n : Native)
    (h : HWND) (p : WindowPtr) (w : Window E) (hw : t.windowAt p = some w) :
    (tracked t this c n h).windowAt p = some w := by
  obtain ⟨h0, hlt, hget⟩ := windowAt_lt t p w hw
  simp [tracked, Sys.windowAt, h0, List.getElem?_append_left hlt, hget]

theorem tracked_windowAt_new (t : Sys E) (this : WindowClassPtr) (c : WindowClass E) (n : Native)
    (h : HWND) :
    (tracked t this c n h).windowAt (t.windowObjs.length + 1) = some
      { background := 0, message_handlers := [],
        module := n.GetWindowLongPtr h GWLP_HINSTANCE,
        window_class := this, window_handle := h } := by
  simp [tracked, Sys.windowAt]

theorem Register_ok (s s1 : Sys E) (name : wstring) (context : HINSTANCE) (p : WindowClassPtr)
    (h : WindowClass.Register name context s = Outcome.ok p s1) :
    ∃ c pw, s1.classAt p = some c ∧ s1.windowAt c.prototype = some pw ∧
      StdMap.find (lowercase c.class_name) s1.window_class_by_name = some p ∧
      c.instantiated_windows = [] ∧
      c.message_handlers = [(WM_CLOSE, MessageHandler.swallowClose),
        (WM_ERASEBKGND, MessageHandler.eraseBackground)] ∧
      c.class_name = lowercase name ∧ c.context = context := by
  cases hpre : s.native.GetClassInfoEx context (lowercase name) with
  | true =>
    rw [Register_eq_raised s name context hpre] at h
    exact Outcome.noConfusion h
  | false =>
    rw [Register_eq_create s name context hpre] at h
    cases hc : WindowClass.create (lowercase name) context s with
    | ok q s2 =>
      simp only [hc] at h
      injection h with hq hs
      obtain ⟨-, hq2, -, hs2⟩ := create_ok s s2 (lowercase name) context q hc
      subst hq
      rw [← hs, hs2, hq2]
      generalize ((ensured s.native (lowercase name) context).CreateWindowEx 0 (lowercase name)
        (lowercase name ++ PROTOTYPE_SUFFIX) 0 0 0 (-1) (-1) HWND_MESSAGE context) = r
      refine ⟨
        { class_name := lowercase name
          context := context
          instantiated_windows := []
          message_handlers := [(WM_CLOSE, MessageHandler.swallowClose),
            (WM_ERASEBKGND, MessageHandler.eraseBackground)]
          prototype := s.windowObjs.length + 1
          default_window_procedure := r.2.GetClassLongPtr r.1 GCLP_WNDPROC },
        { background := 0
          message_handlers := []
          module := r.2.GetWindowLongPtr r.1 GWLP_HINSTANCE
          window_class := s.classObjs.length + 1
          window_handle := r.1 },
        ?_, ?_, ?_, rfl, rfl, rfl, rfl⟩
      · simp [constructed, Sys.classAt]
      · simp [constructed, Sys.windowAt]
      · simp only [lowercase_idem]
        exact StdMap.find_assign_self _ _ _
    | raised e s2 =>
      simp only [hc] at h
      exact Outcome.noConfusion h
    | fault =>
      simp only [hc] at h
      exact Outcome.noConfusion h

variable {E : Type}

theorem pred_ne_pred (a b : Nat) (ha : a ≠ 0) (hb : b ≠ 0) (h : a ≠ b) : a - 1 ≠ b - 1 := by
  omega

theorem IsWindow_putWindow_none (n : Native) (h : HWND) (w : NativeWindow)
    (hw : n.window h = some w) : (n.putWindow h none).IsWindow h = false := by
  simp [Native.IsWindow, window_putWindow_self n h w none hw]

theorem getWindows_eq (t : Sys E) (this : WindowClassPtr) (c : WindowClass E)
    (hc : t.classAt this = some c) :
    WindowClass.getWindows this t = Outcome.ok (c.instantiated_windows.map Prod.snd) t := by
  simp [WindowClass.getWindows, M.bind_def, M.pure_def, M.andThen, M.ret, M.windowClass, hc]

theorem destroy_one_of_two (env : Env E) (t : Sys E) (this : WindowClassPtr) (c : WindowClass E)
    (wa wb : WindowPtr) (oa ob : Window E) (na nb : NativeWindow)
    (henv : ∀ procedure k message wp lp (u : Sys E),
      (env.windowProc procedure k message wp lp u).2 = u)
    (hc : t.classAt this = some c)
    (hmc1 : StdMap.find WM_DESTROY c.message_handlers = none)
    (hmc2 : StdMap.find WM_NCDESTROY c.message_handlers = none)
    (hwa : t.windowAt wa = some oa) (hca : oa.window_class = this)
    (hmw1 : StdMap.find WM_DESTROY oa.message_handlers = none)
    (hmw2 : StdMap.find WM_NCDESTROY oa.message_handlers = none)
    (hna : t.native.window oa.window_handle = some na)
    (hpa : StdMap.find WINDOW_INSTANCE_PROPERTY na.props = some wa)
    (hwb : t.windowAt wb = some ob) (hb0 : ob.window_handle ≠ 0)
    (hnb : t.native.window ob.window_handle = some nb)
    (hab : wa ≠ wb) (hhab : oa.window_handle ≠ ob.window_handle) :
    ∃ t1, Window.destroy env wa t = Outcome.ok () t1 ∧
      WindowClass.getWindows this t1 =
        Outcome.ok (c.instantiated_windows.map Prod.snd) t1 ∧
      Window.isAlive wa t1 = Outcome.ok false t1 ∧
      Window.isAlive wb t1 = Outcome.ok true t1 := by
  obtain ⟨ha0, -⟩ := window_lt t.native oa.window_handle na hna
  obtain ⟨hwa0, hwalt, -⟩ := windowAt_lt t wa oa hwa
  obtain ⟨hwb0, -, -⟩ := windowAt_lt t wb ob hwb
  have halive : oa.window_handle ≠ 0 ∧ t.native.IsWindow oa.window_handle = true :=
    ⟨ha0, by simp [Native.IsWindow, hna]⟩
  have hc' : t.classAt oa.window_class = some c := by rw [hca]; exact hc
  have hdead := IsWindow_putWindow_none t.native oa.window_handle na hna
  have hbw : (t.native.putWindow oa.window_handle none).window ob.window_handle = some nb := by
    rw [window_putWindow_ne t.native oa.window_handle ob.window_handle none ha0 hhab]
    exact hnb
  have hbalive : (t.native.putWindow oa.window_handle none).IsWindow ob.window_handle = true := by
    simp [Native.IsWindow, hbw]
  by_cases hrouted : na.wndProc = classThunk ∨ na.wndProc = HandleMessageProc
  · have hD : DestroyWindow env oa.window_handle t = Outcome.ok true
        { t with
          native := t.native.putWindow oa.window_handle none
          windowObjs := t.windowObjs.set (wa - 1) (some { oa with window_handle := 0 }) } := by
      rcases hrouted with hp | hp
      · exact DestroyWindow_thunk env t _ na wa oa c henv hna hp hpa hwa rfl hmw1 hmw2 hc' hmc1 hmc2
      · exact DestroyWindow_handled env t _ na wa oa c henv hna hp hpa hwa rfl hmw1 hmw2 hc' hmc1
          hmc2
    refine ⟨{ t with
      native := t.native.putWindow oa.window_handle none
      windowObjs := t.windowObjs.set (wa - 1) (some { oa with window_handle := 0 }) },
      ?_, ?_, ?_, ?_⟩
    · rw [destroy_eq env t wa oa hwa, if_pos halive, hD]
    · exact getWindows_eq _ this c hc
    · have hw1 : ({ t with
          native := t.native.putWindow oa.window_handle none
          windowObjs := t.windowObjs.set (wa - 1) (some { oa with window_handle := 0 }) }
          : Sys E).windowAt wa = some { oa with window_handle := 0 } := by
        simp [Sys.windowAt, hwa0, List.getElem?_set_self hwalt]
      rw [isAlive_eq _ wa _ hw1]
      simp
    · have hw2 : ({ t with
          native := t.native.putWindow oa.window_handle none
          windowObjs := t.windowObjs.set (wa - 1) (some { oa with window_handle := 0 }) }
          : Sys E).windowAt wb = some ob := by
        have hne : wa - 1 ≠ wb - 1 := pred_ne_pred wa wb hwa0 hwb0 hab
        have := hwb
        simp only [Sys.windowAt, hwb0, if_false] at this ⊢
        simp only [List.getElem?_set_ne hne]
        exact this
      rw [isAlive_eq _ wb _ hw2]
      simp [hb0, hbalive]
  · have hp1 : na.wndProc ≠ classThunk := fun h => hrouted (Or.inl h)
    have hp2 : na.wndProc ≠ HandleMessageProc := fun h => hrouted (Or.inr h)
    have hD := DestroyWindow_native env t oa.window_handle na henv hna hp1 hp2
    refine ⟨{ t with native := t.native.putWindow oa.window_handle none }, ?_, ?_, ?_, ?_⟩
    · rw [destroy_eq env t wa oa hwa, if_pos halive, hD]
    · exact getWindows_eq _ this c hc
    · have hw1 : ({ t with native := t.native.putWindow oa.window_handle none }
          : Sys E).windowAt wa = some oa := hwa
      rw [isAlive_eq _ wa _ hw1]
      simp [hdead]
    · have hw2 : ({ t with native := t.native.putWindow oa.window_handle none }
          : Sys E).windowAt wb = some ob := hwb
      rw [isAlive_eq _ wb _ hw2]
      simp [hb0, hbalive]

variable {E : Type}

theorem succ_ne_of_pred_lt (k len : Nat) (h : k - 1 < len) : len + 1 ≠ k := by
  omega

/-- What a successful `instantiate` leaves behind, for a class that is registered under its
lowercase name and does not track the next handle yet. -/
theorem instantiate_fresh (t t1 : Sys E) (this : WindowClassPtr) (c : WindowClass E)
    (pw : Window E) (window_name : wstring) (w : WindowPtr) (hc : t.classAt this = some c)
    (hp : t.windowAt c.prototype = some pw)
    (hreg : StdMap.find (lowercase c.class_name) t.window_class_by_name = some this)
    (hnew : StdMap.find (t.native.windows.length + 1) c.instantiated_windows = none)
    (h : WindowClass.instantiate this window_name t = Outcome.ok w t1) :
    w = t.windowObjs.length + 1 ∧
    t1.classAt this = some { c with
      instantiated_windows :=
        StdMap.assign (t.native.windows.length + 1) w c.instantiated_windows } ∧
    t1.window_class_by_name = t.window_class_by_name ∧
    t1.native.windows.length = t.native.windows.length + 1 ∧
    t1.windowObjs.length = t.windowObjs.length + 1 ∧
    (∃ o, t1.windowAt w = some o ∧ o.window_handle = t.native.windows.length + 1 ∧
      o.window_class = this ∧ o.message_handlers = []) ∧
    (∃ nw, t1.native.window (t.native.windows.length + 1) = some nw ∧
      StdMap.find WINDOW_INSTANCE_PROPERTY nw.props = some w) ∧
    (∀ p o, t.windowAt p = some o → t1.windowAt p = some o) ∧
    (∀ k x, t.native.window k = some x → t1.native.window k = some x) := by
  obtain ⟨hw, nw, ci, -, hpr, -, hs⟩ :=
    instantiate_ok t t1 this c pw window_name w hc hp hreg hnew h
  subst hw
  subst hs
  refine ⟨rfl, tracked_classAt t this c _ _ hc, rfl, ?_, ?_, ?_, ?_, ?_, ?_⟩
  · simp [tracked, windows_length_SetProp]
  · simp [tracked]
  · exact ⟨_, tracked_windowAt_new t this c _ _, rfl, rfl, rfl⟩
  · refine ⟨_, window_SetProp_self _ _ nw _ _ (window_append_new t.native nw), ?_⟩
    simp [StdMap.find]
  · intro p o hpo
    exact tracked_windowAt_old t this c _ _ p o hpo
  · intro k x hk
    have hk2 := window_append_old t.native (some nw) k x hk
    have hne : t.native.windows.length + 1 ≠ k :=
      succ_ne_of_pred_lt k _ (window_lt t.native k x hk).2
    simp only [tracked]
    rw [window_SetProp_ne _ _ k _ _ hne]
    exact hk2

variable {E : Type}

variable {E : Type}

theorem window_zero (n : Native) : n.window 0 = none := by
  simp [Native.window]

theorem window_putWindow_none_imp (n : Native) (h k : HWND) (x : NativeWindow)
    (hx : (n.putWindow h none).window k = some x) : n.window k = some x := by
  by_cases hk : k = 0
  · subst hk
    rw [window_zero] at hx
    exact Option.noConfusion hx
  · simp only [Native.window, Native.putWindow, hk, if_false] at hx ⊢
    by_cases hhk : h - 1 = k - 1
    · rw [hhk] at hx
      by_cases hlt : k - 1 < n.windows.length
      · rw [List.getElem?_set_self hlt] at hx
        simp at hx
      · rw [List.getElem?_eq_none (by simpa using hlt)] at hx
        simp at hx
    · rw [List.getElem?_set_ne hhk] at hx
      exact hx

variable {E : Type}

theorem andThen_ok {α β : Type} (m : M E α) (f : α → M E β) (s s2 : Sys E) (b : β)
    (h : M.andThen m f s = Outcome.ok b s2) :
    ∃ a s1, m s = Outcome.ok a s1 ∧ f a s1 = Outcome.ok b s2 := by
  unfold M.andThen at h
  split at h
  · next a s1 hm => exact ⟨a, s1, hm, h⟩
  · exact Outcome.noConfusion h
  · exact Outcome.noConfusion h

theorem FromHandle_ne_zero (h : HWND) (s s1 : Sys E) (p : WindowPtr)
    (hres : Window.FromHandle h s = Outcome.ok p s1) : p ≠ 0 := by
  by_cases hprop : s.native.GetProp h WINDOW_INSTANCE_PROPERTY = 0
  · simp only [Window.FromHandle, M.bind_def, M.pure_def] at hres
    obtain ⟨window, t0, h0, hres⟩ := andThen_ok _ _ _ _ _ hres
    simp only [M.call] at h0
    injection h0 with h0 ht0
    subst ht0
    rw [← h0, if_pos hprop] at hres
    obtain ⟨wc, t, -, hres⟩ := andThen_ok _ _ _ _ _ hres
    obtain ⟨window, u, -, hres⟩ := andThen_ok _ _ _ _ _ hres
    obtain ⟨name, v, h3, hres⟩ := andThen_ok _ _ _ _ _ hres
    intro hp
    split at hres
    · exact Outcome.noConfusion hres
    · simp only [M.ret] at hres
      injection hres with hw _
      rw [← hw] at hp
      subst hp
      simp [Window.getName, Window.getNativeHandle, M.window, M.bind_def, M.pure_def,
        M.andThen, M.ret, M.call, Sys.windowAt] at h3
  · simp only [Window.FromHandle, M.bind_def, M.pure_def] at hres
    obtain ⟨window, t0, h0, hres⟩ := andThen_ok _ _ _ _ _ hres
    simp only [M.call] at h0
    injection h0 with h0 ht0
    rw [← h0, if_neg hprop] at hres
    simp only [M.ret] at hres
    injection hres with hw _
    rw [← hw]
    exact hprop

theorem getNativeHandle_ok (w : WindowPtr) (s t : Sys E) (h : HWND)
    (hres : Window.getNativeHandle w s = Outcome.ok h t) :
    t = s ∧ ∃ wobj, s.windowAt w = some wobj ∧ h = wobj.window_handle := by
  cases hw : s.windowAt w with
  | none =>
    simp [Window.getNativeHandle, M.window, M.bind_def, M.pure_def, M.andThen, M.ret, hw] at hres
  | some wobj =>
    simp only [Window.getNativeHandle, M.window, M.bind_def, M.pure_def, M.andThen, M.ret,
      hw] at hres
    injection hres with h1 h2
    exact ⟨h2.symm, wobj, rfl, h1.symm⟩

theorem getWindowClass_ok (w : WindowPtr) (s t : Sys E) (p : WindowClassPtr)
    (hres : Window.getWindowClass w s = Outcome.ok p t) :
    t = s ∧ ∃ wobj, s.windowAt w = some wobj ∧ p = wobj.window_class := by
  cases hw : s.windowAt w with
  | none =>
    simp [Window.getWindowClass, M.window, M.bind_def, M.pure_def, M.andThen, M.ret, hw] at hres
  | some wobj =>
    simp only [Window.getWindowClass, M.window, M.bind_def, M.pure_def, M.andThen, M.ret,
      hw] at hres
    injection hres with h1 h2
    exact ⟨h2.symm, wobj, rfl, h1.symm⟩

theorem windowClass_ok (p : WindowClassPtr) (s t : Sys E) (c : WindowClass E)
    (hres : M.windowClass p s = Outcome.ok c t) : t = s ∧ s.classAt p = some c := by
  cases hc : s.classAt p with
  | none => simp [M.windowClass, hc] at hres
  | some c1 =>
    simp only [M.windowClass, hc] at hres
    injection hres with h1 h2
    exact ⟨h2.symm, by rw [h1]⟩

theorem getParent_null (w : WindowPtr) (s s1 : Sys E)
    (hres : Window.getParent w s = Outcome.ok 0 s1) : s1 = s := by
  simp only [Window.getParent, M.bind_def, M.pure_def] at hres
  obtain ⟨h, t1, h1, hres1⟩ := andThen_ok _ _ _ _ _ hres
  obtain ⟨ht1, -⟩ := getNativeHandle_ok _ _ _ _ h1
  obtain ⟨parent, t2, h2, hres2⟩ := andThen_ok _ _ _ _ _ hres1
  simp only [M.call] at h2
  injection h2 with h2 ht2
  obtain ⟨wc, t3, h3, hres3⟩ := andThen_ok _ _ _ _ _ hres2
  obtain ⟨ht3, -⟩ := getWindowClass_ok _ _ _ _ h3
  obtain ⟨c, t4, h4, hres4⟩ := andThen_ok _ _ _ _ _ hres3
  obtain ⟨ht4, -⟩ := windowClass_ok _ _ _ _ h4
  obtain ⟨ph, t5, h5, hres5⟩ := andThen_ok _ _ _ _ _ hres4
  obtain ⟨ht5, -⟩ := getNativeHandle_ok _ _ _ _ h5
  have hts : t5 = s := by rw [ht5, ht4, ht3, ← ht2, ht1]
  split at hres5
  · simp only [M.ret] at hres5
    injection hres5 with _ hs
    rw [← hs, hts]
  · split at hres5
    · simp only [M.ret] at hres5
      injection hres5 with _ hs
      rw [← hs, hts]
    · exact absurd rfl (FromHandle_ne_zero _ _ _ _ hres5)

theorem isTopLevel_true (w : WindowPtr) (s s1 : Sys E)
    (hres : Window.isTopLevel w s = Outcome.ok true s1) : s1 = s := by
  simp only [Window.isTopLevel, Window.hasParent, M.bind_def, M.pure_def] at hres
  obtain ⟨has, t1, h1, hres1⟩ := andThen_ok _ _ _ _ _ hres
  obtain ⟨parent, t2, h2, h3⟩ := andThen_ok _ _ _ _ _ h1
  simp only [M.ret] at hres1 h3
  injection hres1 with hhas hs
  injection h3 with hp ht
  have hparent : parent = 0 := by
    by_contra hne
    rw [← hp] at hhas
    simp [hne] at hhas
  rw [hparent] at h2
  rw [← hs, ← ht]
  exact getParent_null w s t2 h2

variable {E : Type}

theorem Register_registered (s s1 : Sys E) (n : wstring) (c : HINSTANCE) (p : WindowClassPtr)
    (hfirst : WindowClass.Register n c s = Outcome.ok p s1) :
    s1.native.GetClassInfoEx c (lowercase n) = true ∧
    StdMap.find (lowercase n) s1.window_class_by_name = some p := by
  cases hpre : s.native.GetClassInfoEx c (lowercase n) with
  | true =>
    rw [Register_eq_raised s n c hpre] at hfirst
    exact Outcome.noConfusion hfirst
  | false =>
    rw [Register_eq_create s n c hpre] at hfirst
    cases hc : WindowClass.create (lowercase n) c s with
    | ok q s2 =>
      simp only [hc] at hfirst
      injection hfirst with hq hs
      obtain ⟨-, -, -, hs2⟩ := create_ok s s2 (lowercase n) c q hc
      constructor
      · rw [← hs, hs2]
        exact constructed_GetClassInfoEx s (lowercase n) c
      · rw [← hs, ← hq]
        exact StdMap.find_assign_self _ _ _
    | raised e s2 =>
      simp only [hc] at hfirst
      exact Outcome.noConfusion hfirst
    | fault =>
      simp only [hc] at hfirst
      exact Outcome.noConfusion hfirst

variable {E : Type}

theorem HandleMessage_managed (env : Env E) (s : Sys E) (h : HWND) (m : UINT) (w_param : WPARAM)
    (l_param : LPARAM) (w : WindowPtr) (wobj : Window E) (c : WindowClass E)
    (hprop : s.native.GetProp h WINDOW_INSTANCE_PROPERTY = w)
    (hw : s.windowAt w = some wobj) (hc : s.classAt wobj.window_class = some c) :
    Window.HandleMessage env h m w_param l_param s =
      M.andThen ((resolved wobj c m).invoke env w w_param l_param) (fun result =>
        if m = WM_NCDESTROY then
          M.andThen (Window.removeProperty w WINDOW_INSTANCE_PROPERTY) (fun _ =>
            M.andThen (M.updateWindow w (fun o => { o with window_handle := 0 })) (fun _ =>
              M.ret result))
        else M.ret result) s := by
  have hw0 : w ≠ 0 := (windowAt_lt s w wobj hw).1
  have hfrom : Window.FromHandle h s = Outcome.ok w s := by
    have := FromHandle_property s h (by rw [hprop]; exact hw0)
    rw [hprop] at this
    exact this
  have hget := getMessageHandler_eq s w m wobj c hw hc
  simp only [Window.HandleMessage, M.bind_def, M.pure_def]
  show M.andThen (Window.FromHandle h) _ s = _
  simp only [M.andThen, hfrom, hget]
  cases (resolved wobj c m).invoke env w w_param l_param s with
  | fault => rfl
  | raised e t => rfl
  | ok r t =>
    by_cases hm : m = WM_NCDESTROY
    · simp [hm, M.andThen, M.bind_def, M.pure_def, M.ret]
    · simp [hm, M.andThen, M.bind_def, M.pure_def, M.ret]

theorem GetProp_RemoveProp (n : Native) (h : HWND) (name : wstring) :
    (n.RemoveProp h name).GetProp h name = 0 := by
  cases hn : n.window h with
  | none => simp [Native.RemoveProp, Native.GetProp, hn]
  | some nw =>
    simp [Native.RemoveProp, Native.GetProp, hn, window_putWindow_self n h nw _ hn,
      StdMap.find_erase_self]

variable {E : Type}

theorem create_handlers (s s1 : Sys E) (name : wstring) (context : HINSTANCE)
    (p : WindowClassPtr) (h : WindowClass.create name context s = Outcome.ok p s1) :
    ∃ c, s1.classAt p = some c ∧
      c.message_handlers = [(WM_CLOSE, MessageHandler.swallowClose),
        (WM_ERASEBKGND, MessageHandler.eraseBackground)] ∧
      c.instantiated_windows = [] ∧ c.class_name = name ∧ c.context = context := by
  obtain ⟨-, hq, -, hs⟩ := create_ok s s1 name context p h
  rw [hs, hq]
  generalize ((ensured s.native name context).CreateWindowEx 0 name
    (name ++ PROTOTYPE_SUFFIX) 0 0 0 (-1) (-1) HWND_MESSAGE context) = r
  refine ⟨
    { class_name := name
      context := context
      instantiated_windows := []
      message_handlers := [(WM_CLOSE, MessageHandler.swallowClose),
        (WM_ERASEBKGND, MessageHandler.eraseBackground)]
      prototype := s.windowObjs.length + 1
      default_window_procedure := r.2.GetClassLongPtr r.1 GCLP_WNDPROC }, ?_, rfl, rfl, rfl, rfl⟩
  simp [constructed, Sys.classAt]

theorem GetByName_builds (s s1 : Sys E) (n : wstring) (context : HINSTANCE) (create : Bool)
    (p : WindowClassPtr)
    (hnone : StdMap.find (lowercase n) s.window_class_by_name = none)
    (h : WindowClass.GetByName n context create s = Outcome.ok p s1) (hp : p ≠ 0) :
    ∃ c, s1.classAt p = some c ∧
      c.message_handlers = [(WM_CLOSE, MessageHandler.swallowClose),
        (WM_ERASEBKGND, MessageHandler.eraseBackground)] ∧
      c.instantiated_windows = [] ∧ c.class_name = lowercase n ∧ c.context = context := by
  cases hex : s.native.GetClassInfoEx context (lowercase n) with
  | true =>
    cases hc : WindowClass.create (lowercase n) context s with
    | ok q s2 =>
      simp [WindowClass.GetByName, M.bind_def, M.pure_def, M.andThen, M.ret, WindowClass.Exists,
        M.call, hex, M.get, StdMap.count, hnone, hc, M.modify, WindowClass.registered,
        StdMap.find_assign_self] at h
      obtain ⟨c, hcl, hrest⟩ := create_handlers s s2 (lowercase n) context q hc
      obtain ⟨hq, hs⟩ := h
      subst hq hs
      exact ⟨c, hcl, hrest⟩
    | raised e s2 =>
      simp [WindowClass.GetByName, M.bind_def, M.pure_def, M.andThen, M.ret, WindowClass.Exists,
        M.call, hex, M.get, StdMap.count, hnone, hc] at h
    | fault =>
      simp [WindowClass.GetByName, M.bind_def, M.pure_def, M.andThen, M.ret, WindowClass.Exists,
        M.call, hex, M.get, StdMap.count, hnone, hc] at h
  | false =>
    cases create with
    | false =>
      simp [WindowClass.GetByName, M.bind_def, M.pure_def, M.andThen, M.ret, WindowClass.Exists,
        M.call, hex] at h
      exact absurd h.1.symm hp
    | true =>
      have hreg : WindowClass.Register (lowercase n) context s = Outcome.ok p s1 := by
        simpa [WindowClass.GetByName, M.bind_def, M.pure_def, M.andThen, M.ret,
          WindowClass.Exists, M.call, hex] using h
      obtain ⟨c, pw, hcl, -, -, hinst, hmh, hname, hctx⟩ :=
        Register_ok s s1 (lowercase n) context p hreg
      rw [lowercase_idem] at hname
      exact ⟨c, hcl, hmh, hinst, hname, hctx⟩

variable {E : Type}

theorem DefaultChange_run_ok (s : Sys E) (this : WindowClassPtr) (c : WindowClass E)
    (change : DefaultChange E) (hc : s.classAt this = some c) :
    ∃ c1, DefaultChange.run this change s = Outcome.ok () (s.putClass this c1) := by
  cases change with
  | set message handler =>
    refine ⟨{ c with message_handlers := StdMap.assign message handler c.message_handlers }, ?_⟩
    simp [DefaultChange.run, WindowClass.setDefaultMessageHandler, M.updateClass, hc]
  | extend message handler =>
    have hprev := getDefaultMessageHandler_eq s this message c hc
    generalize (StdMap.find message c.message_handlers).getD
      (MessageHandler.nativeDefault this message) = prev at hprev
    refine ⟨
      { c with
        message_handlers :=
          StdMap.assign message (MessageHandler.extended handler prev) c.message_handlers },
      ?_⟩
    simp [DefaultChange.run, WindowClass.extendDefaultMessageHandler, M.bind_def,
      M.andThen, hprev,
      WindowClass.setDefaultMessageHandler, M.updateClass, hc]
  | unset message =>
    refine ⟨{ c with message_handlers := StdMap.erase message c.message_handlers }, ?_⟩
    simp [DefaultChange.run, WindowClass.unsetDefaultMessageHandler, M.updateClass, hc]

theorem DefaultChange_run_all (this : WindowClassPtr) (changes : List (DefaultChange E)) :
    ∀ (s : Sys E) (c : WindowClass E), s.classAt this = some c →
      ∃ s1 c1, M.forEach (DefaultChange.run this) changes s = Outcome.ok () s1 ∧
        s1.classAt this = some c1 ∧ s1.windowObjs = s.windowObjs ∧ s1.native = s.native := by
  induction changes with
  | nil =>
    intro s c hc
    exact ⟨s, c, rfl, hc, rfl, rfl⟩
  | cons change rest ih =>
    intro s c hc
    obtain ⟨c1, hrun⟩ := DefaultChange_run_ok s this c change hc
    obtain ⟨s2, c2, hrest, hc2, hw2, hn2⟩ := ih (s.putClass this c1) c1
      (Sys.classAt_putClass_self s this c c1 hc)
    refine ⟨s2, c2, ?_, hc2, hw2, hn2⟩
    simp only [M.forEach, M.andThen, hrun]
    exact hrest

variable {E : Type}

theorem sameObjects_classAt (s t : Sys E) (h : s.sameObjects t) (p : WindowClassPtr) :
    t.classAt p = s.classAt p := by
  simp only [Sys.classAt, h.2.2.2.1]

variable {E : Type}

variable {E : Type}

/-- C1: after any number of `extendMessageHandler(m, h)` calls on a window, and likewise of
`extendDefaultMessageHandler(m, h)` calls on a class, the handler then resolved for `m` returns,
on every window, arguments and state, what the handler resolved before the first extension
returns there. -/
theorem extend_preserves_result (env : Env E) (s : Sys E) (m : UINT) (hs : List E)
    (window : WindowPtr) (prev : MessageHandler E)
    (window_class : WindowClassPtr) (prev_default : MessageHandler E)
    (hwindow : Window.getMessageHandler window m s = Outcome.ok prev s)
    (hclass : WindowClass.getDefaultMessageHandler window_class m s = Outcome.ok prev_default s) :
    (∃ s1 now, M.forEach (Window.extendMessageHandler window m) hs s = Outcome.ok () s1 ∧
      Window.getMessageHandler window m s1 = Outcome.ok now s1 ∧
      ∀ target w_param l_param t, (now.invoke env target w_param l_param t).returned =
        (prev.invoke env target w_param l_param t).returned) ∧
    (∃ s1 now,
      M.forEach (WindowClass.extendDefaultMessageHandler window_class m) hs s = Outcome.ok () s1 ∧
      WindowClass.getDefaultMessageHandler window_class m s1 = Outcome.ok now s1 ∧
      ∀ target w_param l_param t, (now.invoke env target w_param l_param t).returned =
        (prev_default.invoke env target w_param l_param t).returned) := by
  constructor
  · obtain ⟨s1, h1, h2⟩ := extendMessageHandler_all s window m hs prev hwindow
    refine ⟨s1, layered prev hs, h1, h2, ?_⟩
    intro target w_param l_param t
    rw [invoke_layered]
    exact returned_andThen_thenExtensions env hs _ target w_param l_param t
  · obtain ⟨s1, h1, h2⟩ := extendDefaultMessageHandler_all s window_class m hs prev_default hclass
    refine ⟨s1, layered prev_default hs, h1, h2, ?_⟩
    intro target w_param l_param t
    rw [invoke_layered]
    exact returned_andThen_thenExtensions env hs _ target w_param l_param t

/-- Witness of C1: window 2 and class 1 of the sample run, three extensions of `WM_CLOSE`. -/
theorem extend_preserves_result_witness :
    Window.getMessageHandler 2 WM_CLOSE Sample.oneWindow =
      Outcome.ok MessageHandler.swallowClose Sample.oneWindow ∧
    WindowClass.getDefaultMessageHandler 1 WM_CLOSE Sample.oneWindow =
      Outcome.ok MessageHandler.swallowClose Sample.oneWindow ∧
    (∃ s1 now, M.forEach (Window.extendMessageHandler 2 WM_CLOSE) [4, 5, 6] Sample.oneWindow =
        Outcome.ok () s1 ∧
      Window.getMessageHandler 2 WM_CLOSE s1 = Outcome.ok now s1 ∧
      ∀ target w_param l_param t, (now.invoke Sample.env target w_param l_param t).returned =
        (MessageHandler.swallowClose.invoke Sample.env target w_param l_param t).returned) ∧
    (∃ s1 now,
      M.forEach (WindowClass.extendDefaultMessageHandler 1 WM_CLOSE) [4, 5, 6] Sample.oneWindow =
        Outcome.ok () s1 ∧
      WindowClass.getDefaultMessageHandler 1 WM_CLOSE s1 = Outcome.ok now s1 ∧
      ∀ target w_param l_param t, (now.invoke Sample.env target w_param l_param t).returned =
        (MessageHandler.swallowClose.invoke Sample.env target w_param l_param t).returned) :=
  ⟨by decide!, by decide!,
    extend_preserves_result Sample.env Sample.oneWindow WM_CLOSE [4, 5, 6] 2
      MessageHandler.swallowClose 1 MessageHandler.swallowClose (by decide!) (by decide!)⟩

/-- C2: `Window::getMessageHandler(m)` returns the entry of the instance table when there is one,
otherwise the entry of the class table when there is one, otherwise a handler that calls the
procedure cached in `default_window_procedure` with the handle of the window, `m` and the two
parameters and returns its result; and after `unsetMessageHandler(m)` the window resolves `m` to
what its class resolves. -/
theorem getMessageHandler_resolution (env : Env E) (s : Sys E) (this : WindowPtr) (m : UINT)
    (w : Window E) (c : WindowClass E)
    (hw : s.windowAt this = some w) (hc : s.classAt w.window_class = some c) :
    (∀ handler, StdMap.find m w.message_handlers = some handler →
      Window.getMessageHandler this m s = Outcome.ok handler s) ∧
    (StdMap.find m w.message_handlers = none →
      ∀ handler, StdMap.find m c.message_handlers = some handler →
        Window.getMessageHandler this m s = Outcome.ok handler s) ∧
    (StdMap.find m w.message_handlers = none → StdMap.find m c.message_handlers = none →
      ∃ handler, Window.getMessageHandler this m s = Outcome.ok handler s ∧
        ∀ w_param l_param, handler.invoke env this w_param l_param s =
          CallWindowProc env c.default_window_procedure w.window_handle m w_param l_param s) ∧
    (∃ s1, Window.unsetMessageHandler this m s = Outcome.ok () s1 ∧
      Window.getMessageHandler this m s1 = WindowClass.getDefaultMessageHandler w.window_class m s1)
    := by
  have hres := getMessageHandler_eq s this m w c hw hc
  refine ⟨?_, ?_, ?_, ?_⟩
  · intro handler hf
    simpa [resolved, hf] using hres
  · intro hn handler hf
    simpa [resolved, hn, hf] using hres
  · intro hn hcn
    refine ⟨MessageHandler.nativeDefault w.window_class m, ?_, ?_⟩
    · simpa [resolved, hn, hcn] using hres
    · intro w_param l_param
      simp only [MessageHandler.invoke, M.bind_def, M.andThen, M.windowClass, hc,
        Window.getNativeHandle, M.window, hw, M.pure_def, M.ret]
  · refine ⟨s.putWindow this (some { w with
      message_handlers := StdMap.erase m w.message_handlers }), ?_, ?_⟩
    · simp only [Window.unsetMessageHandler, M.updateWindow, hw]
    · have hw1 := Sys.windowAt_putWindow_self s this w (some { w with
        message_handlers := StdMap.erase m w.message_handlers }) hw
      simp only [Window.getMessageHandler, M.bind_def, M.andThen, M.window, hw1,
        StdMap.find_erase_self]

/-- Witness of C2: window 2 of the sample run (class 1) and `WM_CLOSE`. -/
theorem getMessageHandler_resolution_witness :
    Window.getMessageHandler 2 WM_CLOSE Sample.oneWindow =
      Outcome.ok MessageHandler.swallowClose Sample.oneWindow :=
  (getMessageHandler_resolution Sample.env Sample.oneWindow 2 WM_CLOSE
    { background := 0, message_handlers := [], module := 7, window_class := 1, window_handle := 2 }
    { class_name := [119, 105, 100, 103, 101, 116], context := 7,
      instantiated_windows := [(2, 2)],
      message_handlers := [(16, MessageHandler.swallowClose), (20, MessageHandler.eraseBackground)],
      prototype := 1, default_window_procedure := 1 }
    (by decide!) (by decide!)).2.1 (by decide!) MessageHandler.swallowClose (by decide!)

/-- C3: one call of the handler resolved after the extensions `hs` runs the handler resolved
before them once and first, then each extending handler of `hs` once, in the order of
registration, all on the same window and parameters, and returns the result of the first. -/
theorem extend_runs_in_order (env : Env E) (s : Sys E) (m : UINT) (hs : List E)
    (window : WindowPtr) (prev : MessageHandler E)
    (window_class : WindowClassPtr) (prev_default : MessageHandler E)
    (hwindow : Window.getMessageHandler window m s = Outcome.ok prev s)
    (hclass : WindowClass.getDefaultMessageHandler window_class m s = Outcome.ok prev_default s) :
    (∃ s1 now, M.forEach (Window.extendMessageHandler window m) hs s = Outcome.ok () s1 ∧
      Window.getMessageHandler window m s1 = Outcome.ok now s1 ∧
      ∀ target w_param l_param, now.invoke env target w_param l_param =
        M.andThen (prev.invoke env target w_param l_param)
          (thenExtensions env hs target w_param l_param)) ∧
    (∃ s1 now,
      M.forEach (WindowClass.extendDefaultMessageHandler window_class m) hs s = Outcome.ok () s1 ∧
      WindowClass.getDefaultMessageHandler window_class m s1 = Outcome.ok now s1 ∧
      ∀ target w_param l_param, now.invoke env target w_param l_param =
        M.andThen (prev_default.invoke env target w_param l_param)
          (thenExtensions env hs target w_param l_param)) := by
  constructor
  · obtain ⟨s1, h1, h2⟩ := extendMessageHandler_all s window m hs prev hwindow
    exact ⟨s1, layered prev hs, h1, h2, fun target w_param l_param =>
      invoke_layered env hs prev target w_param l_param⟩
  · obtain ⟨s1, h1, h2⟩ := extendDefaultMessageHandler_all s window_class m hs prev_default hclass
    exact ⟨s1, layered prev_default hs, h1, h2, fun target w_param l_param =>
      invoke_layered env hs prev_default target w_param l_param⟩

/-- Witness of C3: window 2 and class 1 of the sample run, three extensions of `WM_CLOSE`. -/
theorem extend_runs_in_order_witness :
    (∃ s1 now, M.forEach (Window.extendMessageHandler 2 WM_CLOSE) [4, 5, 6] Sample.oneWindow =
        Outcome.ok () s1 ∧
      Window.getMessageHandler 2 WM_CLOSE s1 = Outcome.ok now s1 ∧
      ∀ target w_param l_param, now.invoke Sample.env target w_param l_param =
        M.andThen (MessageHandler.swallowClose.invoke Sample.env target w_param l_param)
          (thenExtensions Sample.env [4, 5, 6] target w_param l_param)) ∧
    (∃ s1 now,
      M.forEach (WindowClass.extendDefaultMessageHandler 1 WM_CLOSE) [4, 5, 6] Sample.oneWindow =
        Outcome.ok () s1 ∧
      WindowClass.getDefaultMessageHandler 1 WM_CLOSE s1 = Outcome.ok now s1 ∧
      ∀ target w_param l_param, now.invoke Sample.env target w_param l_param =
        M.andThen (MessageHandler.swallowClose.invoke Sample.env target w_param l_param)
          (thenExtensions Sample.env [4, 5, 6] target w_param l_param)) :=
  extend_runs_in_order Sample.env Sample.oneWindow WM_CLOSE [4, 5, 6] 2
    MessageHandler.swallowClose 1 MessageHandler.swallowClose (by decide!) (by decide!)

variable {E : Type}

/-- C4: once `Register(n, c)` has succeeded, `Register(n2, c)` for a name `n2` with the same
lowercase form throws the `RuntimeException` "A window class with that name already exists." and
changes nothing, the registry still maps the lowercase name to the first wrapper; the same holds
in every later state in which the native class of that name and context still exists. -/
theorem Register_twice_raises (s s1 : Sys E) (n n2 : wstring) (c : HINSTANCE) (p : WindowClassPtr)
    (hfirst : WindowClass.Register n c s = Outcome.ok p s1)
    (hname : lowercase n2 = lowercase n) :
    WindowClass.Register n2 c s1 =
      Outcome.raised { information := "A window class with that name already exists." } s1 ∧
    StdMap.find (lowercase n2) s1.window_class_by_name = some p ∧
    ∀ t : Sys E, t.native.GetClassInfoEx c (lowercase n) = true →
      WindowClass.Register n2 c t =
        Outcome.raised { information := "A window class with that name already exists." } t := by
  have hlater : ∀ t : Sys E, t.native.GetClassInfoEx c (lowercase n) = true →
      WindowClass.Register n2 c t =
        Outcome.raised { information := "A window class with that name already exists." } t := by
    intro t ht
    exact Register_eq_raised t n2 c (by rw [hname]; exact ht)
  cases hpre : s.native.GetClassInfoEx c (lowercase n) with
  | true =>
    rw [Register_eq_raised s n c hpre] at hfirst
    exact Outcome.noConfusion hfirst
  | false =>
    rw [Register_eq_create s n c hpre] at hfirst
    cases hc : WindowClass.create (lowercase n) c s with
    | ok q s2 =>
      simp only [hc] at hfirst
      injection hfirst with hq hs
      obtain ⟨-, -, -, hs2⟩ := create_ok s s2 (lowercase n) c q hc
      have hnat : s1.native.GetClassInfoEx c (lowercase n) = true := by
        rw [← hs, hs2]
        exact constructed_GetClassInfoEx s (lowercase n) c
      refine ⟨hlater s1 hnat, ?_, hlater⟩
      rw [← hs, hname, ← hq]
      exact StdMap.find_assign_self _ _ _
    | raised e s2 =>
      simp only [hc] at hfirst
      exact Outcome.noConfusion hfirst
    | fault =>
      simp only [hc] at hfirst
      exact Outcome.noConfusion hfirst

/-- Witness of C4: `Register(L"Widget",7)` of the sample run, then `Register(L"WIDGET",7)`. -/
theorem Register_twice_raises_witness :
    WindowClass.Register [87, 73, 68, 71, 69, 84] 7 Sample.registered =
      Outcome.raised { information := "A window class with that name already exists." }
        Sample.registered ∧
    StdMap.find (lowercase [87, 73, 68, 71, 69, 84]) Sample.registered.window_class_by_name
      = some 1 :=
  ⟨(Register_twice_raises Sample.start Sample.registered Sample.Widget [87, 73, 68, 71, 69, 84] 7 1
      (by decide!) (by decide!)).1,
    (Register_twice_raises Sample.start Sample.registered Sample.Widget [87, 73, 68, 71, 69, 84] 7 1
      (by decide!) (by decide!)).2.1⟩

/-- C5 at the name `L"Widget"`: after `Register(L"Widget",7)`, `Unregister(L"Widget",7)` returns
and changes nothing, and the third call `Register(L"Widget",7)` throws; with the wrapper pointer,
or with the lowercase name, `Unregister` removes the class and the third call succeeds. -/
theorem Register_Unregister_Register_mixed_case :
    WindowClass.Unregister Sample.env Sample.Widget 7 Sample.registered =
      Outcome.ok () Sample.registered ∧
    WindowClass.Register Sample.Widget 7 Sample.registered =
      Outcome.raised { information := "A window class with that name already exists." }
        Sample.registered ∧
    (WindowClass.Register Sample.Widget 7
      (M.exec (WindowClass.UnregisterPtr Sample.env 1) Sample.registered)).returned = some 2 ∧
    (WindowClass.Register Sample.Widget 7
      (M.exec (WindowClass.Unregister Sample.env (lowercase Sample.Widget) 7)
        Sample.registered)).returned = some 2 := by
  decide!

variable {E : Type}

/-- C6 at the handle of a prototype: after `Register(L"Widget",7)` handle 1 is a live window
wrapped by one `Window` object, the prototype; `FromHandle(1)` finds no instance property and no
tracked entry and has `manage` build wrapper 2, so two `Window` objects hold handle 1.  A second
`FromHandle(1)` returns wrapper 2 again and builds nothing. -/
theorem FromHandle_prototype_second_wrapper :
    Sample.registered.native.IsWindow 1 = true ∧
    Sample.registered.wrappersOn 1 = 1 ∧
    (Window.FromHandle 1 Sample.registered).returned = some 2 ∧
    (M.exec (Window.FromHandle 1) Sample.registered).wrappersOn 1 = 2 ∧
    Window.FromHandle 1 (M.exec (Window.FromHandle 1) Sample.registered) =
      Outcome.ok 2 (M.exec (Window.FromHandle 1) Sample.registered) := by
  decide!

/-- C9: when the native class `(n, c)` does not exist, `Unregister(n, c)` returns without an
exception and leaves the whole state as it was; hence, when an `Unregister(n, c)` has returned
and the native class is gone, a second `Unregister(n, c)` changes nothing. -/
theorem Unregister_idempotent (env : Env E) (n : wstring) (c : HINSTANCE) (s : Sys E) :
    (s.native.GetClassInfoEx c n = false → WindowClass.Unregister env n c s = Outcome.ok () s) ∧
    (∀ s1, WindowClass.Unregister env n c s = Outcome.ok () s1 →
      s1.native.GetClassInfoEx c n = false →
      M.andThen (WindowClass.Unregister env n c) (fun _ => WindowClass.Unregister env n c) s =
        Outcome.ok () s1) := by
  have hnoop : ∀ t : Sys E, t.native.GetClassInfoEx c n = false →
      WindowClass.Unregister env n c t = Outcome.ok () t := by
    intro t ht
    simp [WindowClass.Unregister, M.bind_def, M.pure_def, M.andThen, M.ret, WindowClass.Exists,
      M.call, ht]
  refine ⟨hnoop s, ?_⟩
  intro s1 h1 h2
  simp only [M.andThen, h1]
  exact hnoop s1 h2

/-- Witness of C9: the sample class is unregistered by its lowercase name, twice. -/
theorem Unregister_idempotent_witness :
    M.andThen (WindowClass.Unregister Sample.env (lowercase Sample.Widget) 7)
        (fun _ => WindowClass.Unregister Sample.env (lowercase Sample.Widget) 7) Sample.registered =
      Outcome.ok () (M.exec (WindowClass.Unregister Sample.env (lowercase Sample.Widget) 7)
        Sample.registered) :=
  (Unregister_idempotent Sample.env (lowercase Sample.Widget) 7 Sample.registered).2
    (M.exec (WindowClass.Unregister Sample.env (lowercase Sample.Widget) 7) Sample.registered)
    (by decide!) (by decide!)

theorem land_clear_visible (style : Nat) :
    (style &&& (0xFFFFFFFF ^^^ WS_VISIBLE)) &&& WS_VISIBLE = 0 := by
  rw [Nat.land_assoc]
  have : (0xFFFFFFFF ^^^ WS_VISIBLE : Nat) &&& WS_VISIBLE = 0 := by decide
  rw [this]
  exact Nat.and_zero _

theorem land_set_visible (style : Nat) : (style ||| WS_VISIBLE) &&& WS_VISIBLE = WS_VISIBLE := by
  apply Nat.eq_of_testBit_eq
  intro i
  simp only [Nat.testBit_and, Nat.testBit_or]
  cases Nat.testBit style i <;> simp

/-- C10: `setWindowDefaults(style, ext, x, y, w, h)` on a class whose prototype window exists
returns, and afterwards the style of the prototype has the visible bit clear when `style` has
the child bit clear, and set when `style` has the child bit set, whatever the visible bit of
`style`; the extended style of the prototype is `ext`. -/
theorem setWindowDefaults_visible (s : Sys E) (this : WindowClassPtr) (c : WindowClass E)
    (pw : Window E) (nw : NativeWindow) (style extended_style : DWORD) (x y width height : Int)
    (hc : s.classAt this = some c) (hp : s.windowAt c.prototype = some pw)
    (hn : s.native.window pw.window_handle = some nw) :
    ∃ s1 stored,
      WindowClass.setWindowDefaults this style extended_style x y width height s =
        Outcome.ok () s1 ∧
      Window.getStyle c.prototype s1 = Outcome.ok stored s1 ∧
      (style &&& WS_CHILD = 0 → stored &&& WS_VISIBLE = 0) ∧
      (style &&& WS_CHILD ≠ 0 → stored &&& WS_VISIBLE = WS_VISIBLE) ∧
      Window.getExtendedStyle c.prototype s1 = Outcome.ok extended_style s1 := by
  obtain ⟨n1, w1, h1, h2, h3, h4⟩ :=
    setWindowDefaults_spec s this c pw nw style extended_style x y width height hc hp hn
  refine ⟨{ s with native := n1 }, w1.style, h1, ?_, ?_, ?_, ?_⟩
  · simp [Window.getStyle, Window.getNativeHandle, M.bind_def, M.pure_def, M.andThen, M.ret,
      M.window, windowAt_native, hp, M.call, Native.GetWindowLongPtr, h2]
  · intro hchild
    rw [h3, if_pos hchild]
    exact land_clear_visible style
  · intro hchild
    rw [h3, if_neg hchild]
    exact land_set_visible style
  · have hidx : (GWL_EXSTYLE = GWL_STYLE) = False := by decide
    simp [Window.getExtendedStyle, Window.getNativeHandle, M.bind_def, M.pure_def, M.andThen,
      M.ret, M.window, windowAt_native, hp, M.call, Native.GetWindowLongPtr, h2, h4, hidx]

/-- Witness of C10: the sample class gets the defaults of a visible top-level style
(`WS_VISIBLE | WS_CAPTION`) and of a hidden child style (`WS_CHILD`). -/
theorem setWindowDefaults_visible_witness :
    (∃ s1 stored,
      WindowClass.setWindowDefaults 1 0x10C00000 0x40000 10 20 300 200 Sample.registered =
        Outcome.ok () s1 ∧
      Window.getStyle 1 s1 = Outcome.ok stored s1 ∧
      ((0x10C00000 : Nat) &&& WS_CHILD = 0 → stored &&& WS_VISIBLE = 0) ∧
      ((0x10C00000 : Nat) &&& WS_CHILD ≠ 0 → stored &&& WS_VISIBLE = WS_VISIBLE) ∧
      Window.getExtendedStyle 1 s1 = Outcome.ok 0x40000 s1) ∧
    (∃ s1 stored,
      WindowClass.setWindowDefaults 1 0x40000000 0 0 0 0 0 Sample.registered =
        Outcome.ok () s1 ∧
      Window.getStyle 1 s1 = Outcome.ok stored s1 ∧
      ((0x40000000 : Nat) &&& WS_CHILD = 0 → stored &&& WS_VISIBLE = 0) ∧
      ((0x40000000 : Nat) &&& WS_CHILD ≠ 0 → stored &&& WS_VISIBLE = WS_VISIBLE) ∧
      Window.getExtendedStyle 1 s1 = Outcome.ok 0 s1) :=
  ⟨setWindowDefaults_visible Sample.registered 1
      { class_name := [119, 105, 100, 103, 101, 116], context := 7, instantiated_windows := [],
        message_handlers := [(16, MessageHandler.swallowClose),
          (20, MessageHandler.eraseBackground)],
        prototype := 1, default_window_procedure := 1 }
      { background := 0, message_handlers := [], module := 7, window_class := 1,
        window_handle := 1 }
      { cls := 0, hInstance := 7, wndProc := 1, parent := HWND_MESSAGE, style := 0, exStyle := 0,
        x := 0, y := 0, width := -1, height := -1,
        text := [119, 105, 100, 103, 101, 116] ++ PROTOTYPE_SUFFIX, props := [] }
      0x10C00000 0x40000 10 20 300 200 (by decide!) (by decide!) (by decide!),
    setWindowDefaults_visible Sample.registered 1
      { class_name := [119, 105, 100, 103, 101, 116], context := 7, instantiated_windows := [],
        message_handlers := [(16, MessageHandler.swallowClose),
          (20, MessageHandler.eraseBackground)],
        prototype := 1, default_window_procedure := 1 }
      { background := 0, message_handlers := [], module := 7, window_class := 1,
        window_handle := 1 }
      { cls := 0, hInstance := 7, wndProc := 1, parent := HWND_MESSAGE, style := 0, exStyle := 0,
        x := 0, y := 0, width := -1, height := -1,
        text := [119, 105, 100, 103, 101, 116] ++ PROTOTYPE_SUFFIX, props := [] }
      0x40000000 0 0 0 0 0 (by decide!) (by decide!) (by decide!)⟩

variable {E : Type}

/-- C7 as stated fails on the sample run: after `Register`, two `instantiate()` and `destroy()` of
wrapper 2 (its `WM_NCDESTROY` goes through `Window::HandleMessage`, which nulls the handle),
`getWindows()` still returns both wrappers, not one. -/
theorem getWindows_after_destroy_keeps_both :
    WindowClass.getWindows 1 Sample.twoWindows = Outcome.ok [2, 3] Sample.twoWindows ∧
    (Window.destroy Sample.env 2 Sample.twoWindows).returned = some () ∧
    (M.exec (Window.destroy Sample.env 2) Sample.twoWindows).windowAt 2 =
      some { background := 0, message_handlers := [], module := 7, window_class := 1,
             window_handle := 0 } ∧
    (WindowClass.getWindows 1 (M.exec (Window.destroy Sample.env 2) Sample.twoWindows)).returned =
      some [2, 3] ∧
    ¬ (WindowClass.getWindows 1 (M.exec (Window.destroy Sample.env 2) Sample.twoWindows)).returned =
      some [3] := by
  decide!

/-- C7, amended: for a class fresh from `Register`, two successful `instantiate` calls leave
`getWindows()` with exactly their two distinct wrappers; after `destroy()` of either one,
`getWindows()` still returns both wrappers (the tracked set is not changed), `isAlive()` of the
destroyed wrapper is false and `isAlive()` of the other is true.  The native window procedures
are taken to leave the state alone. -/
theorem instantiate_twice_destroy_one (env : Env E) (s s1 s2 s3 : Sys E)
    (name name1 name2 : wstring) (context : HINSTANCE) (window_class : WindowClassPtr)
    (w1 w2 : WindowPtr)
    (henv : ∀ procedure k message wp lp (u : Sys E),
      (env.windowProc procedure k message wp lp u).2 = u)
    (hregister : WindowClass.Register name context s = Outcome.ok window_class s1)
    (hfirst : WindowClass.instantiate window_class name1 s1 = Outcome.ok w1 s2)
    (hsecond : WindowClass.instantiate window_class name2 s2 = Outcome.ok w2 s3) :
    WindowClass.getWindows window_class s3 = Outcome.ok [w1, w2] s3 ∧ w1 ≠ w2 ∧
    (∃ s4, Window.destroy env w1 s3 = Outcome.ok () s4 ∧
      WindowClass.getWindows window_class s4 = Outcome.ok [w1, w2] s4 ∧
      Window.isAlive w1 s4 = Outcome.ok false s4 ∧ Window.isAlive w2 s4 = Outcome.ok true s4) ∧
    (∃ s4, Window.destroy env w2 s3 = Outcome.ok () s4 ∧
      WindowClass.getWindows window_class s4 = Outcome.ok [w1, w2] s4 ∧
      Window.isAlive w2 s4 = Outcome.ok false s4 ∧ Window.isAlive w1 s4 = Outcome.ok true s4) := by
  obtain ⟨c, pw, hc, hp, hreg, hmap, hmh, -, -⟩ :=
    Register_ok s s1 name context window_class hregister
  have hnew1 : StdMap.find (s1.native.windows.length + 1) c.instantiated_windows = none := by
    rw [hmap]; rfl
  obtain ⟨hw1, hc2, hreg2, hlen2, hwlen2, ⟨o1, ho1, ho1h, ho1c, ho1m⟩, ⟨na, hna, hpa⟩, hframe2,
    hnative2⟩ := instantiate_fresh s1 s2 window_class c pw name1 w1 hc hp hreg hnew1 hfirst
  have hp2 : s2.windowAt c.prototype = some pw := hframe2 _ _ hp
  have hnew2 : StdMap.find (s2.native.windows.length + 1)
      (StdMap.assign (s1.native.windows.length + 1) w1 c.instantiated_windows) = none := by
    rw [hmap, hlen2]
    simp [StdMap.assign, StdMap.find]
  obtain ⟨hw2, hc3, -, -, -, ⟨o2, ho2, ho2h, ho2c, ho2m⟩, ⟨nb, hnb, hpb⟩, hframe3, hnative3⟩ :=
    instantiate_fresh s2 s3 window_class _ pw name2 w2 hc2 hp2 (by rw [hreg2]; exact hreg) hnew2
      hsecond
  have ho1' : s3.windowAt w1 = some o1 := hframe3 _ _ ho1
  have hna' : s3.native.window o1.window_handle = some na := by
    rw [ho1h]; exact hnative3 _ _ hna
  have hnb' : s3.native.window o2.window_handle = some nb := by
    rw [ho2h]; exact hnb
  have hne : w1 ≠ w2 := by
    rw [hw1, hw2, hwlen2]
    exact Nat.ne_of_lt (Nat.lt_succ_self _)
  have hhne : o1.window_handle ≠ o2.window_handle := by
    rw [ho1h, ho2h, hlen2]
    exact Nat.ne_of_lt (Nat.lt_succ_self _)
  have hlist : List.map Prod.snd (StdMap.assign (s2.native.windows.length + 1) w2
      (StdMap.assign (s1.native.windows.length + 1) w1 c.instantiated_windows)) = [w1, w2] := by
    rw [hmap, hlen2]
    simp [StdMap.assign]
  have hmc1 : StdMap.find WM_DESTROY c.message_handlers = none := by rw [hmh]; rfl
  have hmc2 : StdMap.find WM_NCDESTROY c.message_handlers = none := by rw [hmh]; rfl
  have hmo1 : ∀ m, StdMap.find m o1.message_handlers = none := by intro m; rw [ho1m]; rfl
  have hmo2 : ∀ m, StdMap.find m o2.message_handlers = none := by intro m; rw [ho2m]; rfl
  have h10 : o1.window_handle ≠ 0 := by rw [ho1h]; exact Nat.succ_ne_zero _
  have h20 : o2.window_handle ≠ 0 := by rw [ho2h]; exact Nat.succ_ne_zero _
  refine ⟨?_, hne, ?_, ?_⟩
  · rw [getWindows_eq s3 window_class _ hc3, hlist]
  · obtain ⟨s4, hd, hg, ha, hb⟩ := destroy_one_of_two env s3 window_class _ w1 w2 o1 o2 na nb henv
      hc3 hmc1 hmc2 ho1' ho1c (hmo1 _) (hmo1 _) hna' hpa ho2 h20 hnb' hne hhne
    rw [hlist] at hg
    exact ⟨s4, hd, hg, ha, hb⟩
  · obtain ⟨s4, hd, hg, ha, hb⟩ := destroy_one_of_two env s3 window_class _ w2 w1 o2 o1 nb na henv
      hc3 hmc1 hmc2 ho2 ho2c (hmo2 _) (hmo2 _) hnb' hpb ho1' h10 hna' (Ne.symm hne) (Ne.symm hhne)
    rw [hlist] at hg
    exact ⟨s4, hd, hg, ha, hb⟩

/-- Witness of C7: the sample run. -/
theorem instantiate_twice_destroy_one_witness :
    WindowClass.getWindows 1 Sample.twoWindows = Outcome.ok [2, 3] Sample.twoWindows ∧
    (2 : WindowPtr) ≠ 3 ∧
    (∃ s4, Window.destroy Sample.env 2 Sample.twoWindows = Outcome.ok () s4 ∧
      WindowClass.getWindows 1 s4 = Outcome.ok [2, 3] s4 ∧
      Window.isAlive 2 s4 = Outcome.ok false s4 ∧ Window.isAlive 3 s4 = Outcome.ok true s4) ∧
    (∃ s4, Window.destroy Sample.env 3 Sample.twoWindows = Outcome.ok () s4 ∧
      WindowClass.getWindows 1 s4 = Outcome.ok [2, 3] s4 ∧
      Window.isAlive 3 s4 = Outcome.ok false s4 ∧ Window.isAlive 2 s4 = Outcome.ok true s4) :=
  instantiate_twice_destroy_one Sample.env Sample.start Sample.registered Sample.oneWindow
    Sample.twoWindows Sample.Widget UNTITLED_WINDOW UNTITLED_WINDOW 7 1 2 3
    (fun _ _ _ _ _ _ => rfl) (by decide!) (by decide!) (by decide!)

variable {E : Type}

variable {E : Type}

/-- C11: when `isTopLevel()` returns true for the window `w`, the test itself leaves the state as
it was, and `setParent(nullptr, alter_visibility)` returns without changing anything, for both
values of `alter_visibility`: the whole state, hence the style bits, the visibility and the native
parent of `w`, is the one before the call. -/
theorem setParent_null_of_top_level (w : WindowPtr) (alter_visibility : Bool) (s s1 : Sys E)
    (htop : Window.isTopLevel w s = Outcome.ok true s1) :
    s1 = s ∧ Window.setParent w 0 alter_visibility s = Outcome.ok () s ∧
      Window.getStyle w (M.exec (Window.setParent w 0 alter_visibility) s) = Window.getStyle w s ∧
      (M.exec (Window.setParent w 0 alter_visibility) s).native.GetAncestor =
        s.native.GetAncestor := by
  have hs := isTopLevel_true w s s1 htop
  subst hs
  have hset : Window.setParent w 0 alter_visibility s1 = Outcome.ok () s1 := by
    simp [Window.setParent, M.bind_def, M.pure_def, M.andThen, M.ret, htop]
  refine ⟨rfl, hset, ?_, ?_⟩
  · simp only [M.exec, hset]
  · simp only [M.exec, hset]

/-- Witness of C11: the first window of the sample class; its native parent is the prototype of
its class, which `getParent` reports as no parent. -/
theorem setParent_null_of_top_level_witness :
    Sample.twoWindows = Sample.twoWindows ∧
      Window.setParent 2 0 true Sample.twoWindows = Outcome.ok () Sample.twoWindows ∧
      Window.getStyle 2 (M.exec (Window.setParent 2 0 true) Sample.twoWindows) =
        Window.getStyle 2 Sample.twoWindows ∧
      (M.exec (Window.setParent 2 0 true) Sample.twoWindows).native.GetAncestor =
        Sample.twoWindows.native.GetAncestor :=
  setParent_null_of_top_level 2 true Sample.twoWindows Sample.twoWindows (by decide!)

variable {E : Type}

/-- C12: once `Register(n, c)` has returned the wrapper `p`, `GetByName(n2, c, create)` for a name
`n2` with the same lowercase form returns `p`, for both values of `create`, and leaves the whole
state as it is: no wrapper and no native class is created.  The same holds in every later state
in which the native class still exists and the registry still holds `p` under the lowercase
name. -/
theorem GetByName_ignores_case (s s1 : Sys E) (n n2 : wstring) (c : HINSTANCE)
    (p : WindowClassPtr) (create : Bool)
    (hfirst : WindowClass.Register n c s = Outcome.ok p s1)
    (hname : lowercase n2 = lowercase n) :
    WindowClass.GetByName n2 c create s1 = Outcome.ok p s1 ∧
    ∀ t : Sys E, t.native.GetClassInfoEx c (lowercase n) = true →
      StdMap.find (lowercase n) t.window_class_by_name = some p →
      WindowClass.GetByName n2 c create t = Outcome.ok p t := by
  have hlater : ∀ t : Sys E, t.native.GetClassInfoEx c (lowercase n) = true →
      StdMap.find (lowercase n) t.window_class_by_name = some p →
      WindowClass.GetByName n2 c create t = Outcome.ok p t := by
    intro t hex hreg
    exact GetByName_registered t n2 c create p (by rw [hname]; exact hex)
      (by rw [hname]; exact hreg)
  obtain ⟨hex, hreg⟩ := Register_registered s s1 n c p hfirst
  exact ⟨hlater s1 hex hreg, hlater⟩

/-- Witness of C12: `Register(L"Widget",7)` of the sample run, then `GetByName(L"WIDGET",7)` and
`GetByName(L"wIdGeT",7,true)`. -/
theorem GetByName_ignores_case_witness :
    WindowClass.GetByName [87, 73, 68, 71, 69, 84] 7 false Sample.registered =
      Outcome.ok 1 Sample.registered ∧
    WindowClass.GetByName [119, 73, 100, 71, 101, 84] 7 true Sample.registered =
      Outcome.ok 1 Sample.registered :=
  ⟨(GetByName_ignores_case Sample.start Sample.registered Sample.Widget [87, 73, 68, 71, 69, 84] 7
      1 false (by decide!) (by decide!)).1,
    (GetByName_ignores_case Sample.start Sample.registered Sample.Widget
      [119, 73, 100, 71, 101, 84] 7 1 true (by decide!) (by decide!)).1⟩

variable {E : Type}

/-- C13 fails on the sample run.  After `Register(L"Widget",7)` and `Register(L"Widget",8)` both
native classes exist and there is one wrapper for each context, but the registry is keyed by the
name alone and the second `Register` overwrote the entry: `GetByName(L"Widget",7)` returns
wrapper 2, whose `getContext()` is 8, the same wrapper `GetByName(L"Widget",8)` returns.  After
`Unregister` of wrapper 2, `GetByName(L"Widget",7)` builds wrapper 3 for the pair
(`widget`, 7) although wrapper 1 of that pair still exists with its prototype window.  The
conjuncts up to the second `GetByName` are what the claim is measured against; those after the
`Unregister` describe the run without the messages that `CreateWindowEx` sends to a window while
it is created, which the native model does not trace. -/
theorem GetByName_returns_other_context :
    (WindowClass.Register Sample.Widget 8 Sample.registered).returned = some 2 ∧
    Sample.twoContexts.native.GetClassInfoEx 7 (lowercase Sample.Widget) = true ∧
    Sample.twoContexts.native.GetClassInfoEx 8 (lowercase Sample.Widget) = true ∧
    WindowClass.getContext 1 Sample.twoContexts = Outcome.ok 7 Sample.twoContexts ∧
    WindowClass.getContext 2 Sample.twoContexts = Outcome.ok 8 Sample.twoContexts ∧
    WindowClass.GetByName Sample.Widget 7 false Sample.twoContexts =
      Outcome.ok 2 Sample.twoContexts ∧
    WindowClass.GetByName Sample.Widget 8 false Sample.twoContexts =
      Outcome.ok 2 Sample.twoContexts ∧
    (WindowClass.UnregisterPtr Sample.env 2 Sample.twoContexts).returned = some 0 ∧
    (WindowClass.GetByName Sample.Widget 7 false Sample.oneContext).returned = some 3 ∧
    WindowClass.getContext 3 Sample.adopted = Outcome.ok 7 Sample.adopted ∧
    WindowClass.getContext 1 Sample.adopted = Outcome.ok 7 Sample.adopted ∧
    WindowClass.getClassName 3 Sample.adopted = WindowClass.getClassName 1 Sample.adopted ∧
    (Sample.adopted.windowAt 1).map (fun w => w.window_handle) = some 1 ∧
    Sample.adopted.native.IsWindow 1 = true := by
  decide!

/-- C14 as stated fails on the sample run: wrapper 2 is Detached (its handle was nulled by the
router), and `getStyle()` returns 0, `getName()` returns the empty text and `setStyle(5)` returns;
none of them throws. -/
theorem accessors_on_detached_return :
    (Sample.oneDestroyed.windowAt 2).map (fun w => w.window_handle) = some 0 ∧
    Window.getStyle 2 Sample.oneDestroyed = Outcome.ok 0 Sample.oneDestroyed ∧
    Window.getName 2 Sample.oneDestroyed = Outcome.ok [] Sample.oneDestroyed ∧
    Window.setStyle 2 5 Sample.oneDestroyed = Outcome.ok () Sample.oneDestroyed ∧
    (∀ e, ¬ Window.getStyle 2 Sample.oneDestroyed = Outcome.raised e Sample.oneDestroyed) := by
  refine ⟨by decide!, by decide!, by decide!, by decide!, ?_⟩
  intro e h
  have h0 : Window.getStyle 2 Sample.oneDestroyed = Outcome.ok 0 Sample.oneDestroyed := by
    decide!
  rw [h0] at h
  exact Outcome.noConfusion h

/-- C14, amended: on a wrapper whose handle is null every query and mutate accessor passes the
null handle to the native call and returns; nothing is thrown.  `getName` returns the empty
text, `getStyle` and `getExtendedStyle` return 0, and `getRectangle` returns its local `RECT` as
the failed native call leaves it, uninitialised, so nothing is known about its contents; the
mutators leave the whole state as it is. -/
theorem accessors_on_detached (s : Sys E) (w : WindowPtr) (wobj : Window E)
    (hw : s.windowAt w = some wobj) (hnull : wobj.window_handle = 0) :
    Window.getName w s = Outcome.ok [] s ∧
    (∀ client_area, Window.getRectangle w client_area s =
      Outcome.ok s.native.uninitialised s) ∧
    Window.getStyle w s = Outcome.ok 0 s ∧
    Window.getExtendedStyle w s = Outcome.ok 0 s ∧
    (∀ name, Window.setName w name s = Outcome.ok () s) ∧
    (∀ style, Window.setStyle w style s = Outcome.ok () s) ∧
    (∀ style, Window.setExtendedStyle w style s = Outcome.ok () s) ∧
    (∀ x y relative, Window.setPosition w x y relative s = Outcome.ok () s) ∧
    (∀ width height, Window.setDimensions w width height s = Outcome.ok () s) := by
  have hh : Window.getNativeHandle w s = Outcome.ok 0 s := by
    simp [Window.getNativeHandle, M.window, M.bind_def, M.pure_def, M.andThen, M.ret, hw, hnull]
  have hz : s.native.window 0 = none := window_zero _
  refine ⟨?_, ?_, ?_, ?_, ?_, ?_, ?_, ?_, ?_⟩
  · simp [Window.getName, M.bind_def, M.andThen, hh, M.call, Native.GetWindowText, hz]
  · intro client_area
    cases client_area <;>
      simp [Window.getRectangle, M.bind_def, M.andThen, hh, M.call, Native.GetWindowRect,
        Native.GetClientRect, hz]
  · simp [Window.getStyle, M.bind_def, M.andThen, hh, M.call, Native.GetWindowLongPtr, hz]
  · simp [Window.getExtendedStyle, M.bind_def, M.andThen, hh, M.call, Native.GetWindowLongPtr, hz]
  · intro name
    simp [Window.setName, M.bind_def, M.andThen, hh, M.effect, Native.SetWindowText, hz]
  · intro style
    simp [Window.setStyle, M.bind_def, M.andThen, hh, M.effect, Native.SetWindowLongPtr, hz]
  · intro style
    simp [Window.setExtendedStyle, M.bind_def, M.andThen, hh, M.effect, Native.SetWindowLongPtr,
      hz]
  · intro x y relative
    cases relative <;>
      simp [Window.setPosition, Window.getWidth, Window.getHeight, Window.getRectangle,
        M.bind_def, M.pure_def, M.andThen, M.ret, hh, M.effect, M.call, Native.MoveWindow,
        Native.SetWindowPos, Native.GetWindowRect, hz]
  · intro width height
    simp [Window.setDimensions, M.bind_def, M.andThen, hh, M.effect, Native.SetWindowPos, hz]

/-- Witness of C14, amended: the Detached wrapper 2 of the sample run, in which an uninitialised
`RECT` holds 11, 22, 33, 44. -/
theorem accessors_on_detached_witness :
    Window.getName 2 Sample.oneDestroyed = Outcome.ok [] Sample.oneDestroyed ∧
    (∀ client_area, Window.getRectangle 2 client_area Sample.oneDestroyed =
      Outcome.ok Sample.oneDestroyed.native.uninitialised Sample.oneDestroyed) ∧
    Window.getStyle 2 Sample.oneDestroyed = Outcome.ok 0 Sample.oneDestroyed ∧
    Window.getExtendedStyle 2 Sample.oneDestroyed = Outcome.ok 0 Sample.oneDestroyed ∧
    (∀ name, Window.setName 2 name Sample.oneDestroyed = Outcome.ok () Sample.oneDestroyed) ∧
    (∀ style, Window.setStyle 2 style Sample.oneDestroyed = Outcome.ok () Sample.oneDestroyed) ∧
    (∀ style, Window.setExtendedStyle 2 style Sample.oneDestroyed =
      Outcome.ok () Sample.oneDestroyed) ∧
    (∀ x y relative, Window.setPosition 2 x y relative Sample.oneDestroyed =
      Outcome.ok () Sample.oneDestroyed) ∧
    (∀ width height, Window.setDimensions 2 width height Sample.oneDestroyed =
      Outcome.ok () Sample.oneDestroyed) :=
  accessors_on_detached Sample.oneDestroyed 2
    { background := 0, message_handlers := [], module := 7, window_class := 1, window_handle := 0 }
    (by decide!) rfl

variable {E : Type}

/-- C15: let `w` be the wrapper that the instance property of window `h` names.  The router
resolves the handler for `m` as `getMessageHandler` does and calls it on the state it was entered
in, before it changes anything.  When that call returns `result` in state `s1`: for a message
other than `WM_NCDESTROY` the router returns `result` in `s1`, adding no change of its own; for
`WM_NCDESTROY` it returns `result` after removing the instance property from the window of `w`
and setting the handle of `w` to null: `w` is still a `Window` object, every other `Window`
object, every `WindowClass` object (hence every tracked set) and the registry are as in `s1`. -/
theorem HandleMessage_terminal_destroy (env : Env E) (s s1 : Sys E) (h : HWND) (m : UINT)
    (w_param : WPARAM) (l_param : LPARAM) (w : WindowPtr) (wobj : Window E) (c : WindowClass E)
    (result : LRESULT)
    (hprop : s.native.GetProp h WINDOW_INSTANCE_PROPERTY = w)
    (hw : s.windowAt w = some wobj) (hc : s.classAt wobj.window_class = some c)
    (hinvoke : (resolved wobj c m).invoke env w w_param l_param s = Outcome.ok result s1) :
    Window.getMessageHandler w m s = Outcome.ok (resolved wobj c m) s ∧
    (m ≠ WM_NCDESTROY →
      Window.HandleMessage env h m w_param l_param s = Outcome.ok result s1) ∧
    (m = WM_NCDESTROY → ∀ w1, s1.windowAt w = some w1 →
      ∃ s2, Window.HandleMessage env h m w_param l_param s = Outcome.ok result s2 ∧
        s2.native = s1.native.RemoveProp w1.window_handle WINDOW_INSTANCE_PROPERTY ∧
        s2.native.GetProp w1.window_handle WINDOW_INSTANCE_PROPERTY = 0 ∧
        s2.windowAt w = some { w1 with window_handle := 0 } ∧
        (∀ p : Nat, p ≠ 0 → p ≠ w → s2.windowAt p = s1.windowAt p) ∧
        s2.classObjs = s1.classObjs ∧
        s2.window_class_by_name = s1.window_class_by_name) := by
  have heq := HandleMessage_managed env s h m w_param l_param w wobj c hprop hw hc
  refine ⟨getMessageHandler_eq s w m wobj c hw hc, ?_, ?_⟩
  · intro hm
    rw [heq]
    simp [M.andThen, hinvoke, hm, M.ret]
  · intro hm w1 hw1
    subst hm
    obtain ⟨hw0, hwlt, -⟩ := windowAt_lt s1 w w1 hw1
    refine ⟨{ s1 with
        native := s1.native.RemoveProp w1.window_handle WINDOW_INSTANCE_PROPERTY
        windowObjs := s1.windowObjs.set (w - 1) (some { w1 with window_handle := 0 }) },
      ?_, rfl, GetProp_RemoveProp _ _ _, ?_, ?_, rfl, rfl⟩
    · rw [heq]
      have hw2 : ({ s1 with
          native := s1.native.RemoveProp w1.window_handle WINDOW_INSTANCE_PROPERTY } :
          Sys E).windowAt w = some w1 := hw1
      simp [M.andThen, hinvoke, M.ret, Window.removeProperty, Window.getNativeHandle,
        M.window, M.bind_def, M.pure_def, hw1, M.effect, M.updateWindow, hw2, Sys.putWindow]
    · simp [Sys.windowAt, hw0, List.getElem?_set_self hwlt]
    · intro p hp0 hp
      have : w - 1 ≠ p - 1 := pred_ne_pred _ _ hw0 hp0 (fun h => hp h.symm)
      simp [Sys.windowAt, hp0, List.getElem?_set_ne this]

/-- Witness of C15: `WM_NCDESTROY` for the first window of the sample class, whose handler is the
native default of the class. -/
theorem HandleMessage_terminal_destroy_witness :
    ∃ s2, Window.HandleMessage Sample.env 2 WM_NCDESTROY 0 0 Sample.twoWindows =
        Outcome.ok 0 s2 ∧
      s2.native = Sample.twoWindows.native.RemoveProp 2 WINDOW_INSTANCE_PROPERTY ∧
      s2.native.GetProp 2 WINDOW_INSTANCE_PROPERTY = 0 ∧
      s2.windowAt 2 = some
        { background := 0, message_handlers := [], module := 7, window_class := 1,
          window_handle := 0 } ∧
      (∀ p : Nat, p ≠ 0 → p ≠ 2 → s2.windowAt p = Sample.twoWindows.windowAt p) ∧
      s2.classObjs = Sample.twoWindows.classObjs ∧
      s2.window_class_by_name = Sample.twoWindows.window_class_by_name :=
  (HandleMessage_terminal_destroy Sample.env Sample.twoWindows Sample.twoWindows 2 WM_NCDESTROY
    0 0 2
    { background := 0, message_handlers := [], module := 7, window_class := 1, window_handle := 2 }
    { class_name := [119, 105, 100, 103, 101, 116], context := 7,
      instantiated_windows := [(2, 2), (3, 3)],
      message_handlers := [(16, MessageHandler.swallowClose),
        (20, MessageHandler.eraseBackground)],
      prototype := 1, default_window_procedure := 1 }
    0 (by decide!) (by decide!) (by decide!) (by decide!)).2.2 rfl
    { background := 0, message_handlers := [], module := 7, window_class := 1, window_handle := 2 }
    (by decide!)

variable {E : Type}

/-- C16 fails for a class whose context is not the module of the process.  In a process of
module 7, `Register(L"Widget",8)` succeeds: the wrapper has context 8 and the native class
(`widget`, 8) exists.  `instantiate` passes `GetModuleHandle(nullptr)`, here 7, as creation
context, so the native creation finds no class and `instantiate` throws, although the same
creation with context 8 returns handle 2.  The position passed is not the position of the
prototype either: with defaults at (10, 20) and size 300 by 200 the new window is created at
(0, 0), because `getXCoordinate()` and `getYCoordinate()` are relative to the prototype itself;
style, extended style and size are those of the prototype, and the parent is the prototype. -/
theorem instantiate_uses_process_module :
    (WindowClass.Register Sample.Widget 8 Sample.start).returned = some 1 ∧
    WindowClass.getContext 1 Sample.otherModule = Outcome.ok 8 Sample.otherModule ∧
    Sample.otherModule.native.module = 7 ∧
    Sample.otherModule.native.GetClassInfoEx 8 (lowercase Sample.Widget) = true ∧
    WindowClass.instantiate 1 UNTITLED_WINDOW Sample.otherModule =
      Outcome.raised { information :=
        "A runtime exception has occured.  Use the \"cause\" method to obtain additional information." }
        { Sample.otherModule with native := Sample.otherModule.native.DisplayErrorMessage } ∧
    (Sample.otherModule.native.CreateWindowEx 0 (lowercase Sample.Widget) UNTITLED_WINDOW 0 0 0
      (-1) (-1) 1 8).1 = 2 ∧
    (Sample.positioned.native.window 1).map (fun w => (w.x, w.y, w.width, w.height)) =
      some (10, 20, 300, 200) ∧
    (WindowClass.instantiate 1 UNTITLED_WINDOW Sample.positioned).returned = some 2 ∧
    ((M.exec (WindowClass.instantiate 1 UNTITLED_WINDOW) Sample.positioned).native.window 2).map
      (fun w => (w.x, w.y, w.width, w.height)) = some (0, 0, 300, 200) ∧
    ((M.exec (WindowClass.instantiate 1 UNTITLED_WINDOW) Sample.positioned).native.window 2).map
      (fun w => (w.style, w.exStyle, w.parent, w.hInstance)) = some (0x00C00000, 0, 1, 7) := by
  decide!

variable {E : Type}

/-- C17: when the class table of `this` has no entry for `m`, `extendDefaultMessageHandler(m, h)`
returns and afterwards the class-default handler for `m` is the extension of the synthesized
native default: called on any window with any parameters it calls the procedure the class has
cached in `default_window_procedure` with the handle of the window, `m` and the parameters, then
calls `h` on the window and the parameters, and returns what the native procedure returned. -/
theorem extendDefault_synthesizes_native (env : Env E) (s : Sys E) (this : WindowClassPtr)
    (c : WindowClass E) (m : UINT) (h : E)
    (hc : s.classAt this = some c) (hnone : StdMap.find m c.message_handlers = none) :
    ∃ s1, WindowClass.extendDefaultMessageHandler this m h s = Outcome.ok () s1 ∧
      WindowClass.getDefaultMessageHandler this m s1 =
        Outcome.ok (MessageHandler.extended h (MessageHandler.nativeDefault this m)) s1 ∧
      ∀ (t : Sys E) (ct : WindowClass E) (window : WindowPtr) (wobj : Window E)
        (w_param : WPARAM) (l_param : LPARAM),
        t.classAt this = some ct → t.windowAt window = some wobj →
        (MessageHandler.extended h (MessageHandler.nativeDefault this m)).invoke env window
            w_param l_param t =
          Outcome.ok
            (env.windowProc ct.default_window_procedure wobj.window_handle m w_param l_param t).1
            (env.extending h window w_param l_param
              (env.windowProc ct.default_window_procedure wobj.window_handle m w_param
                l_param t).2) := by
  have hprev : WindowClass.getDefaultMessageHandler this m s =
      Outcome.ok (MessageHandler.nativeDefault this m) s := by
    rw [getDefaultMessageHandler_eq s this m c hc, hnone]
    rfl
  obtain ⟨s1, hext, hget⟩ := extendDefaultMessageHandler_step s this m h _ hprev
  refine ⟨s1, hext, hget, ?_⟩
  intro t ct window wobj w_param l_param hct hwt
  simp [MessageHandler.invoke, M.bind_def, M.pure_def, M.andThen, M.ret, M.windowClass, hct,
    Window.getNativeHandle, M.window, hwt, CallWindowProc, M.modify]

/-- Witness of C17: the sample class has no default handler for `WM_DESTROY`; it is extended with
the handler that posts exit code 5. -/
theorem extendDefault_synthesizes_native_witness :
    ∃ s1, WindowClass.extendDefaultMessageHandler 1 WM_DESTROY 5 Sample.twoWindows =
        Outcome.ok () s1 ∧
      WindowClass.getDefaultMessageHandler 1 WM_DESTROY s1 =
        Outcome.ok (MessageHandler.extended 5 (MessageHandler.nativeDefault 1 WM_DESTROY)) s1 ∧
      ∀ (t : Sys Nat) (ct : WindowClass Nat) (window : WindowPtr) (wobj : Window Nat)
        (w_param : WPARAM) (l_param : LPARAM),
        t.classAt 1 = some ct → t.windowAt window = some wobj →
        (MessageHandler.extended 5 (MessageHandler.nativeDefault 1 WM_DESTROY)).invoke Sample.env
            window w_param l_param t =
          Outcome.ok
            (Sample.env.windowProc ct.default_window_procedure wobj.window_handle WM_DESTROY
              w_param l_param t).1
            (Sample.env.extending 5 window w_param l_param
              (Sample.env.windowProc ct.default_window_procedure wobj.window_handle WM_DESTROY
                w_param l_param t).2) :=
  extendDefault_synthesizes_native Sample.env Sample.twoWindows 1
    { class_name := [119, 105, 100, 103, 101, 116], context := 7,
      instantiated_windows := [(2, 2), (3, 3)],
      message_handlers := [(16, MessageHandler.swallowClose),
        (20, MessageHandler.eraseBackground)],
      prototype := 1, default_window_procedure := 1 }
    WM_DESTROY 5 (by decide!) (by decide!)

variable {E : Type}

/-- C18: a wrapper `p` built by `Register`, or by `GetByName` when the registry had no wrapper
under the name (adoption of an existing native class, or registration with `create`), has right
after construction a class handler table with exactly two entries: `WM_CLOSE` with the handler
that returns 0 and touches nothing, and `WM_ERASEBKGND` with the handler that returns 1 (and
leaves the state alone) on a window whose class and prototype exist.  Hence, as long as the class
entry for `WM_CLOSE` is that handler, the router answers `WM_CLOSE` for a managed window of the
class without an instance handler with 0 and without any change: the window is still there. -/
theorem default_handlers_after_construction (env : Env E) (s s1 : Sys E) (n : wstring)
    (context : HINSTANCE) (create : Bool) (p : WindowClassPtr)
    (hbuilt : WindowClass.Register n context s = Outcome.ok p s1 ∨
      (StdMap.find (lowercase n) s.window_class_by_name = none ∧ p ≠ 0 ∧
        WindowClass.GetByName n context create s = Outcome.ok p s1)) :
    ∃ c, s1.classAt p = some c ∧
      c.message_handlers = [(WM_CLOSE, MessageHandler.swallowClose),
        (WM_ERASEBKGND, MessageHandler.eraseBackground)] ∧
      (∀ m, (StdMap.find m c.message_handlers).isSome = true ↔
        m = WM_CLOSE ∨ m = WM_ERASEBKGND) ∧
      WindowClass.getDefaultMessageHandler p WM_CLOSE s1 =
        Outcome.ok MessageHandler.swallowClose s1 ∧
      WindowClass.getDefaultMessageHandler p WM_ERASEBKGND s1 =
        Outcome.ok MessageHandler.eraseBackground s1 ∧
      (∀ (t : Sys E) (window : WindowPtr) (w_param : WPARAM) (l_param : LPARAM),
        MessageHandler.swallowClose.invoke env window w_param l_param t = Outcome.ok 0 t) ∧
      (∀ (t : Sys E) (window : WindowPtr) (wobj : Window E) (ct : WindowClass E) (pw : Window E)
        (w_param : WPARAM) (l_param : LPARAM),
        t.windowAt window = some wobj → t.classAt wobj.window_class = some ct →
        t.windowAt ct.prototype = some pw →
        MessageHandler.eraseBackground.invoke env window w_param l_param t = Outcome.ok 1 t) ∧
      (∀ (t : Sys E) (h : HWND) (window : WindowPtr) (wobj : Window E) (ct : WindowClass E)
        (w_param : WPARAM) (l_param : LPARAM),
        t.native.GetProp h WINDOW_INSTANCE_PROPERTY = window → t.windowAt window = some wobj →
        wobj.window_class = p → t.classAt p = some ct →
        StdMap.find WM_CLOSE ct.message_handlers = some MessageHandler.swallowClose →
        StdMap.find WM_CLOSE wobj.message_handlers = none →
        Window.HandleMessage env h WM_CLOSE w_param l_param t = Outcome.ok 0 t ∧
          (M.exec (Window.HandleMessage env h WM_CLOSE w_param l_param) t).native.IsWindow h =
            t.native.IsWindow h) := by
  have hcons : ∃ c, s1.classAt p = some c ∧
      c.message_handlers = [(WM_CLOSE, MessageHandler.swallowClose),
        (WM_ERASEBKGND, MessageHandler.eraseBackground)] := by
    rcases hbuilt with hreg | ⟨hnone, hp, hget⟩
    · obtain ⟨c, pw, hcl, -, -, -, hmh, -, -⟩ := Register_ok s s1 n context p hreg
      exact ⟨c, hcl, hmh⟩
    · obtain ⟨c, hcl, hmh, -, -, -⟩ := GetByName_builds s s1 n context create p hnone hget hp
      exact ⟨c, hcl, hmh⟩
  obtain ⟨c, hcl, hmh⟩ := hcons
  refine ⟨c, hcl, hmh, ?_, ?_, ?_, ?_, ?_, ?_⟩
  · intro m
    rw [hmh]
    by_cases h1 : m = WM_CLOSE
    · subst h1
      simp [StdMap.find]
    · by_cases h2 : m = WM_ERASEBKGND
      · subst h2
        exact ⟨fun _ => Or.inr rfl, fun _ => rfl⟩
      · have h1' : ¬ WM_CLOSE = m := fun h => h1 h.symm
        have h2' : ¬ WM_ERASEBKGND = m := fun h => h2 h.symm
        simp [StdMap.find, h1, h2, h1', h2']
  · rw [getDefaultMessageHandler_eq s1 p WM_CLOSE c hcl, hmh]
    rfl
  · rw [getDefaultMessageHandler_eq s1 p WM_ERASEBKGND c hcl, hmh]
    rfl
  · intro t window w_param l_param
    rfl
  · intro t window wobj ct pw w_param l_param hw hct hpw
    by_cases hb : wobj.background = 0
    · simp [MessageHandler.invoke, M.bind_def, M.pure_def, M.andThen, M.ret, Window.getBackground,
        M.window, hw, hb, WindowClass.getBackground, M.windowClass, hct, Window.getNativeHandle,
        hpw, M.call, Window.getRectangle]
    · simp [MessageHandler.invoke, M.bind_def, M.pure_def, M.andThen, M.ret, Window.getBackground,
        M.window, hw, hb, Window.getNativeHandle, M.call, Window.getRectangle]
  · intro t h window wobj ct w_param l_param hprop hw hcls hct hclose hnone
    have hct' : t.classAt wobj.window_class = some ct := by rw [hcls]; exact hct
    have hres : resolved wobj ct WM_CLOSE = MessageHandler.swallowClose := by
      simp [resolved, hnone, hclose]
    have hH : Window.HandleMessage env h WM_CLOSE w_param l_param t = Outcome.ok 0 t := by
      rw [HandleMessage_managed env t h WM_CLOSE w_param l_param window wobj ct hprop hw hct',
        hres]
      have hne : ¬ WM_CLOSE = WM_NCDESTROY := by decide
      simp [M.andThen, MessageHandler.invoke, M.pure_def, M.ret, hne]
    exact ⟨hH, by simp only [M.exec, hH]⟩

/-- Witness of C18: the wrapper of the sample run, built by `Register(L"Widget",7)`; the first
window of the sample class receives `WM_CLOSE`. -/
theorem default_handlers_after_construction_witness :
    (∃ c : WindowClass Nat, Sample.registered.classAt 1 = some c ∧
      c.message_handlers = [(WM_CLOSE, MessageHandler.swallowClose),
        (WM_ERASEBKGND, MessageHandler.eraseBackground)]) ∧
    MessageHandler.eraseBackground.invoke Sample.env 2 0 0 Sample.twoWindows =
      Outcome.ok 1 Sample.twoWindows ∧
    Window.HandleMessage Sample.env 2 WM_CLOSE 0 0 Sample.twoWindows =
      Outcome.ok 0 Sample.twoWindows :=
  ⟨Exists.imp (fun _ hc => ⟨hc.1, hc.2.1⟩)
      (default_handlers_after_construction Sample.env Sample.start Sample.registered
        Sample.Widget 7 false 1 (Or.inl (by decide!))),
    by decide!, by decide!⟩

variable {E : Type}

/-- C19 fails on the sample run: after `Register(L"Widget",7)` the tracked map of the class is
empty and handle 1 is the prototype; `Window::FromHandle(1)` returns wrapper 2, and afterwards
the tracked map has the handle of the prototype as a key and `getWindows()` returns a wrapper
whose handle is the handle of the prototype. -/
theorem FromHandle_tracks_prototype :
    (Sample.registered.classAt 1).map (fun c => (c.instantiated_windows, c.prototype)) =
      some ([], 1) ∧
    Window.getNativeHandle 1 Sample.registered = Outcome.ok 1 Sample.registered ∧
    (Window.FromHandle 1 Sample.registered).returned = some 2 ∧
    (Sample.prototypeWrapped.classAt 1).map (fun c => (c.instantiated_windows, c.prototype)) =
      some ([(1, 2)], 1) ∧
    Window.getNativeHandle 1 Sample.prototypeWrapped = Outcome.ok 1 Sample.prototypeWrapped ∧
    WindowClass.getWindows 1 Sample.prototypeWrapped = Outcome.ok [2] Sample.prototypeWrapped ∧
    Window.getNativeHandle 2 Sample.prototypeWrapped = Outcome.ok 1 Sample.prototypeWrapped := by
  decide!

/-- C20 fails for a Detached wrapper.  In the sample run wrapper 2 is Detached and wrapper 3 is
Managed, both tracked by class 1.  `forget` of wrapper 2 erases the key of its current handle,
which is null, so nothing changes and `getWindows()` still returns wrapper 2; `forget` of the
Managed wrapper 3 removes exactly its entry. -/
theorem forget_keeps_detached :
    WindowClass.getWindows 1 Sample.oneDestroyed = Outcome.ok [2, 3] Sample.oneDestroyed ∧
    Window.getNativeHandle 2 Sample.oneDestroyed = Outcome.ok 0 Sample.oneDestroyed ∧
    Window.getNativeHandle 3 Sample.oneDestroyed = Outcome.ok 3 Sample.oneDestroyed ∧
    WindowClass.forget 1 2 Sample.oneDestroyed = Outcome.ok () Sample.oneDestroyed ∧
    (WindowClass.getWindows 1 (M.exec (WindowClass.forget 1 2) Sample.oneDestroyed)).returned =
      some [2, 3] ∧
    ((M.exec (WindowClass.forget 1 2) Sample.oneDestroyed).classAt 1).map
      (fun c => c.instantiated_windows) = some [(2, 2), (3, 3)] ∧
    ((M.exec (WindowClass.forget 1 3) Sample.oneDestroyed).classAt 1).map
      (fun c => c.instantiated_windows) = some [(2, 2)] := by
  decide!

variable {E : Type}

/-- C21: let the window `w` have no instance entry for `m`, and let `prev` be what its class
resolves for `m`.  `extendMessageHandler(m, h)` stores the extension of `prev` by `h` in the
instance table, and after any sequence of `setDefaultMessageHandler`, `extendDefaultMessageHandler`
and `unsetDefaultMessageHandler` calls on the class, for `m` or any other message, the handler
of `w` for `m` is still that same extension: called on any window it calls `prev`, then `h`, and
returns the result of `prev`. -/
theorem extendMessageHandler_captures (env : Env E) (s : Sys E) (w : WindowPtr)
    (wobj : Window E) (c : WindowClass E) (m : UINT) (h : E) (changes : List (DefaultChange E))
    (hw : s.windowAt w = some wobj) (hc : s.classAt wobj.window_class = some c)
    (hnone : StdMap.find m wobj.message_handlers = none) :
    ∃ prev s1 s2,
      WindowClass.getDefaultMessageHandler wobj.window_class m s = Outcome.ok prev s ∧
      Window.extendMessageHandler w m h s = Outcome.ok () s1 ∧
      Window.getMessageHandler w m s1 = Outcome.ok (MessageHandler.extended h prev) s1 ∧
      M.forEach (DefaultChange.run wobj.window_class) changes s1 = Outcome.ok () s2 ∧
      Window.getMessageHandler w m s2 = Outcome.ok (MessageHandler.extended h prev) s2 ∧
      ∀ (target : WindowPtr) (w_param : WPARAM) (l_param : LPARAM) (t : Sys E),
        (MessageHandler.extended h prev).invoke env target w_param l_param t =
          M.andThen (prev.invoke env target w_param l_param) (fun result =>
            M.andThen (M.modify (env.extending h target w_param l_param)) (fun _ =>
              M.ret result)) t := by
  have hprev := getDefaultMessageHandler_eq s wobj.window_class m c hc
  generalize (StdMap.find m c.message_handlers).getD
    (MessageHandler.nativeDefault wobj.window_class m) = prev at hprev
  have hget : Window.getMessageHandler w m s = Outcome.ok prev s := by
    simp [Window.getMessageHandler, M.bind_def, M.andThen, M.window, hw, hnone, hprev]
  have hext : Window.extendMessageHandler w m h s = Outcome.ok ()
      (s.putWindow w (some { wobj with
        message_handlers :=
          StdMap.assign m (MessageHandler.extended h prev) wobj.message_handlers })) := by
    simp [Window.extendMessageHandler, M.bind_def, M.andThen, hget, Window.setMessageHandler,
      M.updateWindow, hw]
  have hw1 : (s.putWindow w (some { wobj with
      message_handlers :=
        StdMap.assign m (MessageHandler.extended h prev) wobj.message_handlers })).windowAt w =
      some { wobj with
        message_handlers :=
          StdMap.assign m (MessageHandler.extended h prev) wobj.message_handlers } :=
    Sys.windowAt_putWindow_self s w wobj _ hw
  have hc1 : (s.putWindow w (some { wobj with
      message_handlers :=
        StdMap.assign m (MessageHandler.extended h prev) wobj.message_handlers })).classAt
      wobj.window_class = some c := hc
  have hresolved : ∀ c2 : WindowClass E, resolved
      { wobj with
        message_handlers :=
          StdMap.assign m (MessageHandler.extended h prev) wobj.message_handlers } c2 m =
      MessageHandler.extended h prev := by
    intro c2
    simp [resolved, StdMap.find_assign_self]
  obtain ⟨s2, c2, hall, hc2, hwin2, -⟩ := DefaultChange_run_all wobj.window_class changes _ c hc1
  have hw2 : s2.windowAt w = some { wobj with
      message_handlers :=
        StdMap.assign m (MessageHandler.extended h prev) wobj.message_handlers } := by
    have : s2.windowAt w = (s.putWindow w (some { wobj with
        message_handlers :=
          StdMap.assign m (MessageHandler.extended h prev) wobj.message_handlers })).windowAt w := by
      simp only [Sys.windowAt, hwin2]
    rw [this]
    exact hw1
  refine ⟨prev, _, s2, hprev, hext, ?_, hall, ?_, ?_⟩
  · rw [getMessageHandler_eq _ w m _ c hw1 hc1, hresolved]
  · rw [getMessageHandler_eq s2 w m _ c2 hw2 hc2, hresolved]
  · intro target w_param l_param t
    simp [MessageHandler.invoke, M.bind_def, M.pure_def]

/-- Witness of C21: the first window of the sample class extends `WM_CLOSE` with handler 5; then
the class unsets its `WM_CLOSE` handler, sets handler 9 and extends that with handler 4.  Window
2 still resolves the extension of the swallowing handler, window 3 resolves the new class
handler. -/
theorem extendMessageHandler_captures_witness :
    (∃ prev s1 s2,
      WindowClass.getDefaultMessageHandler 1 WM_CLOSE Sample.twoWindows =
        Outcome.ok prev Sample.twoWindows ∧
      Window.extendMessageHandler 2 WM_CLOSE 5 Sample.twoWindows = Outcome.ok () s1 ∧
      Window.getMessageHandler 2 WM_CLOSE s1 = Outcome.ok (MessageHandler.extended 5 prev) s1 ∧
      M.forEach (DefaultChange.run 1)
        [DefaultChange.unset WM_CLOSE, DefaultChange.set WM_CLOSE (MessageHandler.custom 9),
          DefaultChange.extend WM_CLOSE 4] s1 = Outcome.ok () s2 ∧
      Window.getMessageHandler 2 WM_CLOSE s2 = Outcome.ok (MessageHandler.extended 5 prev) s2 ∧
      ∀ (target : WindowPtr) (w_param : WPARAM) (l_param : LPARAM) (t : Sys Nat),
        (MessageHandler.extended 5 prev).invoke Sample.env target w_param l_param t =
          M.andThen (prev.invoke Sample.env target w_param l_param) (fun result =>
            M.andThen (M.modify (Sample.env.extending 5 target w_param l_param)) (fun _ =>
              M.ret result)) t) ∧
    (Window.getMessageHandler 2 WM_CLOSE
      (M.exec (M.forEach (DefaultChange.run 1)
        [DefaultChange.unset WM_CLOSE, DefaultChange.set WM_CLOSE (MessageHandler.custom 9),
          DefaultChange.extend WM_CLOSE 4])
        (M.exec (Window.extendMessageHandler 2 WM_CLOSE 5) Sample.twoWindows))).returned =
      some (MessageHandler.extended 5 MessageHandler.swallowClose) ∧
    (Window.getMessageHandler 3 WM_CLOSE
      (M.exec (M.forEach (DefaultChange.run 1)
        [DefaultChange.unset WM_CLOSE, DefaultChange.set WM_CLOSE (MessageHandler.custom 9),
          DefaultChange.extend WM_CLOSE 4])
        (M.exec (Window.extendMessageHandler 2 WM_CLOSE 5) Sample.twoWindows))).returned =
      some (MessageHandler.extended 4 (MessageHandler.custom 9)) :=
  ⟨extendMessageHandler_captures Sample.env Sample.twoWindows 2
      { background := 0, message_handlers := [], module := 7, window_class := 1,
        window_handle := 2 }
      { class_name := [119, 105, 100, 103, 101, 116], context := 7,
        instantiated_windows := [(2, 2), (3, 3)],
        message_handlers := [(16, MessageHandler.swallowClose),
          (20, MessageHandler.eraseBackground)],
        prototype := 1, default_window_procedure := 1 }
      WM_CLOSE 5
      [DefaultChange.unset WM_CLOSE, DefaultChange.set WM_CLOSE (MessageHandler.custom 9),
        DefaultChange.extend WM_CLOSE 4]
      (by decide!) (by decide!) (by decide!),
    by decide!, by decide!⟩

/-- C22 fails on the sample class, whose menu name is null and whose icon is
`IDI_APPLICATION`.  `setMenuName(77)` writes the class index `GCLP_HICON`: afterwards
`getMenuName()` still returns null, not 77, and `getIcon()` returns 77; the state is the very
state `setIcon(77)` leaves.  The small icon, the cursor, the background and the style are
unchanged, and `setIcon(77)` does make `getIcon()` return 77 and leaves `getMenuName()`
alone. -/
theorem setMenuName_writes_icon :
    WindowClass.getMenuName 1 Sample.registered = Outcome.ok 0 Sample.registered ∧
    WindowClass.getIcon 1 Sample.registered = Outcome.ok IDI_APPLICATION Sample.registered ∧
    (WindowClass.setMenuName 1 77 Sample.registered).returned = some () ∧
    WindowClass.getMenuName 1 Sample.menuNamed = Outcome.ok 0 Sample.menuNamed ∧
    WindowClass.getIcon 1 Sample.menuNamed = Outcome.ok 77 Sample.menuNamed ∧
    Sample.menuNamed = Sample.iconSet ∧
    (WindowClass.getIconSmall 1 Sample.menuNamed).returned =
      (WindowClass.getIconSmall 1 Sample.registered).returned ∧
    (WindowClass.getCursor 1 Sample.menuNamed).returned =
      (WindowClass.getCursor 1 Sample.registered).returned ∧
    (WindowClass.getBackground 1 Sample.menuNamed).returned =
      (WindowClass.getBackground 1 Sample.registered).returned ∧
    (WindowClass.getStyle 1 Sample.menuNamed).returned =
      (WindowClass.getStyle 1 Sample.registered).returned ∧
    (WindowClass.setIcon 1 77 Sample.registered).returned = some () ∧
    WindowClass.getIcon 1 Sample.iconSet = Outcome.ok 77 Sample.iconSet ∧
    (WindowClass.getMenuName 1 Sample.iconSet).returned =
      (WindowClass.getMenuName 1 Sample.registered).returned := by
  decide!

/-- C23 fails: `IsValidClassName` returns true for every name.  Its loop stops counting at 255,
so the test `length < 256` always holds; for a name of 256 letters it returns true, the
assertion of the constructor passes, and the constructor copies the name and its terminator, 257
units, into the 256 units of `class_name`, which is undefined.  For names of at most 255 units
the answer true is the one the claim gives. -/
theorem IsValidClassName_accepts_every_name :
    (∀ name : wstring, WindowClass.IsValidClassName name = true) ∧
    (∀ name : wstring, WindowClass.IsValidClassName.loop name 0 = min name.length 255) ∧
    Sample.longName.length = 256 ∧
    WindowClass.IsValidClassName Sample.longName = true ∧
    (WindowClass.create Sample.longName 7 Sample.start : Outcome Nat WindowClassPtr) =
      Outcome.fault ∧
    (WindowClass.Register Sample.longName 7 Sample.start : Outcome Nat WindowClassPtr) =
      Outcome.fault := by
  refine ⟨IsValidClassName_true, ?_, by decide!, by decide!, by decide!, by decide!⟩
  have hloop : ∀ (name : wstring) (k : Nat), k ≤ 255 →
      WindowClass.IsValidClassName.loop name k = min (k + name.length) 255 := by
    intro name
    induction name with
    | nil =>
      intro k hk
      simp [WindowClass.IsValidClassName.loop, hk]
    | cons a rest ih =>
      intro k hk
      by_cases hlt : k < 255
      · simp only [WindowClass.IsValidClassName.loop, if_pos hlt, List.length_cons]
        rw [ih (k + 1) (by omega)]
        congr 1
        omega
      · simp only [WindowClass.IsValidClassName.loop, if_neg hlt, List.length_cons]
        omega
  intro name
  rw [hloop name 0 (by omega)]
  simp

end OS
